import Mathlib

/-!
# SceneManager.cpp: texture registry, material table, transform composer,
# shader parameter binder, scene setup and render pass

A shallow embedding of `Projects/7-1_FinalProjectMilestones/Source/SceneManager.cpp`.

* The scalar type `float` is a type parameter `F`; values are only copied by
  the registry, table and binder code, and the transform composer is studied
  over the real numbers.
* Everything the C++ object can observe or change is a field of `SceneManager`:
  its members and `trace`, the chronological list of calls made to the external
  collaborators (shader uniform writes, OpenGL calls, mesh calls).
* A member function that can read or write outside an array, or call through a
  null pointer, returns `Except Fault _`.
* `while` and `for` loops are total functions defined by well-founded recursion
  on the loop variant.
* `RenderScene` is embedded statement by statement and shown equal to running
  the list of its calls, `RenderScene.calls`; facts about the fixed scene are
  then read off that list.
-/

namespace CS330

/-! ## Data model -/

namespace glm

/-- The GLM vector of two floats. -/
structure vec2 (F : Type) where
  x : F
  y : F

/-- The GLM vector of three floats. -/
structure vec3 (F : Type) where
  x : F
  y : F
  z : F

/-- The GLM vector of four floats; `r g b a` in the source are `x y z w`. -/
structure vec4 (F : Type) where
  x : F
  y : F
  z : F
  w : F

/-- The GLM 4x4 matrix, written as a mathematical matrix: `M i j` is row `i`,
column `j` (GLM stores it as `M[j][i]`), and `*` is the matrix product. -/
abbrev mat4 (F : Type) := Matrix (Fin 4) (Fin 4) F

end glm

/-- Modelled from the spec: the record `OBJECT_MATERIAL` declared in
`SceneManager.h` (section 3, Material): tag, ambient colour, ambient strength,
diffuse colour, specular colour, shininess. -/
structure OBJECT_MATERIAL (F : Type) where
  ambientColor : glm.vec3 F
  ambientStrength : F
  diffuseColor : glm.vec3 F
  specularColor : glm.vec3 F
  shininess : F
  tag : String

/-- Modelled from the spec: the record `TEXTURE_INFO` declared in
`SceneManager.h` (section 3, TextureEntry): a tag and the GPU texture
identifier. `ID` is an unsigned 32-bit integer (its address is passed to
`glGenTextures`), kept as a `Nat` below `2 ^ 32`. -/
structure TEXTURE_INFO where
  tag : String
  ID : Nat

/-- The values a shader uniform write can carry. -/
inductive UniformValue (F : Type) where
  | int (v : Int)
  | bool (v : Bool)
  | float (v : F)
  | vec2 (v : glm.vec2 F)
  | vec3 (v : glm.vec3 F)
  | vec4 (v : glm.vec4 F)
  | mat4 (v : glm.mat4 F)
  | sampler2D (v : Int)

/-- The five primitive meshes of `ShapeMeshes`. -/
inductive MeshKind where
  | plane | sphere | cylinder | torus | box

/-- The pixel formats passed to `glTexImage2D`. -/
inductive PixelFormat where
  | rgb | rgba

/-- The calls made to the external collaborators. -/
inductive Event (F : Type) where
  /-- The call `m_pShaderManager->setXValue(name, value)`. -/
  | uniform (name : String) (value : UniformValue F)
  /-- The call `stbi_set_flip_vertically_on_load(flag)`. -/
  | stbiSetFlip (flag : Bool)
  /-- The call `stbi_image_free(image)`. -/
  | stbiImageFree
  /-- The call `glGenTextures(1, &id)`, with the identifier it produced. -/
  | glGenTextures (id : Nat)
  /-- The call `glBindTexture(GL_TEXTURE_2D, id)`. -/
  | glBindTexture (id : Nat)
  /-- The call `glTexParameteri(GL_TEXTURE_2D, pname, param)`. -/
  | glTexParameteri (pname : String) (param : String)
  /-- The call `glTexImage2D(GL_TEXTURE_2D, 0, fmt, width, height, 0, fmt, ..)`. -/
  | glTexImage2D (fmt : PixelFormat) (width : Int) (height : Int)
  /-- The call `glGenerateMipmap(GL_TEXTURE_2D)`. -/
  | glGenerateMipmap
  /-- The call `glActiveTexture(GL_TEXTURE0 + unit)`. -/
  | glActiveTexture (unit : Nat)
  /-- The call `m_basicMeshes->LoadXMesh()`. -/
  | loadMesh (kind : MeshKind)
  /-- The call `m_basicMeshes->DrawXMesh()`. -/
  | drawMesh (kind : MeshKind)

/-- The ways a member function can leave defined behaviour. -/
inductive Fault where
  /-- A call through `m_pShaderManager` while it is `NULL`. -/
  | nullDeref
  /-- An access to `m_textureIDs` outside the array. -/
  | outOfBounds
  deriving DecidableEq

/-- Modelled from the spec: the members of `SceneManager` declared in
`SceneManager.h`. `m_pShaderManager` records whether the pointer is non-null;
`m_textureIDs` is the fixed array of texture slots (its length is the array's
capacity, 16 in the program); `m_loadedTextures` is the `int` slot counter;
`m_objectMaterials` is the `std::vector` of materials. `trace` lists the calls
made to external collaborators so far, oldest first. -/
structure SceneManager (F : Type) where
  m_pShaderManager : Bool
  m_textureIDs : List TEXTURE_INFO
  m_loadedTextures : Nat
  m_objectMaterials : List (OBJECT_MATERIAL F)
  trace : List (Event F)

/-- Modelled from the spec: the capacity of the array `m_textureIDs` declared in
`SceneManager.h` ("There are up to 16 slots"). -/
def MAX_TEXTURES : Nat := 16

variable {F : Type}

/-! ## Material table -/

/-- The `while` loop of `FindMaterial`, from the state `(index, bFound, material)`. -/
def FindMaterial.loop (m_objectMaterials : List (OBJECT_MATERIAL F)) (tag : String)
    (index : Nat) (bFound : Bool) (material : OBJECT_MATERIAL F) :
    Nat × Bool × OBJECT_MATERIAL F :=
  if h : index < m_objectMaterials.length ∧ bFound = false then
    if (m_objectMaterials.get ⟨index, h.1⟩).tag = tag then
      FindMaterial.loop m_objectMaterials tag index true
        { material with
          ambientColor := (m_objectMaterials.get ⟨index, h.1⟩).ambientColor
          ambientStrength := (m_objectMaterials.get ⟨index, h.1⟩).ambientStrength
          diffuseColor := (m_objectMaterials.get ⟨index, h.1⟩).diffuseColor
          specularColor := (m_objectMaterials.get ⟨index, h.1⟩).specularColor
          shininess := (m_objectMaterials.get ⟨index, h.1⟩).shininess }
    else
      FindMaterial.loop m_objectMaterials tag (index + 1) bFound material
  else
    (index, bFound, material)
termination_by (m_objectMaterials.length - index) + (if bFound then 0 else 1)
decreasing_by
  · simp_wf
    simp [h.2]
  · simp_wf
    omega

/-- The member function `SceneManager::FindMaterial(tag, material)`: the returned flag and the
contents of the reference parameter `material` afterwards. -/
def FindMaterial (s : SceneManager F) (tag : String) (material : OBJECT_MATERIAL F) :
    Bool × OBJECT_MATERIAL F :=
  if s.m_objectMaterials.length = 0 then
    (false, material)
  else
    let r := FindMaterial.loop s.m_objectMaterials tag 0 false material
    (true, r.2.2)

/-! ## Shader uniform interface -/

/-- Modelled from the spec: a uniform write through `m_pShaderManager` (section
6, shader uniform interface: a named-uniform write). The call is recorded at the
end of the trace; through a null pointer it is a fault. -/
def SceneManager.writeUniform (s : SceneManager F) (name : String) (value : UniformValue F) :
    Except Fault (SceneManager F) :=
  if s.m_pShaderManager then
    .ok { s with trace := s.trace ++ [Event.uniform name value] }
  else
    .error Fault.nullDeref

/-- Modelled from the spec: `ShaderManager::setIntValue(name, value)`. -/
def SceneManager.setIntValue (s : SceneManager F) (name : String) (value : Int) :
    Except Fault (SceneManager F) :=
  s.writeUniform name (UniformValue.int value)

/-- Modelled from the spec: `ShaderManager::setBoolValue(name, value)`. -/
def SceneManager.setBoolValue (s : SceneManager F) (name : String) (value : Bool) :
    Except Fault (SceneManager F) :=
  s.writeUniform name (UniformValue.bool value)

/-- Modelled from the spec: `ShaderManager::setFloatValue(name, value)`. -/
def SceneManager.setFloatValue (s : SceneManager F) (name : String) (value : F) :
    Except Fault (SceneManager F) :=
  s.writeUniform name (UniformValue.float value)

/-- Modelled from the spec: `ShaderManager::setVec2Value(name, value)`. -/
def SceneManager.setVec2Value (s : SceneManager F) (name : String) (value : glm.vec2 F) :
    Except Fault (SceneManager F) :=
  s.writeUniform name (UniformValue.vec2 value)

/-- Modelled from the spec: `ShaderManager::setVec3Value(name, value)`. -/
def SceneManager.setVec3Value (s : SceneManager F) (name : String) (value : glm.vec3 F) :
    Except Fault (SceneManager F) :=
  s.writeUniform name (UniformValue.vec3 value)

/-- Modelled from the spec: `ShaderManager::setVec4Value(name, value)`. -/
def SceneManager.setVec4Value (s : SceneManager F) (name : String) (value : glm.vec4 F) :
    Except Fault (SceneManager F) :=
  s.writeUniform name (UniformValue.vec4 value)

/-- Modelled from the spec: `ShaderManager::setMat4Value(name, value)`. -/
def SceneManager.setMat4Value (s : SceneManager F) (name : String) (value : glm.mat4 F) :
    Except Fault (SceneManager F) :=
  s.writeUniform name (UniformValue.mat4 value)

/-- Modelled from the spec: `ShaderManager::setSampler2DValue(name, value)`. -/
def SceneManager.setSampler2DValue (s : SceneManager F) (name : String) (value : Int) :
    Except Fault (SceneManager F) :=
  s.writeUniform name (UniformValue.sampler2D value)

/-- The uniform writes of a trace, oldest first. -/
def uniformWrites : List (Event F) → List (String × UniformValue F)
  | [] => []
  | Event.uniform name value :: t => (name, value) :: uniformWrites t
  | _ :: t => uniformWrites t

/-- The value a uniform holds after a trace: that of the last write to its name,
`none` if the trace never wrote it. -/
def uniformValue (t : List (Event F)) (name : String) : Option (UniformValue F) :=
  ((uniformWrites t).reverse.find? (fun w => w.1 == name)).map (fun w => w.2)

/-- The implicit conversion of a C++ `bool` argument to `int`. -/
def boolToInt (b : Bool) : Int := if b then 1 else 0

/-- The conversion of an unsigned 32-bit value to `int` (two's complement). -/
def uintToInt (u : Nat) : Int :=
  if u % 2 ^ 32 < 2 ^ 31 then ((u % 2 ^ 32 : Nat) : Int) else ((u % 2 ^ 32 : Nat) : Int) - 2 ^ 32

/-! ## Global names -/

/-- The uniform name of the model matrix. -/
def g_ModelName : String := "model"

/-- The uniform name of the flat object colour. -/
def g_ColorValueName : String := "objectColor"

/-- The uniform name of the active texture sampler. -/
def g_TextureValueName : String := "objectTexture"

/-- The uniform name of the texture-mode flag. -/
def g_UseTextureName : String := "bUseTexture"

/-- The uniform name of the lighting flag. -/
def g_UseLightingName : String := "bUseLighting"

/-! ## Texture registry -/

/-- What `stbi_load` reports for a decoded image; the pixel data itself is not
inspected by the program. -/
structure Image where
  width : Int
  height : Int
  colorChannels : Int

/-- The member function `SceneManager::CreateGLTexture(filename, tag)`. `image` is what `stbi_load`
returned for `filename` (`none` for a null pointer) and `newID` is the
identifier `glGenTextures` produces when called. The diagnostic output on
`std::cout` is not recorded. -/
def CreateGLTexture (s : SceneManager F) (_filename : String) (tag : String)
    (image : Option Image) (newID : Nat) : Except Fault (Bool × SceneManager F) :=
  let s := { s with trace := s.trace ++ [Event.stbiSetFlip true] }
  match image with
  | some img =>
    let textureID := newID
    let s := { s with trace := s.trace ++
      [Event.glGenTextures textureID,
       Event.glBindTexture textureID,
       Event.glTexParameteri "GL_TEXTURE_WRAP_S" "GL_REPEAT",
       Event.glTexParameteri "GL_TEXTURE_WRAP_T" "GL_REPEAT",
       Event.glTexParameteri "GL_TEXTURE_MIN_FILTER" "GL_LINEAR",
       Event.glTexParameteri "GL_TEXTURE_MAG_FILTER" "GL_LINEAR"] }
    let upload : Option (Event F) :=
      if img.colorChannels = 3 then
        some (Event.glTexImage2D PixelFormat.rgb img.width img.height)
      else if img.colorChannels = 4 then
        some (Event.glTexImage2D PixelFormat.rgba img.width img.height)
      else
        none
    match upload with
    | none => .ok (false, s)
    | some ev =>
      let s := { s with trace := s.trace ++
        [ev, Event.glGenerateMipmap, Event.stbiImageFree, Event.glBindTexture 0] }
      if s.m_loadedTextures < s.m_textureIDs.length then
        .ok (true,
          { s with
            m_textureIDs := s.m_textureIDs.set s.m_loadedTextures { tag := tag, ID := textureID }
            m_loadedTextures := s.m_loadedTextures + 1 })
      else
        .error Fault.outOfBounds
  | none => .ok (false, s)

/-- The `while` loop of `FindTextureID`, from the state `(index, bFound,
textureID)`; `reads` collects the indices at which `m_textureIDs` is read. -/
def FindTextureID.loop (m_textureIDs : List TEXTURE_INFO) (m_loadedTextures : Nat)
    (tag : String)
    (index : Nat) (bFound : Bool) (textureID : Int) (reads : List Nat) :
    Except Fault (Int × List Nat) :=
  if h : index < m_loadedTextures ∧ bFound = false then
    match m_textureIDs[index]? with
    | none => .error Fault.outOfBounds
    | some entry =>
      if entry.tag = tag then
        FindTextureID.loop m_textureIDs m_loadedTextures tag index true (uintToInt entry.ID)
          (reads ++ [index])
      else
        FindTextureID.loop m_textureIDs m_loadedTextures tag (index + 1) bFound textureID
          (reads ++ [index])
  else
    .ok (textureID, reads)
termination_by (m_loadedTextures - index) + (if bFound then 0 else 1)
decreasing_by
  · simp_wf
    simp [h.2]
  · simp_wf
    omega

/-- The member function `SceneManager::FindTextureID(tag)`. -/
def FindTextureID (s : SceneManager F) (tag : String) : Except Fault Int :=
  (FindTextureID.loop s.m_textureIDs s.m_loadedTextures tag 0 false (-1) []).map (fun r => r.1)

/-- The `while` loop of `FindTextureSlot`, from the state `(index, bFound,
textureSlot)`; `reads` collects the indices at which `m_textureIDs` is read. -/
def FindTextureSlot.loop (m_textureIDs : List TEXTURE_INFO) (m_loadedTextures : Nat)
    (tag : String)
    (index : Nat) (bFound : Bool) (textureSlot : Int) (reads : List Nat) :
    Except Fault (Int × List Nat) :=
  if h : index < m_loadedTextures ∧ bFound = false then
    match m_textureIDs[index]? with
    | none => .error Fault.outOfBounds
    | some entry =>
      if entry.tag = tag then
        FindTextureSlot.loop m_textureIDs m_loadedTextures tag index true (index : Int)
          (reads ++ [index])
      else
        FindTextureSlot.loop m_textureIDs m_loadedTextures tag (index + 1) bFound textureSlot
          (reads ++ [index])
  else
    .ok (textureSlot, reads)
termination_by (m_loadedTextures - index) + (if bFound then 0 else 1)
decreasing_by
  · simp_wf
    simp [h.2]
  · simp_wf
    omega

/-- The member function `SceneManager::FindTextureSlot(tag)`. -/
def FindTextureSlot (s : SceneManager F) (tag : String) : Except Fault Int :=
  (FindTextureSlot.loop s.m_textureIDs s.m_loadedTextures tag 0 false (-1) []).map (fun r => r.1)

/-! ## The GLM functions used by the transform composer -/

namespace glm

/-- The elementary functions of the scalar type that GLM calls, and the constant
pi that `glm::radians` multiplies by. -/
structure FloatOps (F : Type) where
  cos : F → F
  sin : F → F
  sqrt : F → F
  pi : F

variable [Field F]

/-- The GLM function `glm::radians(degrees)`: degrees times pi / 180. -/
def radians (ops : FloatOps F) (degrees : F) : F :=
  degrees * (ops.pi / 180)

/-- The GLM function `glm::dot(a, b)` on three-component vectors. -/
def dot (a b : vec3 F) : F :=
  a.x * b.x + a.y * b.y + a.z * b.z

/-- The GLM function `glm::normalize(v)`: `v * inversesqrt(dot(v, v))`. -/
def normalize (ops : FloatOps F) (v : vec3 F) : vec3 F :=
  let k := 1 / ops.sqrt (dot v v)
  { x := v.x * k, y := v.y * k, z := v.z * k }

/-- The GLM function `glm::scale(v)`: the identity with its first three columns multiplied by the
components of `v`. -/
def scale (v : vec3 F) : mat4 F :=
  !![v.x, 0, 0, 0;
     0, v.y, 0, 0;
     0, 0, v.z, 0;
     0, 0, 0, 1]

/-- The GLM function `glm::translate(v)`: the identity with `v` in its last column. -/
def translate (v : vec3 F) : mat4 F :=
  !![1, 0, 0, v.x;
     0, 1, 0, v.y;
     0, 0, 1, v.z;
     0, 0, 0, 1]

/-- The GLM function `glm::rotate(angle, v)`: the rotation by `angle` radians about the axis
`normalize(v)`, built as GLM does from `c = cos(angle)`, `s = sin(angle)` and
`temp = (1 - c) * axis`. -/
def rotate (ops : FloatOps F) (angle : F) (v : vec3 F) : mat4 F :=
  let c := ops.cos angle
  let s := ops.sin angle
  let axis := normalize ops v
  let temp : vec3 F := { x := (1 - c) * axis.x, y := (1 - c) * axis.y, z := (1 - c) * axis.z }
  !![c + temp.x * axis.x, temp.y * axis.x - s * axis.z, temp.z * axis.x + s * axis.y, 0;
     temp.x * axis.y + s * axis.z, c + temp.y * axis.y, temp.z * axis.y - s * axis.x, 0;
     temp.x * axis.z - s * axis.y, temp.y * axis.z + s * axis.x, c + temp.z * axis.z, 0;
     0, 0, 0, 1]

end glm

/-! ## Transform composer and shader parameter binder -/

/-- The member function `SceneManager::SetTransformations(scaleXYZ, XrotationDegrees,
YrotationDegrees, ZrotationDegrees, positionXYZ)`. -/
def SetTransformations [Field F] (ops : glm.FloatOps F) (s : SceneManager F)
    (scaleXYZ : glm.vec3 F) (XrotationDegrees YrotationDegrees ZrotationDegrees : F)
    (positionXYZ : glm.vec3 F) : Except Fault (SceneManager F) :=
  let scale := glm.scale scaleXYZ
  let rotationX := glm.rotate ops (glm.radians ops XrotationDegrees) { x := 1, y := 0, z := 0 }
  let rotationY := glm.rotate ops (glm.radians ops YrotationDegrees) { x := 0, y := 1, z := 0 }
  let rotationZ := glm.rotate ops (glm.radians ops ZrotationDegrees) { x := 0, y := 0, z := 1 }
  let translation := glm.translate positionXYZ
  let modelView : glm.mat4 F := translation * rotationX * rotationY * rotationZ * scale
  if s.m_pShaderManager then
    s.setMat4Value g_ModelName modelView
  else
    .ok s

/-- The member function `SceneManager::SetShaderColor(redColorValue, greenColorValue,
blueColorValue, alphaValue)`. -/
def SetShaderColor (s : SceneManager F)
    (redColorValue greenColorValue blueColorValue alphaValue : F) :
    Except Fault (SceneManager F) :=
  let currentColor : glm.vec4 F :=
    { x := redColorValue, y := greenColorValue, z := blueColorValue, w := alphaValue }
  if s.m_pShaderManager then do
    let s ← s.setIntValue g_UseTextureName (boolToInt false)
    s.setVec4Value g_ColorValueName currentColor
  else
    .ok s

/-- The member function `SceneManager::SetShaderTexture(textureTag)`. -/
def SetShaderTexture (s : SceneManager F) (textureTag : String) :
    Except Fault (SceneManager F) :=
  if s.m_pShaderManager then do
    let s ← s.setIntValue g_UseTextureName (boolToInt true)
    let textureID ← FindTextureSlot s textureTag
    s.setSampler2DValue g_TextureValueName textureID
  else
    .ok s

/-- The member function `SceneManager::SetTextureUVScale(u, v)`. -/
def SetTextureUVScale (s : SceneManager F) (u v : F) : Except Fault (SceneManager F) :=
  if s.m_pShaderManager then
    s.setVec2Value "UVscale" { x := u, y := v }
  else
    .ok s

/-- The member function `SceneManager::SetShaderMaterial(materialTag)`. `uninit` is the content of
the local `OBJECT_MATERIAL material` before `FindMaterial` is called: the
variable is declared without an initialiser, so its numeric fields are
indeterminate. -/
def SetShaderMaterial (s : SceneManager F) (materialTag : String)
    (uninit : OBJECT_MATERIAL F) : Except Fault (SceneManager F) :=
  if s.m_objectMaterials.length > 0 then
    let r := FindMaterial s materialTag uninit
    let bReturn := r.1
    let material := r.2
    if bReturn = true then do
      let s ← s.setVec3Value "material.ambientColor" material.ambientColor
      let s ← s.setFloatValue "material.ambientStrength" material.ambientStrength
      let s ← s.setVec3Value "material.diffuseColor" material.diffuseColor
      let s ← s.setVec3Value "material.specularColor" material.specularColor
      s.setFloatValue "material.shininess" material.shininess
    else
      .ok s
  else
    .ok s

/-! ## Scene setup -/

/-- Modelled from the spec: the call `m_basicMeshes->LoadXMesh()` of the mesh
provider (section 6), for the mesh `kind`; the call is recorded in the trace and
returns. -/
def SceneManager.LoadMesh (s : SceneManager F) (kind : MeshKind) :
    Except Fault (SceneManager F) :=
  .ok { s with trace := s.trace ++ [Event.loadMesh kind] }

/-- Modelled from the spec: the call `m_basicMeshes->DrawXMesh()` of the mesh
provider (section 6), for the mesh `kind`; the call is recorded in the trace and
returns. -/
def SceneManager.DrawMesh (s : SceneManager F) (kind : MeshKind) :
    Except Fault (SceneManager F) :=
  .ok { s with trace := s.trace ++ [Event.drawMesh kind] }

/-- The `for` loop of `BindGLTextures`, from the loop variable `i`, on the
trace so far. -/
def BindGLTextures.loop (m_textureIDs : List TEXTURE_INFO) (m_loadedTextures : Nat)
    (i : Nat) (trace : List (Event F)) : Except Fault (List (Event F)) :=
  if i < m_loadedTextures then
    match m_textureIDs[i]? with
    | none => .error Fault.outOfBounds
    | some entry =>
      BindGLTextures.loop m_textureIDs m_loadedTextures (i + 1)
        (trace ++ [Event.glActiveTexture i, Event.glBindTexture entry.ID])
  else
    .ok trace
termination_by m_loadedTextures - i

/-- The member function `SceneManager::BindGLTextures()`. -/
def BindGLTextures (s : SceneManager F) : Except Fault (SceneManager F) :=
  (BindGLTextures.loop s.m_textureIDs s.m_loadedTextures 0 s.trace).map
    (fun t => { s with trace := t })

/-- The `for` loop of `DestroyGLTextures`, from the loop variable `i`, on the
slot array and the trace so far. `newIDs i` is the identifier that the
`glGenTextures` call of pass `i` writes into `m_textureIDs[i].ID`. -/
def DestroyGLTextures.loop (m_loadedTextures : Nat) (newIDs : Nat → Nat) (i : Nat)
    (m_textureIDs : List TEXTURE_INFO) (trace : List (Event F)) :
    Except Fault (List TEXTURE_INFO × List (Event F)) :=
  if i < m_loadedTextures then
    match m_textureIDs[i]? with
    | none => .error Fault.outOfBounds
    | some entry =>
      DestroyGLTextures.loop m_loadedTextures newIDs (i + 1)
        (m_textureIDs.set i { entry with ID := newIDs i })
        (trace ++ [Event.glGenTextures (newIDs i)])
  else
    .ok (m_textureIDs, trace)
termination_by m_loadedTextures - i

/-- The member function `SceneManager::DestroyGLTextures()`. -/
def DestroyGLTextures (s : SceneManager F) (newIDs : Nat → Nat) :
    Except Fault (SceneManager F) :=
  (DestroyGLTextures.loop s.m_loadedTextures newIDs 0 s.m_textureIDs s.trace).map
    (fun r => { s with m_textureIDs := r.1, trace := r.2 })

/-- The member function `SceneManager::LoadSceneTextures()`. `images k` is what
`stbi_load` returns for the file of the `k`-th `CreateGLTexture` call and
`newIDs k` is the identifier `glGenTextures` produces in that call. The value
returned by each `CreateGLTexture` call is stored in `bReturn` and not used. -/
def LoadSceneTextures (s : SceneManager F) (images : Nat → Option Image) (newIDs : Nat → Nat) :
    Except Fault (SceneManager F) := do
  let r ← CreateGLTexture s "Textures/globe_base.jpg" "globe_base" (images 0) (newIDs 0)
  let r ← CreateGLTexture r.2 "Textures/blackwood.jpg" "blackwood" (images 1) (newIDs 1)
  let r ← CreateGLTexture r.2 "Textures/globe.png" "globe" (images 2) (newIDs 2)
  let r ← CreateGLTexture r.2 "Textures/rubiks.png" "rubiks" (images 3) (newIDs 3)
  let r ← CreateGLTexture r.2 "Textures/floor.jpg" "floor" (images 4) (newIDs 4)
  let r ← CreateGLTexture r.2 "Textures/wall.jpg" "wall" (images 5) (newIDs 5)
  let r ← CreateGLTexture r.2 "Textures/silver.jpg" "silver" (images 6) (newIDs 6)
  let r ← CreateGLTexture r.2 "Textures/earth.jpg" "earth" (images 7) (newIDs 7)
  let r ← CreateGLTexture r.2 "Textures/booksides.jpg" "booksides" (images 8) (newIDs 8)
  let r ← CreateGLTexture r.2 "Textures/bookspines.jpg" "bookspines" (images 9) (newIDs 9)
  let r ← CreateGLTexture r.2 "Textures/bookstop.jpg" "bookstop" (images 10) (newIDs 10)
  let r ← CreateGLTexture r.2 "Textures/booksback.jpg" "booksback" (images 11) (newIDs 11)
  BindGLTextures r.2

/-- The seven material records that `DefineObjectMaterials` builds, in the order
in which it appends them. -/
def DefineObjectMaterials.materials [Field F] : List (OBJECT_MATERIAL F) :=
  [ { ambientStrength := 0.3
      ambientColor := { x := 0.4, y := 0.2, z := 0.1 }
      diffuseColor := { x := 0.6, y := 0.3, z := 0.15 }
      specularColor := { x := 0.2, y := 0.2, z := 0.2 }
      shininess := 1.0
      tag := "wood" },
    { ambientStrength := 0.25
      ambientColor := { x := 0.1, y := 0.05, z := 0.05 }
      diffuseColor := { x := 0.2, y := 0.1, z := 0.08 }
      specularColor := { x := 0.05, y := 0.05, z := 0.05 }
      shininess := 8.0
      tag := "blackwood" },
    { ambientStrength := 0.1
      ambientColor := { x := 0.2, y := 0.3, z := 0.4 }
      diffuseColor := { x := 0.3, y := 0.4, z := 0.6 }
      specularColor := { x := 0.8, y := 0.8, z := 0.8 }
      shininess := 128.0
      tag := "glass" },
    { ambientStrength := 0.2
      ambientColor := { x := 0.3, y := 0.3, z := 0.3 }
      diffuseColor := { x := 0.5, y := 0.5, z := 0.5 }
      specularColor := { x := 0.7, y := 0.7, z := 0.7 }
      shininess := 32.0
      tag := "plastic" },
    { ambientStrength := 0.2
      ambientColor := { x := 0.5, y := 0.5, z := 0.5 }
      diffuseColor := { x := 0.7, y := 0.7, z := 0.7 }
      specularColor := { x := 1.0, y := 1.0, z := 1.0 }
      shininess := 64.0
      tag := "shinyplastic" },
    { ambientStrength := 0.1
      ambientColor := { x := 0.5, y := 0.5, z := 0.5 }
      diffuseColor := { x := 0.5, y := 0.5, z := 0.5 }
      specularColor := { x := 0.3, y := 0.3, z := 0.3 }
      shininess := 0.0
      tag := "wall" },
    { ambientStrength := 0.3
      ambientColor := { x := 0.6, y := 0.6, z := 0.6 }
      diffuseColor := { x := 0.7, y := 0.7, z := 0.7 }
      specularColor := { x := 0.9, y := 0.9, z := 0.9 }
      shininess := 32.0
      tag := "metal" } ]

/-- The member function `SceneManager::DefineObjectMaterials()`: seven
`push_back` calls on `m_objectMaterials`. -/
def DefineObjectMaterials [Field F] (s : SceneManager F) : SceneManager F :=
  { s with m_objectMaterials := s.m_objectMaterials ++ DefineObjectMaterials.materials }

/-- The member function `SceneManager::SetupSceneLights()`. Every call goes
through `m_pShaderManager` without a null test. -/
def SetupSceneLights [Field F] (s : SceneManager F) : Except Fault (SceneManager F) := do
  let s ← s.setVec3Value "lightSources[0].position" { x := 0.0, y := 30.0, z := 0.0 }
  let s ← s.setVec3Value "lightSources[0].ambientColor" { x := 0.3, y := 0.25, z := 0.2 }
  let s ← s.setVec3Value "lightSources[0].diffuseColor" { x := 0.9, y := 0.85, z := 0.75 }
  let s ← s.setVec3Value "lightSources[0].specularColor" { x := 1.0, y := 1.0, z := 0.9 }
  let s ← s.setFloatValue "lightSources[0].focalStrength" 64.0
  let s ← s.setFloatValue "lightSources[0].specularIntensity" 0.2
  let s ← s.setVec3Value "lightSources[1].position" { x := (-10.0), y := 23.0, z := 5.0 }
  let s ← s.setVec3Value "lightSources[1].ambientColor" { x := 0.2, y := 0.15, z := 0.1 }
  let s ← s.setVec3Value "lightSources[1].diffuseColor" { x := 0.8, y := 0.7, z := 0.6 }
  let s ← s.setVec3Value "lightSources[1].specularColor" { x := 0.9, y := 0.8, z := 0.7 }
  let s ← s.setFloatValue "lightSources[1].focalStrength" 32.0
  let s ← s.setFloatValue "lightSources[1].specularIntensity" 0.1
  let s ← s.setVec3Value "lightSources[2].position" { x := 0.0, y := 0.0, z := 0.0 }
  let s ← s.setVec3Value "lightSources[2].ambientColor" { x := 0.1, y := 0.1, z := 0.1 }
  let s ← s.setVec3Value "lightSources[2].diffuseColor" { x := 0.0, y := 0.0, z := 0.0 }
  let s ← s.setVec3Value "lightSources[2].specularColor" { x := 0.0, y := 0.0, z := 0.0 }
  let s ← s.setVec3Value "lightSources[2].direction" { x := 0.0, y := 0.0, z := 0.0 }
  let s ← s.setFloatValue "lightSources[2].focalStrength" 1.0
  let s ← s.setFloatValue "lightSources[2].specularIntensity" 0.0
  s.setBoolValue "bUseLighting" true

/-- The member function `SceneManager::PrepareScene()`, with the external
results of the texture loads as in `LoadSceneTextures`. -/
def PrepareScene [Field F] (s : SceneManager F) (images : Nat → Option Image)
    (newIDs : Nat → Nat) : Except Fault (SceneManager F) := do
  let s ← s.LoadMesh MeshKind.plane
  let s ← s.LoadMesh MeshKind.sphere
  let s ← s.LoadMesh MeshKind.cylinder
  let s ← s.LoadMesh MeshKind.torus
  let s ← s.LoadMesh MeshKind.box
  let s ← LoadSceneTextures s images newIDs
  let s := DefineObjectMaterials s
  SetupSceneLights s

/-! ## Sequences of texture loads -/

/-- One `CreateGLTexture` call: its two arguments and the external results it
meets (what `stbi_load` returns and the identifier `glGenTextures` produces). -/
structure LoadRequest where
  filename : String
  tag : String
  image : Option Image
  newID : Nat

/-- Whether the request decodes to an image with 3 or 4 colour channels. -/
def LoadRequest.valid (r : LoadRequest) : Bool :=
  match r.image with
  | some img => decide (img.colorChannels = 3 ∨ img.colorChannels = 4)
  | none => false

/-- The registry entry a valid request leaves behind. -/
def LoadRequest.entry (r : LoadRequest) : TEXTURE_INFO :=
  { tag := r.tag, ID := r.newID }

/-- A sequence of `CreateGLTexture` calls, each made on the state the previous
one left; the returned flags are dropped. -/
def loadAll (s : SceneManager F) : List LoadRequest → Except Fault (SceneManager F)
  | [] => .ok s
  | r :: rest => do
    let out ← CreateGLTexture s r.filename r.tag r.image r.newID
    loadAll out.2 rest

/-! ## The render pass -/

/-- The part of `RenderScene` that draws the wall and the ground plane (source
lines 585 to 649).
The locals `scaleXYZ`, `XrotationDegrees`, `YrotationDegrees`, `ZrotationDegrees`
and `positionXYZ` are assigned before each `SetTransformations` call; `uninit k`
is the uninitialised local of the `SetShaderMaterial` call of object `k`. -/
def RenderScene.wallAndGround [Field F] (ops : glm.FloatOps F) (s : SceneManager F)
    (uninit : Nat → OBJECT_MATERIAL F) : Except Fault (SceneManager F) := do
  let scaleXYZ : glm.vec3 F := { x := 50.0, y := 1.0, z := 20.0 }
  let XrotationDegrees : F := 90.0
  let YrotationDegrees : F := 0.0
  let ZrotationDegrees : F := 0.0
  let positionXYZ : glm.vec3 F := { x := 0.0, y := 20.0, z := (-3.5) }
  let s ← SetTransformations ops s scaleXYZ XrotationDegrees YrotationDegrees
    ZrotationDegrees positionXYZ
  let s ← SetTextureUVScale s 4.0 2.0
  let s ← SetShaderTexture s "wall"
  let s ← SetShaderMaterial s "wall" (uninit 0)
  let s ← s.DrawMesh MeshKind.box
  let scaleXYZ : glm.vec3 F := { x := 40.0, y := 1.0, z := 20.0 }
  let XrotationDegrees : F := 0.0
  let YrotationDegrees : F := 0.0
  let ZrotationDegrees : F := 0.0
  let positionXYZ : glm.vec3 F := { x := 0.0, y := 14.0, z := (-5.0) }
  let s ← SetTransformations ops s scaleXYZ XrotationDegrees YrotationDegrees
    ZrotationDegrees positionXYZ
  let s ← SetTextureUVScale s 8.0 4.0
  let s ← SetShaderTexture s "floor"
  let s ← SetShaderMaterial s "wood" (uninit 1)
  let s ← s.DrawMesh MeshKind.plane
  pure s

/-- The part of `RenderScene` that draws the shelf planes and support bars (source
lines 650 to 985).
The locals `scaleXYZ`, `XrotationDegrees`, `YrotationDegrees`, `ZrotationDegrees`
and `positionXYZ` are assigned before each `SetTransformations` call; `uninit k`
is the uninitialised local of the `SetShaderMaterial` call of object `k`. -/
def RenderScene.shelf [Field F] (ops : glm.FloatOps F) (s : SceneManager F)
    (uninit : Nat → OBJECT_MATERIAL F) : Except Fault (SceneManager F) := do
  let scaleXYZ : glm.vec3 F := { x := 20.0, y := 0.2, z := 3.5 }
  let XrotationDegrees : F := 0.0
  let YrotationDegrees : F := 0.0
  let ZrotationDegrees : F := 0.0
  let positionXYZ : glm.vec3 F := { x := 0.0, y := 15.0, z := 0.0 }
  let s ← SetTransformations ops s scaleXYZ XrotationDegrees YrotationDegrees
    ZrotationDegrees positionXYZ
  let s ← SetShaderTexture s "blackwood"
  let s ← SetShaderMaterial s "blackwood" (uninit 2)
  let s ← SetTextureUVScale s 4.0 2.0
  let s ← s.DrawMesh MeshKind.box
  let scaleXYZ : glm.vec3 F := { x := 20.0, y := 0.2, z := 2.6 }
  let XrotationDegrees : F := 90.0
  let YrotationDegrees : F := 0.0
  let ZrotationDegrees : F := 0.0
  let positionXYZ : glm.vec3 F := { x := 0.0, y := 16.0, z := (-1.75) }
  let s ← SetTransformations ops s scaleXYZ XrotationDegrees YrotationDegrees
    ZrotationDegrees positionXYZ
  let s ← SetShaderTexture s "blackwood"
  let s ← SetShaderMaterial s "blackwood" (uninit 3)
  let s ← SetTextureUVScale s 4.0 2.0
  let s ← s.DrawMesh MeshKind.box
  let scaleXYZ : glm.vec3 F := { x := 20.0, y := 0.2, z := 3.5 }
  let XrotationDegrees : F := 0.0
  let YrotationDegrees : F := 0.0
  let ZrotationDegrees : F := 0.0
  let positionXYZ : glm.vec3 F := { x := 0.0, y := 22.87, z := 0.0 }
  let s ← SetTransformations ops s scaleXYZ XrotationDegrees YrotationDegrees
    ZrotationDegrees positionXYZ
  let s ← SetShaderTexture s "blackwood"
  let s ← SetShaderMaterial s "blackwood" (uninit 4)
  let s ← SetTextureUVScale s 4.0 2.0
  let s ← s.DrawMesh MeshKind.box
  let scaleXYZ : glm.vec3 F := { x := 0.45, y := 10.0, z := 0.45 }
  let XrotationDegrees : F := 0.0
  let YrotationDegrees : F := 0.0
  let ZrotationDegrees : F := 0.0
  let positionXYZ : glm.vec3 F := { x := (-10.0), y := 19.0, z := (-1.75) }
  let s ← SetTransformations ops s scaleXYZ XrotationDegrees YrotationDegrees
    ZrotationDegrees positionXYZ
  let s ← SetShaderColor s 0 0 0 1
  let s ← SetShaderMaterial s "metal" (uninit 5)
  let s ← s.DrawMesh MeshKind.box
  let scaleXYZ : glm.vec3 F := { x := 0.45, y := 10.0, z := 0.45 }
  let XrotationDegrees : F := 0.0
  let YrotationDegrees : F := 0.0
  let ZrotationDegrees : F := 0.0
  let positionXYZ : glm.vec3 F := { x := (-10.0), y := 19.0, z := 1.75 }
  let s ← SetTransformations ops s scaleXYZ XrotationDegrees YrotationDegrees
    ZrotationDegrees positionXYZ
  let s ← SetShaderColor s 0 0 0 1
  let s ← SetShaderMaterial s "metal" (uninit 6)
  let s ← s.DrawMesh MeshKind.box
  let scaleXYZ : glm.vec3 F := { x := 0.45, y := 3.0, z := 0.45 }
  let XrotationDegrees : F := 90.0
  let YrotationDegrees : F := 0.0
  let ZrotationDegrees : F := 0.0
  let positionXYZ : glm.vec3 F := { x := (-10.0), y := 23.76, z := 0.0 }
  let s ← SetTransformations ops s scaleXYZ XrotationDegrees YrotationDegrees
    ZrotationDegrees positionXYZ
  let s ← SetShaderColor s 0 0 0 1
  let s ← SetShaderMaterial s "metal" (uninit 7)
  let s ← s.DrawMesh MeshKind.box
  let scaleXYZ : glm.vec3 F := { x := 0.45, y := 10.0, z := 0.45 }
  let XrotationDegrees : F := 0.0
  let YrotationDegrees : F := 0.0
  let ZrotationDegrees : F := 0.0
  let positionXYZ : glm.vec3 F := { x := 10.0, y := 19.0, z := (-1.75) }
  let s ← SetTransformations ops s scaleXYZ XrotationDegrees YrotationDegrees
    ZrotationDegrees positionXYZ
  let s ← SetShaderColor s 0 0 0 1
  let s ← SetShaderMaterial s "metal" (uninit 8)
  let s ← s.DrawMesh MeshKind.box
  let scaleXYZ : glm.vec3 F := { x := 0.45, y := 10.0, z := 0.45 }
  let XrotationDegrees : F := 0.0
  let YrotationDegrees : F := 0.0
  let ZrotationDegrees : F := 0.0
  let positionXYZ : glm.vec3 F := { x := 10.0, y := 19.0, z := 1.75 }
  let s ← SetTransformations ops s scaleXYZ XrotationDegrees YrotationDegrees
    ZrotationDegrees positionXYZ
  let s ← SetShaderColor s 0 0 0 1
  let s ← SetShaderMaterial s "metal" (uninit 9)
  let s ← s.DrawMesh MeshKind.box
  let scaleXYZ : glm.vec3 F := { x := 0.45, y := 3.0, z := 0.45 }
  let XrotationDegrees : F := 90.0
  let YrotationDegrees : F := 0.0
  let ZrotationDegrees : F := 0.0
  let positionXYZ : glm.vec3 F := { x := 10.0, y := 23.76, z := 0.0 }
  let s ← SetTransformations ops s scaleXYZ XrotationDegrees YrotationDegrees
    ZrotationDegrees positionXYZ
  let s ← SetShaderColor s 0 0 0 1
  let s ← SetShaderMaterial s "metal" (uninit 10)
  let s ← s.DrawMesh MeshKind.box
  let scaleXYZ : glm.vec3 F := { x := 0.45, y := 20.0, z := 0.45 }
  let XrotationDegrees : F := 0.0
  let YrotationDegrees : F := 0.0
  let ZrotationDegrees : F := 90.0
  let positionXYZ : glm.vec3 F := { x := 0.0, y := 23.76, z := (-1.75) }
  let s ← SetTransformations ops s scaleXYZ XrotationDegrees YrotationDegrees
    ZrotationDegrees positionXYZ
  let s ← SetShaderColor s 0 0 0 1
  let s ← SetShaderMaterial s "metal" (uninit 11)
  let s ← s.DrawMesh MeshKind.box
  pure s

/-- The part of `RenderScene` that draws the snow globe (source
lines 986 to 1131).
The locals `scaleXYZ`, `XrotationDegrees`, `YrotationDegrees`, `ZrotationDegrees`
and `positionXYZ` are assigned before each `SetTransformations` call; `uninit k`
is the uninitialised local of the `SetShaderMaterial` call of object `k`. -/
def RenderScene.snowGlobe [Field F] (ops : glm.FloatOps F) (s : SceneManager F)
    (uninit : Nat → OBJECT_MATERIAL F) : Except Fault (SceneManager F) := do
  let scaleXYZ : glm.vec3 F := { x := 1.0, y := 1.0, z := 1.0 }
  let XrotationDegrees : F := 0.0
  let YrotationDegrees : F := 60.0
  let ZrotationDegrees : F := 0.0
  let positionXYZ : glm.vec3 F := { x := 0.0, y := 24.5, z := 0.0 }
  let s ← SetTransformations ops s scaleXYZ XrotationDegrees YrotationDegrees
    ZrotationDegrees positionXYZ
  let s ← SetShaderTexture s "globe"
  let s ← SetTextureUVScale s 1.0 1.0
  let s ← SetShaderMaterial s "glass" (uninit 12)
  let s ← s.DrawMesh MeshKind.sphere
  let scaleXYZ : glm.vec3 F := { x := 0.75, y := 0.75, z := 0.75 }
  let XrotationDegrees : F := 0.0
  let YrotationDegrees : F := 180.0
  let ZrotationDegrees : F := 0.0
  let positionXYZ : glm.vec3 F := { x := 0.0, y := 23.0, z := 0.0 }
  let s ← SetTransformations ops s scaleXYZ XrotationDegrees YrotationDegrees
    ZrotationDegrees positionXYZ
  let s ← SetShaderTexture s "globe_base"
  let s ← SetTextureUVScale s 2.0 1.0
  let s ← SetShaderMaterial s "plastic" (uninit 13)
  let s ← s.DrawMesh MeshKind.cylinder
  let scaleXYZ : glm.vec3 F := { x := 0.70, y := 0.75, z := 0.2 }
  let XrotationDegrees : F := 90.0
  let YrotationDegrees : F := 0.0
  let ZrotationDegrees : F := 0.0
  let positionXYZ : glm.vec3 F := { x := 0.0, y := 23.75, z := 0.0 }
  let s ← SetTransformations ops s scaleXYZ XrotationDegrees YrotationDegrees
    ZrotationDegrees positionXYZ
  let s ← SetShaderColor s 0.69 0.69 0.69 1
  let s ← SetShaderMaterial s "plastic" (uninit 14)
  let s ← s.DrawMesh MeshKind.torus
  let scaleXYZ : glm.vec3 F := { x := 0.70, y := 0.75, z := 0.2 }
  let XrotationDegrees : F := 90.0
  let YrotationDegrees : F := 0.0
  let ZrotationDegrees : F := 0.0
  let positionXYZ : glm.vec3 F := { x := 0.0, y := 23.0, z := 0.0 }
  let s ← SetTransformations ops s scaleXYZ XrotationDegrees YrotationDegrees
    ZrotationDegrees positionXYZ
  let s ← SetShaderColor s 0.69 0.69 0.69 1
  let s ← SetShaderMaterial s "plastic" (uninit 15)
  let s ← s.DrawMesh MeshKind.torus
  pure s

/-- The part of `RenderScene` that draws the Rubik cube (source
lines 1132 to 1173).
The locals `scaleXYZ`, `XrotationDegrees`, `YrotationDegrees`, `ZrotationDegrees`
and `positionXYZ` are assigned before each `SetTransformations` call; `uninit k`
is the uninitialised local of the `SetShaderMaterial` call of object `k`. -/
def RenderScene.rubiksCube [Field F] (ops : glm.FloatOps F) (s : SceneManager F)
    (uninit : Nat → OBJECT_MATERIAL F) : Except Fault (SceneManager F) := do
  let scaleXYZ : glm.vec3 F := { x := 1.5, y := 1.5, z := 1.5 }
  let XrotationDegrees : F := 0.0
  let YrotationDegrees : F := 45.0
  let ZrotationDegrees : F := 0.0
  let positionXYZ : glm.vec3 F := { x := 0.0, y := 15.9, z := 0.0 }
  let s ← SetTransformations ops s scaleXYZ XrotationDegrees YrotationDegrees
    ZrotationDegrees positionXYZ
  let s ← SetShaderTexture s "rubiks"
  let s ← SetTextureUVScale s 0.33 0.5
  let s ← SetShaderMaterial s "plastic" (uninit 16)
  let s ← s.DrawMesh MeshKind.box
  pure s

/-- The part of `RenderScene` that draws the levitating globe (source
lines 1174 to 1396).
The locals `scaleXYZ`, `XrotationDegrees`, `YrotationDegrees`, `ZrotationDegrees`
and `positionXYZ` are assigned before each `SetTransformations` call; `uninit k`
is the uninitialised local of the `SetShaderMaterial` call of object `k`. -/
def RenderScene.levitatingGlobe [Field F] (ops : glm.FloatOps F) (s : SceneManager F)
    (uninit : Nat → OBJECT_MATERIAL F) : Except Fault (SceneManager F) := do
  let scaleXYZ : glm.vec3 F := { x := 0.7, y := 0.3, z := 0.7 }
  let XrotationDegrees : F := 0.0
  let YrotationDegrees : F := 0.0
  let ZrotationDegrees : F := 0.0
  let positionXYZ : glm.vec3 F := { x := (-8.0), y := 23.0, z := 0.0 }
  let s ← SetTransformations ops s scaleXYZ XrotationDegrees YrotationDegrees
    ZrotationDegrees positionXYZ
  let s ← SetShaderTexture s "silver"
  let s ← SetTextureUVScale s 1.0 1.0
  let s ← SetShaderMaterial s "shinyplastic" (uninit 17)
  let s ← s.DrawMesh MeshKind.cylinder
  let scaleXYZ : glm.vec3 F := { x := 0.7, y := 0.3, z := 0.7 }
  let XrotationDegrees : F := 0.0
  let YrotationDegrees : F := 0.0
  let ZrotationDegrees : F := 0.0
  let positionXYZ : glm.vec3 F := { x := (-8.0), y := 26.0, z := 0.0 }
  let s ← SetTransformations ops s scaleXYZ XrotationDegrees YrotationDegrees
    ZrotationDegrees positionXYZ
  let s ← SetShaderTexture s "silver"
  let s ← SetTextureUVScale s 1.0 1.0
  let s ← SetShaderMaterial s "shinyplastic" (uninit 18)
  let s ← s.DrawMesh MeshKind.cylinder
  let scaleXYZ : glm.vec3 F := { x := 0.2, y := 2.4, z := 0.1 }
  let XrotationDegrees : F := 0.0
  let YrotationDegrees : F := 45.0
  let ZrotationDegrees : F := 0.0
  let positionXYZ : glm.vec3 F := { x := (-7.2), y := 24.7, z := (-0.8) }
  let s ← SetTransformations ops s scaleXYZ XrotationDegrees YrotationDegrees
    ZrotationDegrees positionXYZ
  let s ← SetShaderTexture s "silver"
  let s ← SetShaderMaterial s "shinyplastic" (uninit 19)
  let s ← s.DrawMesh MeshKind.box
  let scaleXYZ : glm.vec3 F := { x := 0.2, y := 0.8, z := 0.1 }
  let XrotationDegrees : F := 0.0
  let YrotationDegrees : F := 45.0
  let ZrotationDegrees : F := 60.0
  let positionXYZ : glm.vec3 F := { x := (-7.4), y := 26.0, z := (-0.6) }
  let s ← SetTransformations ops s scaleXYZ XrotationDegrees YrotationDegrees
    ZrotationDegrees positionXYZ
  let s ← SetShaderTexture s "silver"
  let s ← SetShaderMaterial s "shinyplastic" (uninit 20)
  let s ← s.DrawMesh MeshKind.box
  let scaleXYZ : glm.vec3 F := { x := 0.2, y := 0.8, z := 0.1 }
  let XrotationDegrees : F := 0.0
  let YrotationDegrees : F := 45.0
  let ZrotationDegrees : F := (-60.0)
  let positionXYZ : glm.vec3 F := { x := (-7.4), y := 23.4, z := (-0.6) }
  let s ← SetTransformations ops s scaleXYZ XrotationDegrees YrotationDegrees
    ZrotationDegrees positionXYZ
  let s ← SetShaderTexture s "silver"
  let s ← SetShaderMaterial s "shinyplastic" (uninit 21)
  let s ← s.DrawMesh MeshKind.box
  let scaleXYZ : glm.vec3 F := { x := 0.9, y := 0.9, z := 0.9 }
  let XrotationDegrees : F := 0.0
  let YrotationDegrees : F := 0.0
  let ZrotationDegrees : F := 0.0
  let positionXYZ : glm.vec3 F := { x := (-8.0), y := 24.7, z := 0.0 }
  let s ← SetTransformations ops s scaleXYZ XrotationDegrees YrotationDegrees
    ZrotationDegrees positionXYZ
  let s ← SetShaderTexture s "earth"
  let s ← SetShaderMaterial s "plastic" (uninit 22)
  let s ← s.DrawMesh MeshKind.sphere
  pure s

/-- The part of `RenderScene` that draws the stack of books (source
lines 1397 to 1572).
The locals `scaleXYZ`, `XrotationDegrees`, `YrotationDegrees`, `ZrotationDegrees`
and `positionXYZ` are assigned before each `SetTransformations` call; `uninit k`
is the uninitialised local of the `SetShaderMaterial` call of object `k`. -/
def RenderScene.books [Field F] (ops : glm.FloatOps F) (s : SceneManager F)
    (uninit : Nat → OBJECT_MATERIAL F) : Except Fault (SceneManager F) := do
  let scaleXYZ : glm.vec3 F := { x := 0.05, y := 2.5, z := 3.3 }
  let XrotationDegrees : F := 0.0
  let YrotationDegrees : F := 90.0
  let ZrotationDegrees : F := 0.0
  let positionXYZ : glm.vec3 F := { x := 7.5, y := 24.2, z := 0.95 }
  let s ← SetTransformations ops s scaleXYZ XrotationDegrees YrotationDegrees
    ZrotationDegrees positionXYZ
  let s ← SetShaderTexture s "bookspines"
  let s ← SetShaderMaterial s "plastic" (uninit 23)
  let s ← s.DrawMesh MeshKind.box
  let scaleXYZ : glm.vec3 F := { x := 1.9, y := 0.05, z := 3.3 }
  let XrotationDegrees : F := 0.0
  let YrotationDegrees : F := 90.0
  let ZrotationDegrees : F := 0.0
  let positionXYZ : glm.vec3 F := { x := 7.5, y := 25.43, z := 0.0 }
  let s ← SetTransformations ops s scaleXYZ XrotationDegrees YrotationDegrees
    ZrotationDegrees positionXYZ
  let s ← SetShaderTexture s "bookstop"
  let s ← SetShaderMaterial s "plastic" (uninit 24)
  let s ← s.DrawMesh MeshKind.box
  let scaleXYZ : glm.vec3 F := { x := 1.9, y := 2.5, z := 0.05 }
  let XrotationDegrees : F := 0.0
  let YrotationDegrees : F := 90.0
  let ZrotationDegrees : F := 0.0
  let positionXYZ : glm.vec3 F := { x := 9.15, y := 24.2, z := 0.0 }
  let s ← SetTransformations ops s scaleXYZ XrotationDegrees YrotationDegrees
    ZrotationDegrees positionXYZ
  let s ← SetShaderTexture s "booksides"
  let s ← SetShaderMaterial s "wood" (uninit 25)
  let s ← s.DrawMesh MeshKind.box
  let scaleXYZ : glm.vec3 F := { x := 1.9, y := 2.5, z := 0.05 }
  let XrotationDegrees : F := 0.0
  let YrotationDegrees : F := 90.0
  let ZrotationDegrees : F := 0.0
  let positionXYZ : glm.vec3 F := { x := 5.85, y := 24.2, z := 0.0 }
  let s ← SetTransformations ops s scaleXYZ XrotationDegrees YrotationDegrees
    ZrotationDegrees positionXYZ
  let s ← SetShaderTexture s "booksides"
  let s ← SetShaderMaterial s "wood" (uninit 26)
  let s ← SetTextureUVScale s (-1.0) 1.0
  let s ← s.DrawMesh MeshKind.box
  let scaleXYZ : glm.vec3 F := { x := 0.05, y := 2.5, z := 3.3 }
  let XrotationDegrees : F := 0.0
  let YrotationDegrees : F := 90.0
  let ZrotationDegrees : F := 0.0
  let positionXYZ : glm.vec3 F := { x := 7.5, y := 24.2, z := (-0.95) }
  let s ← SetTransformations ops s scaleXYZ XrotationDegrees YrotationDegrees
    ZrotationDegrees positionXYZ
  let s ← SetShaderTexture s "booksback"
  let s ← SetShaderMaterial s "wood" (uninit 27)
  let s ← s.DrawMesh MeshKind.box
  pure s

/-- The member function `SceneManager::RenderScene()`: its six parts in source
order. -/
def RenderScene [Field F] (ops : glm.FloatOps F) (s : SceneManager F)
    (uninit : Nat → OBJECT_MATERIAL F) : Except Fault (SceneManager F) := do
  let s ← RenderScene.wallAndGround ops s uninit
  let s ← RenderScene.shelf ops s uninit
  let s ← RenderScene.snowGlobe ops s uninit
  let s ← RenderScene.rubiksCube ops s uninit
  let s ← RenderScene.levitatingGlobe ops s uninit
  RenderScene.books ops s uninit

/-! ## The render pass as a list of calls -/

/-- A call that `RenderScene` makes, with its arguments: one of the five
member functions it uses, or a draw call of the mesh provider. The number `k`
of a `SetShaderMaterial` call selects the uninitialised local `uninit k` of
that call. -/
inductive Call (F : Type) where
  | SetTransformations (scaleXYZ : glm.vec3 F)
      (XrotationDegrees YrotationDegrees ZrotationDegrees : F) (positionXYZ : glm.vec3 F)
  | SetTextureUVScale (u v : F)
  | SetShaderTexture (textureTag : String)
  | SetShaderColor (redColorValue greenColorValue blueColorValue alphaValue : F)
  | SetShaderMaterial (materialTag : String) (k : Nat)
  | DrawMesh (kind : MeshKind)

/-- The execution of one call: the member function it names, applied to the
state. -/
def Call.run [Field F] (ops : glm.FloatOps F) (uninit : Nat → OBJECT_MATERIAL F)
    (s : SceneManager F) : Call F → Except Fault (SceneManager F)
  | Call.SetTransformations scaleXYZ ax ay az positionXYZ =>
    CS330.SetTransformations ops s scaleXYZ ax ay az positionXYZ
  | Call.SetTextureUVScale u v => CS330.SetTextureUVScale s u v
  | Call.SetShaderTexture textureTag => CS330.SetShaderTexture s textureTag
  | Call.SetShaderColor r g b a => CS330.SetShaderColor s r g b a
  | Call.SetShaderMaterial materialTag k => CS330.SetShaderMaterial s materialTag (uninit k)
  | Call.DrawMesh kind => s.DrawMesh kind

/-- The execution of a list of calls, each on the state the previous one left;
a fault ends the run. -/
def runCalls [Field F] (ops : glm.FloatOps F) (uninit : Nat → OBJECT_MATERIAL F)
    (s : SceneManager F) : List (Call F) → Except Fault (SceneManager F)
  | [] => pure s
  | c :: cs => do
    let s ← c.run ops uninit s
    runCalls ops uninit s cs

/-- The calls of `RenderScene.wallAndGround`, in order, with their arguments. -/
def RenderScene.wallAndGroundCalls [Field F] : List (Call F) :=
  [ (Call.SetTransformations { x := 50.0, y := 1.0, z := 20.0 } 90.0 0.0
      0.0 { x := 0.0, y := 20.0, z := (-3.5) } : Call F),
    (Call.SetTextureUVScale 4.0 2.0 : Call F),
    (Call.SetShaderTexture "wall" : Call F),
    (Call.SetShaderMaterial "wall" 0 : Call F),
    (Call.DrawMesh MeshKind.box : Call F),
    (Call.SetTransformations { x := 40.0, y := 1.0, z := 20.0 } 0.0 0.0
      0.0 { x := 0.0, y := 14.0, z := (-5.0) } : Call F),
    (Call.SetTextureUVScale 8.0 4.0 : Call F),
    (Call.SetShaderTexture "floor" : Call F),
    (Call.SetShaderMaterial "wood" 1 : Call F),
    (Call.DrawMesh MeshKind.plane : Call F) ]

/-- The calls of `RenderScene.shelf`, in order, with their arguments. -/
def RenderScene.shelfCalls [Field F] : List (Call F) :=
  [ (Call.SetTransformations { x := 20.0, y := 0.2, z := 3.5 } 0.0 0.0
      0.0 { x := 0.0, y := 15.0, z := 0.0 } : Call F),
    (Call.SetShaderTexture "blackwood" : Call F),
    (Call.SetShaderMaterial "blackwood" 2 : Call F),
    (Call.SetTextureUVScale 4.0 2.0 : Call F),
    (Call.DrawMesh MeshKind.box : Call F),
    (Call.SetTransformations { x := 20.0, y := 0.2, z := 2.6 } 90.0 0.0
      0.0 { x := 0.0, y := 16.0, z := (-1.75) } : Call F),
    (Call.SetShaderTexture "blackwood" : Call F),
    (Call.SetShaderMaterial "blackwood" 3 : Call F),
    (Call.SetTextureUVScale 4.0 2.0 : Call F),
    (Call.DrawMesh MeshKind.box : Call F),
    (Call.SetTransformations { x := 20.0, y := 0.2, z := 3.5 } 0.0 0.0
      0.0 { x := 0.0, y := 22.87, z := 0.0 } : Call F),
    (Call.SetShaderTexture "blackwood" : Call F),
    (Call.SetShaderMaterial "blackwood" 4 : Call F),
    (Call.SetTextureUVScale 4.0 2.0 : Call F),
    (Call.DrawMesh MeshKind.box : Call F),
    (Call.SetTransformations { x := 0.45, y := 10.0, z := 0.45 } 0.0 0.0
      0.0 { x := (-10.0), y := 19.0, z := (-1.75) } : Call F),
    (Call.SetShaderColor 0 0 0 1 : Call F),
    (Call.SetShaderMaterial "metal" 5 : Call F),
    (Call.DrawMesh MeshKind.box : Call F),
    (Call.SetTransformations { x := 0.45, y := 10.0, z := 0.45 } 0.0 0.0
      0.0 { x := (-10.0), y := 19.0, z := 1.75 } : Call F),
    (Call.SetShaderColor 0 0 0 1 : Call F),
    (Call.SetShaderMaterial "metal" 6 : Call F),
    (Call.DrawMesh MeshKind.box : Call F),
    (Call.SetTransformations { x := 0.45, y := 3.0, z := 0.45 } 90.0 0.0
      0.0 { x := (-10.0), y := 23.76, z := 0.0 } : Call F),
    (Call.SetShaderColor 0 0 0 1 : Call F),
    (Call.SetShaderMaterial "metal" 7 : Call F),
    (Call.DrawMesh MeshKind.box : Call F),
    (Call.SetTransformations { x := 0.45, y := 10.0, z := 0.45 } 0.0 0.0
      0.0 { x := 10.0, y := 19.0, z := (-1.75) } : Call F),
    (Call.SetShaderColor 0 0 0 1 : Call F),
    (Call.SetShaderMaterial "metal" 8 : Call F),
    (Call.DrawMesh MeshKind.box : Call F),
    (Call.SetTransformations { x := 0.45, y := 10.0, z := 0.45 } 0.0 0.0
      0.0 { x := 10.0, y := 19.0, z := 1.75 } : Call F),
    (Call.SetShaderColor 0 0 0 1 : Call F),
    (Call.SetShaderMaterial "metal" 9 : Call F),
    (Call.DrawMesh MeshKind.box : Call F),
    (Call.SetTransformations { x := 0.45, y := 3.0, z := 0.45 } 90.0 0.0
      0.0 { x := 10.0, y := 23.76, z := 0.0 } : Call F),
    (Call.SetShaderColor 0 0 0 1 : Call F),
    (Call.SetShaderMaterial "metal" 10 : Call F),
    (Call.DrawMesh MeshKind.box : Call F),
    (Call.SetTransformations { x := 0.45, y := 20.0, z := 0.45 } 0.0 0.0
      90.0 { x := 0.0, y := 23.76, z := (-1.75) } : Call F),
    (Call.SetShaderColor 0 0 0 1 : Call F),
    (Call.SetShaderMaterial "metal" 11 : Call F),
    (Call.DrawMesh MeshKind.box : Call F) ]

/-- The calls of `RenderScene.snowGlobe`, in order, with their arguments. -/
def RenderScene.snowGlobeCalls [Field F] : List (Call F) :=
  [ (Call.SetTransformations { x := 1.0, y := 1.0, z := 1.0 } 0.0 60.0
      0.0 { x := 0.0, y := 24.5, z := 0.0 } : Call F),
    (Call.SetShaderTexture "globe" : Call F),
    (Call.SetTextureUVScale 1.0 1.0 : Call F),
    (Call.SetShaderMaterial "glass" 12 : Call F),
    (Call.DrawMesh MeshKind.sphere : Call F),
    (Call.SetTransformations { x := 0.75, y := 0.75, z := 0.75 } 0.0 180.0
      0.0 { x := 0.0, y := 23.0, z := 0.0 } : Call F),
    (Call.SetShaderTexture "globe_base" : Call F),
    (Call.SetTextureUVScale 2.0 1.0 : Call F),
    (Call.SetShaderMaterial "plastic" 13 : Call F),
    (Call.DrawMesh MeshKind.cylinder : Call F),
    (Call.SetTransformations { x := 0.70, y := 0.75, z := 0.2 } 90.0 0.0
      0.0 { x := 0.0, y := 23.75, z := 0.0 } : Call F),
    (Call.SetShaderColor 0.69 0.69 0.69 1 : Call F),
    (Call.SetShaderMaterial "plastic" 14 : Call F),
    (Call.DrawMesh MeshKind.torus : Call F),
    (Call.SetTransformations { x := 0.70, y := 0.75, z := 0.2 } 90.0 0.0
      0.0 { x := 0.0, y := 23.0, z := 0.0 } : Call F),
    (Call.SetShaderColor 0.69 0.69 0.69 1 : Call F),
    (Call.SetShaderMaterial "plastic" 15 : Call F),
    (Call.DrawMesh MeshKind.torus : Call F) ]

/-- The calls of `RenderScene.rubiksCube`, in order, with their arguments. -/
def RenderScene.rubiksCubeCalls [Field F] : List (Call F) :=
  [ (Call.SetTransformations { x := 1.5, y := 1.5, z := 1.5 } 0.0 45.0
      0.0 { x := 0.0, y := 15.9, z := 0.0 } : Call F),
    (Call.SetShaderTexture "rubiks" : Call F),
    (Call.SetTextureUVScale 0.33 0.5 : Call F),
    (Call.SetShaderMaterial "plastic" 16 : Call F),
    (Call.DrawMesh MeshKind.box : Call F) ]

/-- The calls of `RenderScene.levitatingGlobe`, in order, with their arguments. -/
def RenderScene.levitatingGlobeCalls [Field F] : List (Call F) :=
  [ (Call.SetTransformations { x := 0.7, y := 0.3, z := 0.7 } 0.0 0.0
      0.0 { x := (-8.0), y := 23.0, z := 0.0 } : Call F),
    (Call.SetShaderTexture "silver" : Call F),
    (Call.SetTextureUVScale 1.0 1.0 : Call F),
    (Call.SetShaderMaterial "shinyplastic" 17 : Call F),
    (Call.DrawMesh MeshKind.cylinder : Call F),
    (Call.SetTransformations { x := 0.7, y := 0.3, z := 0.7 } 0.0 0.0
      0.0 { x := (-8.0), y := 26.0, z := 0.0 } : Call F),
    (Call.SetShaderTexture "silver" : Call F),
    (Call.SetTextureUVScale 1.0 1.0 : Call F),
    (Call.SetShaderMaterial "shinyplastic" 18 : Call F),
    (Call.DrawMesh MeshKind.cylinder : Call F),
    (Call.SetTransformations { x := 0.2, y := 2.4, z := 0.1 } 0.0 45.0
      0.0 { x := (-7.2), y := 24.7, z := (-0.8) } : Call F),
    (Call.SetShaderTexture "silver" : Call F),
    (Call.SetShaderMaterial "shinyplastic" 19 : Call F),
    (Call.DrawMesh MeshKind.box : Call F),
    (Call.SetTransformations { x := 0.2, y := 0.8, z := 0.1 } 0.0 45.0
      60.0 { x := (-7.4), y := 26.0, z := (-0.6) } : Call F),
    (Call.SetShaderTexture "silver" : Call F),
    (Call.SetShaderMaterial "shinyplastic" 20 : Call F),
    (Call.DrawMesh MeshKind.box : Call F),
    (Call.SetTransformations { x := 0.2, y := 0.8, z := 0.1 } 0.0 45.0
      (-60.0) { x := (-7.4), y := 23.4, z := (-0.6) } : Call F),
    (Call.SetShaderTexture "silver" : Call F),
    (Call.SetShaderMaterial "shinyplastic" 21 : Call F),
    (Call.DrawMesh MeshKind.box : Call F),
    (Call.SetTransformations { x := 0.9, y := 0.9, z := 0.9 } 0.0 0.0
      0.0 { x := (-8.0), y := 24.7, z := 0.0 } : Call F),
    (Call.SetShaderTexture "earth" : Call F),
    (Call.SetShaderMaterial "plastic" 22 : Call F),
    (Call.DrawMesh MeshKind.sphere : Call F) ]

/-- The calls of `RenderScene.books`, in order, with their arguments. -/
def RenderScene.booksCalls [Field F] : List (Call F) :=
  [ (Call.SetTransformations { x := 0.05, y := 2.5, z := 3.3 } 0.0 90.0
      0.0 { x := 7.5, y := 24.2, z := 0.95 } : Call F),
    (Call.SetShaderTexture "bookspines" : Call F),
    (Call.SetShaderMaterial "plastic" 23 : Call F),
    (Call.DrawMesh MeshKind.box : Call F),
    (Call.SetTransformations { x := 1.9, y := 0.05, z := 3.3 } 0.0 90.0
      0.0 { x := 7.5, y := 25.43, z := 0.0 } : Call F),
    (Call.SetShaderTexture "bookstop" : Call F),
    (Call.SetShaderMaterial "plastic" 24 : Call F),
    (Call.DrawMesh MeshKind.box : Call F),
    (Call.SetTransformations { x := 1.9, y := 2.5, z := 0.05 } 0.0 90.0
      0.0 { x := 9.15, y := 24.2, z := 0.0 } : Call F),
    (Call.SetShaderTexture "booksides" : Call F),
    (Call.SetShaderMaterial "wood" 25 : Call F),
    (Call.DrawMesh MeshKind.box : Call F),
    (Call.SetTransformations { x := 1.9, y := 2.5, z := 0.05 } 0.0 90.0
      0.0 { x := 5.85, y := 24.2, z := 0.0 } : Call F),
    (Call.SetShaderTexture "booksides" : Call F),
    (Call.SetShaderMaterial "wood" 26 : Call F),
    (Call.SetTextureUVScale (-1.0) 1.0 : Call F),
    (Call.DrawMesh MeshKind.box : Call F),
    (Call.SetTransformations { x := 0.05, y := 2.5, z := 3.3 } 0.0 90.0
      0.0 { x := 7.5, y := 24.2, z := (-0.95) } : Call F),
    (Call.SetShaderTexture "booksback" : Call F),
    (Call.SetShaderMaterial "wood" 27 : Call F),
    (Call.DrawMesh MeshKind.box : Call F) ]

/-- The calls of `RenderScene`, in order, with their arguments. -/
def RenderScene.calls [Field F] : List (Call F) :=
  RenderScene.wallAndGroundCalls ++ RenderScene.shelfCalls ++ RenderScene.snowGlobeCalls
    ++ RenderScene.rubiksCubeCalls ++ RenderScene.levitatingGlobeCalls
    ++ RenderScene.booksCalls

/-! ## What a call adds to the trace -/

/-- The value `FindTextureSlot` returns for the tag; -1 stands in where the
lookup would read outside the array. -/
def slotValue (s : SceneManager F) (tag : String) : Int :=
  match FindTextureSlot s tag with
  | .ok v => v
  | .error _ => -1

/-- The events a call adds to the trace when the shader is set and the
registry count lies within the slot array. -/
def Call.events [Field F] (ops : glm.FloatOps F) (uninit : Nat → OBJECT_MATERIAL F)
    (s : SceneManager F) : Call F → List (Event F)
  | Call.SetTransformations scaleXYZ ax ay az positionXYZ =>
    [Event.uniform "model" (UniformValue.mat4
      (glm.translate positionXYZ
        * glm.rotate ops (glm.radians ops ax) { x := 1, y := 0, z := 0 }
        * glm.rotate ops (glm.radians ops ay) { x := 0, y := 1, z := 0 }
        * glm.rotate ops (glm.radians ops az) { x := 0, y := 0, z := 1 }
        * glm.scale scaleXYZ))]
  | Call.SetTextureUVScale u v =>
    [Event.uniform "UVscale" (UniformValue.vec2 { x := u, y := v })]
  | Call.SetShaderTexture textureTag =>
    [Event.uniform "bUseTexture" (UniformValue.int 1),
     Event.uniform "objectTexture" (UniformValue.sampler2D (slotValue s textureTag))]
  | Call.SetShaderColor r g b a =>
    [Event.uniform "bUseTexture" (UniformValue.int 0),
     Event.uniform "objectColor" (UniformValue.vec4 { x := r, y := g, z := b, w := a })]
  | Call.SetShaderMaterial materialTag k =>
    if s.m_objectMaterials.length = 0 then []
    else
      [Event.uniform "material.ambientColor"
         (UniformValue.vec3 (FindMaterial s materialTag (uninit k)).2.ambientColor),
       Event.uniform "material.ambientStrength"
         (UniformValue.float (FindMaterial s materialTag (uninit k)).2.ambientStrength),
       Event.uniform "material.diffuseColor"
         (UniformValue.vec3 (FindMaterial s materialTag (uninit k)).2.diffuseColor),
       Event.uniform "material.specularColor"
         (UniformValue.vec3 (FindMaterial s materialTag (uninit k)).2.specularColor),
       Event.uniform "material.shininess"
         (UniformValue.float (FindMaterial s materialTag (uninit k)).2.shininess)]
  | Call.DrawMesh kind => [Event.drawMesh kind]

/-- The events a list of calls adds to the trace, under the same conditions. -/
def callsEvents [Field F] (ops : glm.FloatOps F) (uninit : Nat → OBJECT_MATERIAL F)
    (s : SceneManager F) : List (Call F) → List (Event F)
  | [] => []
  | c :: cs => c.events ops uninit s ++ callsEvents ops uninit s cs

/-! ## Observations on calls and traces -/

deriving instance DecidableEq for MeshKind

/-- A call of `RenderScene` without its numeric arguments. -/
inductive CallKind where
  | SetTransformations
  | SetTextureUVScale
  | SetShaderTexture (textureTag : String)
  | SetShaderColor
  | SetShaderMaterial (materialTag : String)
  | DrawMesh (kind : MeshKind)
  deriving DecidableEq

/-- The kind of a call. -/
def Call.kind : Call F → CallKind
  | Call.SetTransformations _ _ _ _ _ => CallKind.SetTransformations
  | Call.SetTextureUVScale _ _ => CallKind.SetTextureUVScale
  | Call.SetShaderTexture textureTag => CallKind.SetShaderTexture textureTag
  | Call.SetShaderColor _ _ _ _ => CallKind.SetShaderColor
  | Call.SetShaderMaterial materialTag _ => CallKind.SetShaderMaterial materialTag
  | Call.DrawMesh kind => CallKind.DrawMesh kind

/-- The kinds of the calls of `RenderScene`, in order. -/
def RenderScene.kinds : List CallKind :=
  (RenderScene.calls : List (Call ℚ)).map Call.kind

/-- The draw calls of a trace, in order. -/
def drawCalls : List (Event F) → List MeshKind
  | [] => []
  | Event.drawMesh kind :: t => kind :: drawCalls t
  | _ :: t => drawCalls t

/-- The draw calls among a list of call kinds, in order. -/
def kindsDraws : List CallKind → List MeshKind
  | [] => []
  | CallKind.DrawMesh kind :: t => kind :: kindsDraws t
  | _ :: t => kindsDraws t

/-- The objects of a trace: for each draw call, the names of the uniforms
written since the preceding draw call (or since the start), in order, and the
mesh drawn. `acc` holds the names met since the last draw. -/
def objectWrites.go : List (Event F) → List String → List (List String × MeshKind)
  | [], _ => []
  | Event.uniform name _ :: t, acc => objectWrites.go t (acc ++ [name])
  | Event.drawMesh kind :: t, acc => (acc, kind) :: objectWrites.go t []
  | _ :: t, acc => objectWrites.go t acc

/-- The objects of a trace, from its start. -/
def objectWrites (t : List (Event F)) : List (List String × MeshKind) :=
  objectWrites.go t []

/-- The names of the uniforms a call of the given kind writes when the shader
is set and the material table is not empty. -/
def CallKind.writes : CallKind → List String
  | CallKind.SetTransformations => ["model"]
  | CallKind.SetTextureUVScale => ["UVscale"]
  | CallKind.SetShaderTexture _ => ["bUseTexture", "objectTexture"]
  | CallKind.SetShaderColor => ["bUseTexture", "objectColor"]
  | CallKind.SetShaderMaterial _ =>
    ["material.ambientColor", "material.ambientStrength", "material.diffuseColor",
     "material.specularColor", "material.shininess"]
  | CallKind.DrawMesh _ => []

/-- The objects of a list of call kinds: for each draw call, the names of the
uniforms written by the calls since the preceding draw, and the mesh drawn. -/
def kindsObjectWrites.go : List CallKind → List String → List (List String × MeshKind)
  | [], _ => []
  | CallKind.DrawMesh kind :: t, acc => (acc, kind) :: kindsObjectWrites.go t []
  | k :: t, acc => kindsObjectWrites.go t (acc ++ k.writes)

/-- The objects of a list of call kinds: for each draw call, the calls made
since the preceding draw call (or since the start), in order, and the mesh
drawn. -/
def kindsObjects.go : List CallKind → List CallKind → List (List CallKind × MeshKind)
  | [], _ => []
  | CallKind.DrawMesh kind :: t, acc => (acc, kind) :: kindsObjects.go t []
  | k :: t, acc => kindsObjects.go t (acc ++ [k])

/-- The objects of a list of call kinds, from its start. -/
def kindsObjects (ks : List CallKind) : List (List CallKind × MeshKind) :=
  kindsObjects.go ks []

/-- The names of the uniforms written in a trace, in order. -/
def uniformNames (t : List (Event F)) : List String :=
  (uniformWrites t).map (fun w => w.1)

/-- The names of the uniforms written by calls of the given kinds, in order,
when the shader is set and the material table is not empty. -/
def kindsWrites : List CallKind → List String
  | [] => []
  | k :: t => k.writes ++ kindsWrites t

/-- Whether the calls of one object come in the order `SetTransformations`,
then `SetShaderTexture` or `SetShaderColor`, then `SetShaderMaterial`, then
possibly `SetTextureUVScale`. -/
def inClaimedOrder : List CallKind → Bool
  | [CallKind.SetTransformations, CallKind.SetShaderTexture _,
      CallKind.SetShaderMaterial _] => true
  | [CallKind.SetTransformations, CallKind.SetShaderColor,
      CallKind.SetShaderMaterial _] => true
  | [CallKind.SetTransformations, CallKind.SetShaderTexture _,
      CallKind.SetShaderMaterial _, CallKind.SetTextureUVScale] => true
  | [CallKind.SetTransformations, CallKind.SetShaderColor,
      CallKind.SetShaderMaterial _, CallKind.SetTextureUVScale] => true
  | _ => false

/-- The calls of one object with its `SetTextureUVScale` calls left out. -/
def withoutUVScale (cs : List CallKind) : List CallKind :=
  cs.filter (fun k => decide (k ≠ CallKind.SetTextureUVScale))

/-- The positions, counted from 0, of the elements of a list that satisfy a
test. -/
def positionsWhere {α : Type} (p : α → Bool) (l : List α) : List Nat :=
  (l.enum.filter (fun q => p q.2)).map (fun q => q.1)

/-- The material tags that `RenderScene` passes to `SetShaderMaterial`. -/
def RenderScene.materialTags : List String :=
  ["wall", "wood", "blackwood", "metal", "glass", "plastic", "shinyplastic"]

/-- Whether a call kind is not a `SetShaderMaterial` call, or is one with a tag
of `RenderScene.materialTags`. -/
def CallKind.knownMaterial : CallKind → Bool
  | CallKind.SetShaderMaterial materialTag => decide (materialTag ∈ RenderScene.materialTags)
  | _ => true

/-- The uniforms whose values the shader reads at every draw of the scene:
the model matrix, the texture flag and slot, the UV scale and the material. -/
def staticNames : List String :=
  ["model", "bUseTexture", "objectTexture", "UVscale", "material.ambientColor",
   "material.ambientStrength", "material.diffuseColor", "material.specularColor",
   "material.shininess"]

/-! ## Observations on the scene setup -/

/-- The twelve `CreateGLTexture` calls of `LoadSceneTextures`, in the order of
the source, with the external results each call meets. -/
def LoadSceneTextures.requests (images : Nat → Option Image) (newIDs : Nat → Nat) :
    List LoadRequest :=
  [ { filename := "Textures/globe_base.jpg", tag := "globe_base",
      image := images 0, newID := newIDs 0 },
    { filename := "Textures/blackwood.jpg", tag := "blackwood",
      image := images 1, newID := newIDs 1 },
    { filename := "Textures/globe.png", tag := "globe",
      image := images 2, newID := newIDs 2 },
    { filename := "Textures/rubiks.png", tag := "rubiks",
      image := images 3, newID := newIDs 3 },
    { filename := "Textures/floor.jpg", tag := "floor",
      image := images 4, newID := newIDs 4 },
    { filename := "Textures/wall.jpg", tag := "wall",
      image := images 5, newID := newIDs 5 },
    { filename := "Textures/silver.jpg", tag := "silver",
      image := images 6, newID := newIDs 6 },
    { filename := "Textures/earth.jpg", tag := "earth",
      image := images 7, newID := newIDs 7 },
    { filename := "Textures/booksides.jpg", tag := "booksides",
      image := images 8, newID := newIDs 8 },
    { filename := "Textures/bookspines.jpg", tag := "bookspines",
      image := images 9, newID := newIDs 9 },
    { filename := "Textures/bookstop.jpg", tag := "bookstop",
      image := images 10, newID := newIDs 10 },
    { filename := "Textures/booksback.jpg", tag := "booksback",
      image := images 11, newID := newIDs 11 } ]

/-- The calls one pass of the `BindGLTextures` loop body makes for each entry
of a list of registry entries, the first entry on texture unit `unit`. -/
def bindEvents : List TEXTURE_INFO → Nat → List (Event F)
  | [], _ => []
  | entry :: rest, unit =>
    Event.glActiveTexture unit :: Event.glBindTexture entry.ID :: bindEvents rest (unit + 1)

/-- Whether an event is one of the calls `CreateGLTexture` makes: to the image
loader, or to create, configure and upload one texture. -/
def Event.ofTextureLoad : Event F → Bool
  | Event.stbiSetFlip _ => true
  | Event.stbiImageFree => true
  | Event.glGenTextures _ => true
  | Event.glBindTexture _ => true
  | Event.glTexParameteri _ _ => true
  | Event.glTexImage2D _ _ _ => true
  | Event.glGenerateMipmap => true
  | _ => false

/-- The five mesh loads of `PrepareScene`, as they appear in the trace. -/
def PrepareScene.meshLoads : List (Event F) :=
  [Event.loadMesh MeshKind.plane, Event.loadMesh MeshKind.sphere,
   Event.loadMesh MeshKind.cylinder, Event.loadMesh MeshKind.torus,
   Event.loadMesh MeshKind.box]

/-- The twenty uniform writes of `SetupSceneLights`, as they appear in the
trace. -/
def SetupSceneLights.events [Field F] : List (Event F) :=
  [ Event.uniform "lightSources[0].position"
      (UniformValue.vec3 { x := 0.0, y := 30.0, z := 0.0 }),
    Event.uniform "lightSources[0].ambientColor"
      (UniformValue.vec3 { x := 0.3, y := 0.25, z := 0.2 }),
    Event.uniform "lightSources[0].diffuseColor"
      (UniformValue.vec3 { x := 0.9, y := 0.85, z := 0.75 }),
    Event.uniform "lightSources[0].specularColor"
      (UniformValue.vec3 { x := 1.0, y := 1.0, z := 0.9 }),
    Event.uniform "lightSources[0].focalStrength" (UniformValue.float 64.0),
    Event.uniform "lightSources[0].specularIntensity" (UniformValue.float 0.2),
    Event.uniform "lightSources[1].position"
      (UniformValue.vec3 { x := (-10.0), y := 23.0, z := 5.0 }),
    Event.uniform "lightSources[1].ambientColor"
      (UniformValue.vec3 { x := 0.2, y := 0.15, z := 0.1 }),
    Event.uniform "lightSources[1].diffuseColor"
      (UniformValue.vec3 { x := 0.8, y := 0.7, z := 0.6 }),
    Event.uniform "lightSources[1].specularColor"
      (UniformValue.vec3 { x := 0.9, y := 0.8, z := 0.7 }),
    Event.uniform "lightSources[1].focalStrength" (UniformValue.float 32.0),
    Event.uniform "lightSources[1].specularIntensity" (UniformValue.float 0.1),
    Event.uniform "lightSources[2].position"
      (UniformValue.vec3 { x := 0.0, y := 0.0, z := 0.0 }),
    Event.uniform "lightSources[2].ambientColor"
      (UniformValue.vec3 { x := 0.1, y := 0.1, z := 0.1 }),
    Event.uniform "lightSources[2].diffuseColor"
      (UniformValue.vec3 { x := 0.0, y := 0.0, z := 0.0 }),
    Event.uniform "lightSources[2].specularColor"
      (UniformValue.vec3 { x := 0.0, y := 0.0, z := 0.0 }),
    Event.uniform "lightSources[2].direction"
      (UniformValue.vec3 { x := 0.0, y := 0.0, z := 0.0 }),
    Event.uniform "lightSources[2].focalStrength" (UniformValue.float 1.0),
    Event.uniform "lightSources[2].specularIntensity" (UniformValue.float 0.0),
    Event.uniform "bUseLighting" (UniformValue.bool true) ]

/-! ## Observations on tags and names -/

/-- The tags that the `SetShaderTexture` calls among a list of call kinds pass,
in order. -/
def kindsTextureTags : List CallKind → List String
  | [] => []
  | CallKind.SetShaderTexture textureTag :: t => textureTag :: kindsTextureTags t
  | _ :: t => kindsTextureTags t

/-- The tags that the `SetShaderMaterial` calls among a list of call kinds pass,
in order. -/
def kindsMaterialTags : List CallKind → List String
  | [] => []
  | CallKind.SetShaderMaterial materialTag :: t => materialTag :: kindsMaterialTags t
  | _ :: t => kindsMaterialTags t

/-- Whether a call kind sets the surface of an object: `SetShaderTexture` or
`SetShaderColor`. -/
def CallKind.isSurface : CallKind → Bool
  | CallKind.SetShaderTexture _ => true
  | CallKind.SetShaderColor => true
  | _ => false

/-- Whether a call kind is `SetShaderMaterial`. -/
def CallKind.isMaterial : CallKind → Bool
  | CallKind.SetShaderMaterial _ => true
  | _ => false

/-- Whether a uniform name starts with "lightSources". -/
def isLightSourceName (name : String) : Bool :=
  name.toList.take 12 == "lightSources".toList

/-- The names of the uniforms a call of `RenderScene` can write. -/
def RenderScene.uniforms : List String :=
  ["model", "UVscale", "bUseTexture", "objectTexture", "objectColor",
   "material.ambientColor", "material.ambientStrength", "material.diffuseColor",
   "material.specularColor", "material.shininess"]

/-! ## The transform matrices as the specification writes them -/

namespace Spec

variable [Field F]

/-- The specification's `Scale(s)`: scaling by the components of `s`, in
homogeneous coordinates. -/
def Scale (s : glm.vec3 F) : glm.mat4 F :=
  !![s.x, 0, 0, 0;
     0, s.y, 0, 0;
     0, 0, s.z, 0;
     0, 0, 0, 1]

/-- The specification's `Translate(t)`: translation by `t`, in homogeneous
coordinates. -/
def Translate (t : glm.vec3 F) : glm.mat4 F :=
  !![1, 0, 0, t.x;
     0, 1, 0, t.y;
     0, 0, 1, t.z;
     0, 0, 0, 1]

/-- The specification's `RotateX(a)`: rotation by `a` radians about the X axis. -/
def RotateX (ops : glm.FloatOps F) (a : F) : glm.mat4 F :=
  !![1, 0, 0, 0;
     0, ops.cos a, -ops.sin a, 0;
     0, ops.sin a, ops.cos a, 0;
     0, 0, 0, 1]

/-- The specification's `RotateY(a)`: rotation by `a` radians about the Y axis. -/
def RotateY (ops : glm.FloatOps F) (a : F) : glm.mat4 F :=
  !![ops.cos a, 0, ops.sin a, 0;
     0, 1, 0, 0;
     -ops.sin a, 0, ops.cos a, 0;
     0, 0, 0, 1]

/-- The specification's `RotateZ(a)`: rotation by `a` radians about the Z axis. -/
def RotateZ (ops : glm.FloatOps F) (a : F) : glm.mat4 F :=
  !![ops.cos a, -ops.sin a, 0, 0;
     ops.sin a, ops.cos a, 0, 0;
     0, 0, 1, 0;
     0, 0, 0, 1]

end Spec

/-- Whether the calls of one object are `SetTransformations`,
`SetTextureUVScale`, `SetShaderTexture`, `SetShaderMaterial`, in this order:
the UV scale is set right after the transformation. -/
def uvAfterTransform : List CallKind → Bool
  | [CallKind.SetTransformations, CallKind.SetTextureUVScale, CallKind.SetShaderTexture _,
      CallKind.SetShaderMaterial _] => true
  | _ => false

/-- Whether the calls of one object are `SetTransformations`,
`SetShaderTexture`, `SetTextureUVScale`, `SetShaderMaterial`, in this order: the
UV scale is set between the texture and the material. -/
def uvBeforeMaterial : List CallKind → Bool
  | [CallKind.SetTransformations, CallKind.SetShaderTexture _, CallKind.SetTextureUVScale,
      CallKind.SetShaderMaterial _] => true
  | _ => false

/-- Whether the calls of one object are `SetTransformations`,
`SetShaderTexture`, `SetShaderMaterial`, `SetTextureUVScale`, in this order: the
UV scale is set last. -/
def uvAfterMaterial : List CallKind → Bool
  | [CallKind.SetTransformations, CallKind.SetShaderTexture _, CallKind.SetShaderMaterial _,
      CallKind.SetTextureUVScale] => true
  | _ => false

/-- Whether the calls of one object are `SetTransformations`, then
`SetShaderTexture` or `SetShaderColor`, then `SetShaderMaterial`, and no
other. -/
def withoutUVCall : List CallKind → Bool
  | [CallKind.SetTransformations, CallKind.SetShaderTexture _,
      CallKind.SetShaderMaterial _] => true
  | [CallKind.SetTransformations, CallKind.SetShaderColor,
      CallKind.SetShaderMaterial _] => true
  | _ => false

/-- The names of the five material uniforms. -/
def materialUniforms : List String :=
  ["material.ambientColor", "material.ambientStrength", "material.diffuseColor",
   "material.specularColor", "material.shininess"]

/-! ## The light uniforms as the specification lists them -/

/-- The specification's light uniforms: position, ambientColor, diffuseColor,
specularColor, focalStrength and specularIntensity of `lightSources[i]` for
`i` in 0..2. -/
def Spec.lightSourceUniforms : List String :=
  ["lightSources[0].position", "lightSources[0].ambientColor",
   "lightSources[0].diffuseColor", "lightSources[0].specularColor",
   "lightSources[0].focalStrength", "lightSources[0].specularIntensity",
   "lightSources[1].position", "lightSources[1].ambientColor",
   "lightSources[1].diffuseColor", "lightSources[1].specularColor",
   "lightSources[1].focalStrength", "lightSources[1].specularIntensity",
   "lightSources[2].position", "lightSources[2].ambientColor",
   "lightSources[2].diffuseColor", "lightSources[2].specularColor",
   "lightSources[2].focalStrength", "lightSources[2].specularIntensity"]

/-! ## Concrete scenes used as inputs -/

/-- The first material of `DefineObjectMaterials`, over the rationals. -/
def woodMaterial : OBJECT_MATERIAL ℚ :=
  { ambientStrength := 0.3
    ambientColor := { x := 0.4, y := 0.2, z := 0.1 }
    diffuseColor := { x := 0.6, y := 0.3, z := 0.15 }
    specularColor := { x := 0.2, y := 0.2, z := 0.2 }
    shininess := 1.0
    tag := "wood" }

/-- A second definition of "wood" that differs from the first in its shininess. -/
def woodMaterialShiny : OBJECT_MATERIAL ℚ :=
  { woodMaterial with shininess := 64.0 }

/-- A material record with every number zero and an empty tag. -/
def blankMaterial : OBJECT_MATERIAL ℚ :=
  { ambientStrength := 0
    ambientColor := { x := 0, y := 0, z := 0 }
    diffuseColor := { x := 0, y := 0, z := 0 }
    specularColor := { x := 0, y := 0, z := 0 }
    shininess := 0
    tag := "" }

/-- A texture array of capacity `MAX_TEXTURES` with every slot unused. -/
def emptySlots : List TEXTURE_INFO :=
  List.replicate MAX_TEXTURES { tag := "", ID := 0 }

/-- A scene with the shader set, no texture, and "wood" as its only material. -/
def sceneWood : SceneManager ℚ :=
  { m_pShaderManager := true
    m_textureIDs := emptySlots
    m_loadedTextures := 0
    m_objectMaterials := [woodMaterial]
    trace := [] }

/-- A scene with the shader set, no texture, and "wood" defined twice. -/
def sceneTwoWoods : SceneManager ℚ :=
  { sceneWood with m_objectMaterials := [woodMaterial, woodMaterialShiny] }

/-- A scene with the shader set and one registered texture, "wall" with
identifier 7, in slot 0. -/
def sceneOneTexture : SceneManager ℚ :=
  { m_pShaderManager := true
    m_textureIDs := { tag := "wall", ID := 7 } :: List.replicate 15 { tag := "", ID := 0 }
    m_loadedTextures := 1
    m_objectMaterials := []
    trace := [] }

/-- A scene in which "wall" is registered twice, with identifiers 7 and 9. -/
def sceneTwoWalls : SceneManager ℚ :=
  { m_pShaderManager := true
    m_textureIDs :=
      { tag := "wall", ID := 7 } :: { tag := "wall", ID := 9 }
        :: List.replicate 14 { tag := "", ID := 0 }
    m_loadedTextures := 2
    m_objectMaterials := []
    trace := [] }

/-- A scene whose sixteen texture slots are all in use. -/
def sceneFull : SceneManager ℚ :=
  { m_pShaderManager := true
    m_textureIDs := List.replicate 16 { tag := "wall", ID := 7 }
    m_loadedTextures := 16
    m_objectMaterials := []
    trace := [] }

/-- A decoded image with three colour channels. -/
def imageRGB : Image := { width := 4, height := 4, colorChannels := 3 }

/-- A decoded image with a single colour channel. -/
def imageGray : Image := { width := 4, height := 4, colorChannels := 1 }

/-- A scene with the shader handle unset, over any scalar type: one registered
texture and no material. -/
def sceneNoShader (F : Type) : SceneManager F :=
  { m_pShaderManager := false
    m_textureIDs := { tag := "wall", ID := 7 } :: List.replicate 15 { tag := "", ID := 0 }
    m_loadedTextures := 1
    m_objectMaterials := []
    trace := [] }

/-- A scene with the shader handle set, over any scalar type: one registered
texture, no material, and an empty trace. -/
def sceneShaderOnly (F : Type) : SceneManager F :=
  { sceneNoShader F with m_pShaderManager := true }

/-- The scene with "wood" as its only material and the shader handle unset. -/
def sceneWoodNoShader : SceneManager ℚ :=
  { sceneWood with m_pShaderManager := false }

/-- A scene with the shader set, an empty registry of capacity 16, no material
and an empty trace, over any scalar type. -/
def sceneEmpty (F : Type) : SceneManager F :=
  { m_pShaderManager := true
    m_textureIDs := emptySlots
    m_loadedTextures := 0
    m_objectMaterials := []
    trace := [] }

/-- A request that loads a valid 3-channel image under the tag "wall". -/
def requestWall : LoadRequest :=
  { filename := "Textures/wall.jpg", tag := "wall", image := some imageRGB, newID := 7 }

/-- A request whose image has a single colour channel. -/
def requestGray : LoadRequest :=
  { filename := "Textures/gray.png", tag := "gray", image := some imageGray, newID := 8 }

/-- A request that loads a valid 3-channel image under the tag "floor". -/
def requestFloor : LoadRequest :=
  { filename := "Textures/floor.jpg", tag := "floor", image := some imageRGB, newID := 9 }

/-- The scene as `PrepareScene` leaves it when it starts from the empty registry
and the twelve texture loads succeed with the identifiers 1 to 12, with an
empty trace. -/
def scenePrepared (F : Type) [Field F] : SceneManager F :=
  { m_pShaderManager := true
    m_textureIDs :=
      [ { tag := "globe_base", ID := 1 }, { tag := "blackwood", ID := 2 },
        { tag := "globe", ID := 3 }, { tag := "rubiks", ID := 4 },
        { tag := "floor", ID := 5 }, { tag := "wall", ID := 6 },
        { tag := "silver", ID := 7 }, { tag := "earth", ID := 8 },
        { tag := "booksides", ID := 9 }, { tag := "bookspines", ID := 10 },
        { tag := "bookstop", ID := 11 }, { tag := "booksback", ID := 12 },
        { tag := "", ID := 0 }, { tag := "", ID := 0 },
        { tag := "", ID := 0 }, { tag := "", ID := 0 } ]
    m_loadedTextures := 12
    m_objectMaterials := DefineObjectMaterials.materials
    trace := [] }

/-- A material record with every number zero and an empty tag, over any field. -/
def zeroMaterial (F : Type) [Field F] : OBJECT_MATERIAL F :=
  { ambientStrength := 0
    ambientColor := { x := 0, y := 0, z := 0 }
    diffuseColor := { x := 0, y := 0, z := 0 }
    specularColor := { x := 0, y := 0, z := 0 }
    shininess := 0
    tag := "" }

/-- Every texture file decodes to a valid 3-channel image. -/
def imagesAllRGB : Nat → Option Image := fun _ => some imageRGB

/-- The `k`-th `glGenTextures` call produces the identifier `k + 1`. -/
def idsFromOne : Nat → Nat := fun k => k + 1

/-- The `i`-th `glGenTextures` call of `DestroyGLTextures` produces the
identifier `100 + i`. -/
def idsFromHundred : Nat → Nat := fun i => 100 + i

/-- The texture file of the second load has a single colour channel, the file
of the fourth load is missing, and the other files decode to 3-channel
images. -/
def imagesTwoBad : Nat → Option Image := fun k =>
  if k = 1 then some imageGray else if k = 3 then none else some imageRGB

/-- A scene whose only texture, "wall", has the largest 32-bit identifier. -/
def sceneLargeID : SceneManager ℚ :=
  { m_pShaderManager := true
    m_textureIDs :=
      { tag := "wall", ID := 4294967295 } :: List.replicate 15 { tag := "", ID := 0 }
    m_loadedTextures := 1
    m_objectMaterials := []
    trace := [] }

/-! # Theorems -/

/-! ## Material table: lemmas on the lookup loop -/

theorem FindMaterial_loop_found (mats : List (OBJECT_MATERIAL F)) (tag : String)
    (index : Nat) (material : OBJECT_MATERIAL F) :
    FindMaterial.loop mats tag index true material = (index, true, material) := by
  rw [FindMaterial.loop]
  simp

theorem FindMaterial_loop_miss (mats : List (OBJECT_MATERIAL F)) (tag : String)
    (material : OBJECT_MATERIAL F) (k : Nat) :
    ∀ index, mats.length - index = k →
      (∀ j (hj : j < mats.length), index ≤ j → (mats.get ⟨j, hj⟩).tag ≠ tag) →
      FindMaterial.loop mats tag index false material = (index + k, false, material) := by
  induction k with
  | zero =>
    intro index hk _
    rw [FindMaterial.loop]
    have : ¬ index < mats.length := by omega
    simp [this]
  | succ k ih =>
    intro index hk hall
    have hlt : index < mats.length := by omega
    rw [FindMaterial.loop]
    have hne := hall index hlt (Nat.le_refl _)
    simp only [hlt, and_self, dite_true]
    rw [if_neg hne, ih (index + 1) (by omega) (fun j hj hle => hall j hj (by omega))]
    congr 1
    omega

theorem FindMaterial_loop_first (mats : List (OBJECT_MATERIAL F)) (tag : String)
    (material : OBJECT_MATERIAL F) (i : Nat) (hi : i < mats.length)
    (hmatch : (mats.get ⟨i, hi⟩).tag = tag) (k : Nat) :
    ∀ index, i - index = k → index ≤ i →
      (∀ j (hj : j < mats.length), index ≤ j → j < i →
        (mats.get ⟨j, hj⟩).tag ≠ tag) →
      FindMaterial.loop mats tag index false material
        = (i, true,
            { material with
              ambientColor := (mats.get ⟨i, hi⟩).ambientColor
              ambientStrength := (mats.get ⟨i, hi⟩).ambientStrength
              diffuseColor := (mats.get ⟨i, hi⟩).diffuseColor
              specularColor := (mats.get ⟨i, hi⟩).specularColor
              shininess := (mats.get ⟨i, hi⟩).shininess }) := by
  induction k with
  | zero =>
    intro index hk hle _
    have hidx : index = i := by omega
    subst hidx
    rw [FindMaterial.loop]
    simp only [hi, and_self, dite_true]
    rw [if_pos hmatch, FindMaterial_loop_found]
  | succ k ih =>
    intro index hk hle hall
    have hlt : index < mats.length := by omega
    have hne := hall index hlt (Nat.le_refl _) (by omega)
    rw [FindMaterial.loop]
    simp only [hlt, and_self, dite_true]
    rw [if_neg hne]
    exact ih (index + 1) (by omega) (by omega) (fun j hj h1 h2 => hall j hj (by omega) h2)

/-! ## Texture registry: lemmas on the lookup loops -/

theorem FindTextureSlot_loop_found (ids : List TEXTURE_INFO) (n : Nat) (tag : String)
    (index : Nat) (textureSlot : Int) (reads : List Nat) :
    FindTextureSlot.loop ids n tag index true textureSlot reads = .ok (textureSlot, reads) := by
  rw [FindTextureSlot.loop]
  simp

theorem FindTextureID_loop_found (ids : List TEXTURE_INFO) (n : Nat) (tag : String)
    (index : Nat) (textureID : Int) (reads : List Nat) :
    FindTextureID.loop ids n tag index true textureID reads = .ok (textureID, reads) := by
  rw [FindTextureID.loop]
  simp

/-- From any index, on a registry whose count does not exceed the array, the
slot loop returns, having read only indices between `index` and the count, and
at most as many of them as remain. -/
theorem FindTextureSlot_loop_reads (ids : List TEXTURE_INFO) (n : Nat) (tag : String)
    (hn : n ≤ ids.length) (k : Nat) :
    ∀ (index : Nat) (textureSlot : Int) (reads : List Nat),
      n - index = k →
      ∃ r rs,
        FindTextureSlot.loop ids n tag index false textureSlot reads = .ok (r, reads ++ rs) ∧
        (∀ i ∈ rs, index ≤ i ∧ i < n) ∧ rs.length ≤ k := by
  induction k with
  | zero =>
    intro index textureSlot reads hk
    refine ⟨textureSlot, [], ?_, by simp, by simp⟩
    rw [FindTextureSlot.loop]
    have : ¬ index < n := by omega
    simp [this]
  | succ k ih =>
    intro index textureSlot reads hk
    have hlt : index < n := by omega
    have hget : ids[index]? = some (ids.get ⟨index, by omega⟩) := by
      simp [List.getElem?_eq_getElem (show index < ids.length by omega)]
    rw [FindTextureSlot.loop]
    simp only [hlt, and_self, dite_true, hget]
    by_cases hm : (ids.get ⟨index, by omega⟩).tag = tag
    · rw [if_pos hm, FindTextureSlot_loop_found]
      refine ⟨(index : Int), [index], rfl, ?_, by simp⟩
      intro i hi
      simp at hi
      omega
    · rw [if_neg hm]
      obtain ⟨r, rs, h1, h2, h3⟩ := ih (index + 1) textureSlot (reads ++ [index]) (by omega)
      refine ⟨r, index :: rs, ?_, ?_, by simp; omega⟩
      · rw [h1]
        simp
      · intro i hi
        rcases List.mem_cons.mp hi with h | h
        · omega
        · have := h2 i h
          omega

theorem FindTextureID_loop_reads (ids : List TEXTURE_INFO) (n : Nat) (tag : String)
    (hn : n ≤ ids.length) (k : Nat) :
    ∀ (index : Nat) (textureID : Int) (reads : List Nat),
      n - index = k →
      ∃ r rs, FindTextureID.loop ids n tag index false textureID reads = .ok (r, reads ++ rs) ∧
        (∀ i ∈ rs, index ≤ i ∧ i < n) ∧ rs.length ≤ k := by
  induction k with
  | zero =>
    intro index textureID reads hk
    refine ⟨textureID, [], ?_, by simp, by simp⟩
    rw [FindTextureID.loop]
    have : ¬ index < n := by omega
    simp [this]
  | succ k ih =>
    intro index textureID reads hk
    have hlt : index < n := by omega
    have hget : ids[index]? = some (ids.get ⟨index, by omega⟩) := by
      simp [List.getElem?_eq_getElem (show index < ids.length by omega)]
    rw [FindTextureID.loop]
    simp only [hlt, and_self, dite_true, hget]
    by_cases hm : (ids.get ⟨index, by omega⟩).tag = tag
    · rw [if_pos hm, FindTextureID_loop_found]
      refine ⟨_, [index], rfl, ?_, by simp⟩
      intro i hi
      simp at hi
      omega
    · rw [if_neg hm]
      obtain ⟨r, rs, h1, h2, h3⟩ := ih (index + 1) textureID (reads ++ [index]) (by omega)
      refine ⟨r, index :: rs, ?_, ?_, by simp; omega⟩
      · rw [h1]
        simp
      · intro i hi
        rcases List.mem_cons.mp hi with h | h
        · omega
        · have := h2 i h
          omega

/-- When no registered entry from `index` on has the tag, the slot loop returns
the value it started with. -/
theorem FindTextureSlot_loop_miss (ids : List TEXTURE_INFO) (n : Nat) (tag : String)
    (hn : n ≤ ids.length)
    (hall : ∀ j, j < n → ∀ e, ids[j]? = some e → e.tag ≠ tag)
    (k : Nat) :
    ∀ (index : Nat) (textureSlot : Int) (reads : List Nat),
      n - index = k →
      ∃ rs, FindTextureSlot.loop ids n tag index false textureSlot reads
        = .ok (textureSlot, rs) := by
  induction k with
  | zero =>
    intro index textureSlot reads hk
    refine ⟨reads, ?_⟩
    rw [FindTextureSlot.loop]
    have : ¬ index < n := by omega
    simp [this]
  | succ k ih =>
    intro index textureSlot reads hk
    have hlt : index < n := by omega
    have hget : ids[index]? = some (ids.get ⟨index, by omega⟩) := by
      simp [List.getElem?_eq_getElem (show index < ids.length by omega)]
    rw [FindTextureSlot.loop]
    simp only [hlt, and_self, dite_true, hget]
    rw [if_neg (hall index hlt _ hget)]
    exact ih (index + 1) textureSlot (reads ++ [index]) (by omega)

theorem FindTextureID_loop_miss (ids : List TEXTURE_INFO) (n : Nat) (tag : String)
    (hn : n ≤ ids.length)
    (hall : ∀ j, j < n → ∀ e, ids[j]? = some e → e.tag ≠ tag)
    (k : Nat) :
    ∀ (index : Nat) (textureID : Int) (reads : List Nat),
      n - index = k →
      ∃ rs, FindTextureID.loop ids n tag index false textureID reads = .ok (textureID, rs) := by
  induction k with
  | zero =>
    intro index textureID reads hk
    refine ⟨reads, ?_⟩
    rw [FindTextureID.loop]
    have : ¬ index < n := by omega
    simp [this]
  | succ k ih =>
    intro index textureID reads hk
    have hlt : index < n := by omega
    have hget : ids[index]? = some (ids.get ⟨index, by omega⟩) := by
      simp [List.getElem?_eq_getElem (show index < ids.length by omega)]
    rw [FindTextureID.loop]
    simp only [hlt, and_self, dite_true, hget]
    rw [if_neg (hall index hlt _ hget)]
    exact ih (index + 1) textureID (reads ++ [index]) (by omega)

/-- When entry `i` is the first registered entry from `index` on with the tag,
the slot loop returns `i`. -/
theorem FindTextureSlot_loop_first (ids : List TEXTURE_INFO) (n : Nat) (tag : String)
    (hn : n ≤ ids.length)
    (i : Nat) (hi : i < n) (e : TEXTURE_INFO)
    (he : ids[i]? = some e) (hmatch : e.tag = tag) (k : Nat) :
    ∀ (index : Nat) (textureSlot : Int) (reads : List Nat),
      i - index = k → index ≤ i →
      (∀ j, index ≤ j → j < i → ∀ e', ids[j]? = some e' → e'.tag ≠ tag) →
      ∃ rs, FindTextureSlot.loop ids n tag index false textureSlot reads
        = .ok ((i : Int), rs) := by
  induction k with
  | zero =>
    intro index textureSlot reads hk hle _
    have hidx : index = i := by omega
    subst hidx
    rw [FindTextureSlot.loop]
    simp only [hi, and_self, dite_true, he]
    rw [if_pos hmatch, FindTextureSlot_loop_found]
    exact ⟨_, rfl⟩
  | succ k ih =>
    intro index textureSlot reads hk hle hall
    have hlt : index < n := by omega
    have hget : ids[index]? = some (ids.get ⟨index, by omega⟩) := by
      simp [List.getElem?_eq_getElem (show index < ids.length by omega)]
    rw [FindTextureSlot.loop]
    simp only [hlt, and_self, dite_true, hget]
    rw [if_neg (hall index (Nat.le_refl _) (by omega) _ hget)]
    exact ih (index + 1) textureSlot (reads ++ [index]) (by omega) (by omega)
      (fun j h1 h2 => hall j (by omega) h2)

theorem FindTextureID_loop_first (ids : List TEXTURE_INFO) (n : Nat) (tag : String)
    (hn : n ≤ ids.length)
    (i : Nat) (hi : i < n) (e : TEXTURE_INFO)
    (he : ids[i]? = some e) (hmatch : e.tag = tag) (k : Nat) :
    ∀ (index : Nat) (textureID : Int) (reads : List Nat),
      i - index = k → index ≤ i →
      (∀ j, index ≤ j → j < i → ∀ e', ids[j]? = some e' → e'.tag ≠ tag) →
      ∃ rs, FindTextureID.loop ids n tag index false textureID reads
        = .ok (uintToInt e.ID, rs) := by
  induction k with
  | zero =>
    intro index textureID reads hk hle _
    have hidx : index = i := by omega
    subst hidx
    rw [FindTextureID.loop]
    simp only [hi, and_self, dite_true, he]
    rw [if_pos hmatch, FindTextureID_loop_found]
    exact ⟨_, rfl⟩
  | succ k ih =>
    intro index textureID reads hk hle hall
    have hlt : index < n := by omega
    have hget : ids[index]? = some (ids.get ⟨index, by omega⟩) := by
      simp [List.getElem?_eq_getElem (show index < ids.length by omega)]
    rw [FindTextureID.loop]
    simp only [hlt, and_self, dite_true, hget]
    rw [if_neg (hall index (Nat.le_refl _) (by omega) _ hget)]
    exact ih (index + 1) textureID (reads ++ [index]) (by omega) (by omega)
      (fun j h1 h2 => hall j (by omega) h2)

/-! ## Shader uniform interface: lemmas -/

theorem uniformWrites_append (t1 t2 : List (Event F)) :
    uniformWrites (t1 ++ t2) = uniformWrites t1 ++ uniformWrites t2 := by
  induction t1 with
  | nil => rfl
  | cons e t ih =>
    cases e <;> simp [uniformWrites, ih]

/-- After a write to `name`, the uniform `name` holds the written value. -/
theorem uniformValue_write_same (t : List (Event F)) (name : String) (v : UniformValue F) :
    uniformValue (t ++ [Event.uniform name v]) name = some v := by
  simp [uniformValue, uniformWrites_append, uniformWrites]

/-- A write to another name leaves the uniform `name` as it was. -/
theorem uniformValue_write_other (t : List (Event F)) (name other : String)
    (v : UniformValue F) (h : other ≠ name) :
    uniformValue (t ++ [Event.uniform other v]) name = uniformValue t name := by
  simp [uniformValue, uniformWrites_append, uniformWrites, h]

/-- A draw call leaves every uniform as it was. -/
theorem uniformValue_draw (t : List (Event F)) (name : String) (kind : MeshKind) :
    uniformValue (t ++ [Event.drawMesh kind]) name = uniformValue t name := by
  simp [uniformValue, uniformWrites_append, uniformWrites]

/-- On a non-empty table with no entry of the given tag, `FindMaterial` returns
`true` and leaves the output record untouched. -/
theorem FindMaterial_unmatched (s : SceneManager F) (tag : String)
    (material : OBJECT_MATERIAL F) (hne : s.m_objectMaterials.length ≠ 0)
    (hall : ∀ e ∈ s.m_objectMaterials, e.tag ≠ tag) :
    FindMaterial s tag material = (true, material) := by
  have h := FindMaterial_loop_miss s.m_objectMaterials tag material _ 0 rfl
    (fun j hj _ => hall _ (List.get_mem _ _ _))
  unfold FindMaterial
  rw [if_neg hne, h]

/-! ## Shader parameter binder: lemmas -/

/-- With the shader set, `SetShaderColor` returns after two uniform writes. -/
theorem SetShaderColor_ok (s : SceneManager F) (r g b a : F)
    (hshader : s.m_pShaderManager = true) :
    SetShaderColor s r g b a = Except.ok
      { s with
        trace := s.trace ++
          [Event.uniform "bUseTexture" (UniformValue.int 0),
           Event.uniform "objectColor"
             (UniformValue.vec4 { x := r, y := g, z := b, w := a })] } := by
  simp [SetShaderColor, hshader, SceneManager.setIntValue, SceneManager.setVec4Value,
    SceneManager.writeUniform, bind, Except.bind, boolToInt, g_UseTextureName, g_ColorValueName]

/-- The slot lookup does not depend on the trace. -/
theorem FindTextureSlot_trace (s : SceneManager F) (t : List (Event F)) (tag : String) :
    FindTextureSlot { s with trace := t } tag = FindTextureSlot s tag := rfl

/-- On a registry whose count does not exceed the array, the slot lookup
returns. -/
theorem FindTextureSlot_ok (s : SceneManager F) (tag : String)
    (hn : s.m_loadedTextures ≤ s.m_textureIDs.length) :
    ∃ slot, FindTextureSlot s tag = Except.ok slot := by
  obtain ⟨r, rs, h1, _, _⟩ :=
    FindTextureSlot_loop_reads s.m_textureIDs s.m_loadedTextures tag hn _ 0 (-1) [] rfl
  exact ⟨r, by simp [FindTextureSlot, h1, Except.map]⟩

/-- With the shader set, `SetShaderTexture` returns after two uniform writes,
the second carrying the slot the lookup returned. -/
theorem SetShaderTexture_ok (s : SceneManager F) (tag : String) (slot : Int)
    (hshader : s.m_pShaderManager = true) (hslot : FindTextureSlot s tag = Except.ok slot) :
    SetShaderTexture s tag = Except.ok
      { s with
        trace := s.trace ++
          [Event.uniform "bUseTexture" (UniformValue.int 1),
           Event.uniform "objectTexture" (UniformValue.sampler2D slot)] } := by
  simp only [FindTextureSlot] at hslot
  simp [SetShaderTexture, hshader, SceneManager.setIntValue, SceneManager.setSampler2DValue,
    SceneManager.writeUniform, bind, Except.bind, boolToInt, g_UseTextureName,
    g_TextureValueName, FindTextureSlot, hslot]

/-! ## Transform composer: lemmas -/

/-- About the unit X axis, `glm::rotate` is the specification's `RotateX`. -/
theorem rotate_axisX [Field F] (ops : glm.FloatOps F) (h1 : ops.sqrt 1 = 1) (a : F) :
    glm.rotate ops a { x := 1, y := 0, z := 0 } = Spec.RotateX ops a := by
  ext i j
  fin_cases i <;> fin_cases j <;>
    simp [glm.rotate, Spec.RotateX, glm.normalize, glm.dot, h1]

/-- About the unit Y axis, `glm::rotate` is the specification's `RotateY`. -/
theorem rotate_axisY [Field F] (ops : glm.FloatOps F) (h1 : ops.sqrt 1 = 1) (a : F) :
    glm.rotate ops a { x := 0, y := 1, z := 0 } = Spec.RotateY ops a := by
  ext i j
  fin_cases i <;> fin_cases j <;>
    simp [glm.rotate, Spec.RotateY, glm.normalize, glm.dot, h1]

/-- About the unit Z axis, `glm::rotate` is the specification's `RotateZ`. -/
theorem rotate_axisZ [Field F] (ops : glm.FloatOps F) (h1 : ops.sqrt 1 = 1) (a : F) :
    glm.rotate ops a { x := 0, y := 0, z := 1 } = Spec.RotateZ ops a := by
  ext i j
  fin_cases i <;> fin_cases j <;>
    simp [glm.rotate, Spec.RotateZ, glm.normalize, glm.dot, h1]

/-- The function `glm::scale` is the specification's `Scale`. -/
theorem scale_eq [Field F] (v : glm.vec3 F) : glm.scale v = Spec.Scale v := rfl

/-- The function `glm::translate` is the specification's `Translate`. -/
theorem translate_eq [Field F] (v : glm.vec3 F) : glm.translate v = Spec.Translate v := rfl

/-- The probe point of the specification: scale (2,1,1), 90 degrees about Y,
translation (5,0,0) send (1,0,0) to (5,0,-2). -/
theorem probe_point :
    (Spec.Translate ({ x := 5, y := 0, z := 0 } : glm.vec3 ℝ)
      * Spec.RotateX { cos := Real.cos, sin := Real.sin, sqrt := Real.sqrt, pi := Real.pi }
          (0 * Real.pi / 180)
      * Spec.RotateY { cos := Real.cos, sin := Real.sin, sqrt := Real.sqrt, pi := Real.pi }
          (90 * Real.pi / 180)
      * Spec.RotateZ { cos := Real.cos, sin := Real.sin, sqrt := Real.sqrt, pi := Real.pi }
          (0 * Real.pi / 180)
      * Spec.Scale ({ x := 2, y := 1, z := 1 } : glm.vec3 ℝ)).mulVec ![1, 0, 0, 1]
      = ![5, 0, -2, 1] := by
  have h90 : (90 * Real.pi / 180 : ℝ) = Real.pi / 2 := by ring
  rw [h90]
  simp only [← Matrix.mulVec_mulVec]
  have e1 : (Spec.Scale ({ x := 2, y := 1, z := 1 } : glm.vec3 ℝ)).mulVec ![1, 0, 0, 1]
      = ![2, 0, 0, 1] := by
    ext i
    fin_cases i <;> simp [Spec.Scale, Matrix.mulVec, Matrix.dotProduct, Fin.sum_univ_four]
  have e2 : ∀ v : Fin 4 → ℝ,
      (Spec.RotateZ { cos := Real.cos, sin := Real.sin, sqrt := Real.sqrt, pi := Real.pi }
        (0 * Real.pi / 180)).mulVec v = v := by
    intro v
    ext i
    fin_cases i <;> simp [Spec.RotateZ, Matrix.mulVec, Matrix.dotProduct, Fin.sum_univ_four]
  have e3 :
      (Spec.RotateY { cos := Real.cos, sin := Real.sin, sqrt := Real.sqrt, pi := Real.pi }
        (Real.pi / 2)).mulVec ![2, 0, 0, 1] = ![0, 0, -2, 1] := by
    ext i
    fin_cases i <;> simp [Spec.RotateY, Matrix.mulVec, Matrix.dotProduct, Fin.sum_univ_four]
  have e4 : ∀ v : Fin 4 → ℝ,
      (Spec.RotateX { cos := Real.cos, sin := Real.sin, sqrt := Real.sqrt, pi := Real.pi }
        (0 * Real.pi / 180)).mulVec v = v := by
    intro v
    ext i
    fin_cases i <;> simp [Spec.RotateX, Matrix.mulVec, Matrix.dotProduct, Fin.sum_univ_four]
  have e5 : (Spec.Translate ({ x := 5, y := 0, z := 0 } : glm.vec3 ℝ)).mulVec ![0, 0, -2, 1]
      = ![5, 0, -2, 1] := by
    ext i
    fin_cases i <;> simp [Spec.Translate, Matrix.mulVec, Matrix.dotProduct, Fin.sum_univ_four]
  rw [e1, e2, e3, e4, e5]

/-! ## Material table: claims -/

/-- C1 (evaluation at the failing input). On the table holding only "wood",
`FindMaterial` called with the tag "glass" returns `true` and leaves the output
record as it was, although no entry of the table has the tag "glass". -/
theorem FindMaterial_true_on_unmatched_tag :
    (∀ e ∈ sceneWood.m_objectMaterials, e.tag ≠ "glass") ∧
    FindMaterial sceneWood "glass" blankMaterial = (true, blankMaterial) := by
  exact ⟨by decide,
    FindMaterial_unmatched sceneWood "glass" blankMaterial (by decide) (by decide)⟩

/-- A predicate on indices that holds somewhere has a first index where it
holds. -/
theorem exists_first_index (p : Nat → Prop) (h : ∃ i, p i) :
    ∃ i, p i ∧ ∀ j, j < i → ¬ p j := by
  classical
  exact ⟨Nat.find h, Nat.find_spec h, fun j hj => Nat.find_min h hj⟩

/-- When the entry at index `i` is the first entry of the material table whose
tag equals `tag`, `FindMaterial` returns `true` and the output record holds that
entry's five numeric fields, its own tag being left as it was. -/
theorem FindMaterial_at_first_index (s : SceneManager F) (tag : String)
    (material : OBJECT_MATERIAL F) (i : Nat) (hi : i < s.m_objectMaterials.length)
    (hmatch : (s.m_objectMaterials.get ⟨i, hi⟩).tag = tag)
    (hfirst : ∀ j (hj : j < s.m_objectMaterials.length), j < i →
      (s.m_objectMaterials.get ⟨j, hj⟩).tag ≠ tag) :
    (FindMaterial s tag material).1 = true ∧
    (FindMaterial s tag material).2.ambientColor
      = (s.m_objectMaterials.get ⟨i, hi⟩).ambientColor ∧
    (FindMaterial s tag material).2.ambientStrength
      = (s.m_objectMaterials.get ⟨i, hi⟩).ambientStrength ∧
    (FindMaterial s tag material).2.diffuseColor
      = (s.m_objectMaterials.get ⟨i, hi⟩).diffuseColor ∧
    (FindMaterial s tag material).2.specularColor
      = (s.m_objectMaterials.get ⟨i, hi⟩).specularColor ∧
    (FindMaterial s tag material).2.shininess = (s.m_objectMaterials.get ⟨i, hi⟩).shininess ∧
    (FindMaterial s tag material).2.tag = material.tag := by
  have hlen : ¬ s.m_objectMaterials.length = 0 := by omega
  have h := FindMaterial_loop_first s.m_objectMaterials tag material i hi hmatch i 0 rfl
    (Nat.zero_le _) (fun j hj _ hlt => hfirst j hj hlt)
  simp [FindMaterial, hlen, h]

/-- C3. Material lookup is first-match: when some entry of the material table
has the tag, there is a smallest index `i` whose entry has the tag, and
`FindMaterial` returns `true` with the output record holding the ambientColor,
ambientStrength, diffuseColor, specularColor and shininess of entry `i` (the
output's own tag field is left as it was), whatever the later entries contain. -/
theorem FindMaterial_first_match (s : SceneManager F) (tag : String)
    (material : OBJECT_MATERIAL F) (hex : ∃ e ∈ s.m_objectMaterials, e.tag = tag) :
    ∃ (i : Nat) (hi : i < s.m_objectMaterials.length),
      (s.m_objectMaterials.get ⟨i, hi⟩).tag = tag ∧
      (∀ j (hj : j < s.m_objectMaterials.length), j < i →
        (s.m_objectMaterials.get ⟨j, hj⟩).tag ≠ tag) ∧
      (FindMaterial s tag material).1 = true ∧
      (FindMaterial s tag material).2.ambientColor
        = (s.m_objectMaterials.get ⟨i, hi⟩).ambientColor ∧
      (FindMaterial s tag material).2.ambientStrength
        = (s.m_objectMaterials.get ⟨i, hi⟩).ambientStrength ∧
      (FindMaterial s tag material).2.diffuseColor
        = (s.m_objectMaterials.get ⟨i, hi⟩).diffuseColor ∧
      (FindMaterial s tag material).2.specularColor
        = (s.m_objectMaterials.get ⟨i, hi⟩).specularColor ∧
      (FindMaterial s tag material).2.shininess
        = (s.m_objectMaterials.get ⟨i, hi⟩).shininess ∧
      (FindMaterial s tag material).2.tag = material.tag := by
  obtain ⟨e, hmem, htag⟩ := hex
  obtain ⟨⟨k, hk⟩, hget⟩ := List.get_of_mem hmem
  obtain ⟨i, ⟨hi, hmatch⟩, hmin⟩ := exists_first_index
    (fun i => ∃ hi : i < s.m_objectMaterials.length,
      (s.m_objectMaterials.get ⟨i, hi⟩).tag = tag)
    ⟨k, hk, by rw [hget]; exact htag⟩
  have hfirst : ∀ j (hj : j < s.m_objectMaterials.length), j < i →
      (s.m_objectMaterials.get ⟨j, hj⟩).tag ≠ tag :=
    fun j hj hlt hc => hmin j hlt ⟨hj, hc⟩
  exact ⟨i, hi, hmatch, hfirst, FindMaterial_at_first_index s tag material i hi hmatch hfirst⟩

/-- C3 (witness). With "wood" defined twice, first with shininess 1 and then
with shininess 64, looking up "wood" yields the first definition. -/
theorem FindMaterial_first_match_witness :
    woodMaterial.shininess ≠ woodMaterialShiny.shininess ∧
    (FindMaterial sceneTwoWoods "wood" blankMaterial).1 = true ∧
    (FindMaterial sceneTwoWoods "wood" blankMaterial).2.ambientColor = woodMaterial.ambientColor ∧
    (FindMaterial sceneTwoWoods "wood" blankMaterial).2.ambientStrength
      = woodMaterial.ambientStrength ∧
    (FindMaterial sceneTwoWoods "wood" blankMaterial).2.diffuseColor = woodMaterial.diffuseColor ∧
    (FindMaterial sceneTwoWoods "wood" blankMaterial).2.specularColor
      = woodMaterial.specularColor ∧
    (FindMaterial sceneTwoWoods "wood" blankMaterial).2.shininess = woodMaterial.shininess ∧
    (FindMaterial sceneTwoWoods "wood" blankMaterial).2.tag = "" := by
  obtain ⟨i, hi, _, hfirst, h⟩ := FindMaterial_first_match sceneTwoWoods "wood" blankMaterial
    ⟨woodMaterial, List.mem_cons_self _ _, rfl⟩
  have hi0 : i = 0 := by
    by_contra hne
    exact hfirst 0 (by decide) (Nat.pos_of_ne_zero hne) rfl
  subst hi0
  refine ⟨?_, h⟩
  simp [woodMaterial, woodMaterialShiny]
  norm_num

/-- First-match result of both lookups, from the loop lemmas. -/
theorem lookup_first (s : SceneManager F) (tag : String)
    (hn : s.m_loadedTextures ≤ s.m_textureIDs.length)
    (i : Nat) (hi : i < s.m_loadedTextures) (e : TEXTURE_INFO)
    (he : s.m_textureIDs[i]? = some e) (hmatch : e.tag = tag)
    (hfirst : ∀ j, j < i → ∀ e1, s.m_textureIDs[j]? = some e1 → e1.tag ≠ tag) :
    FindTextureSlot s tag = Except.ok (i : Int) ∧
    FindTextureID s tag = Except.ok (uintToInt e.ID) := by
  obtain ⟨rs, h1⟩ := FindTextureSlot_loop_first s.m_textureIDs s.m_loadedTextures tag hn i hi e
    he hmatch _ 0 (-1) [] rfl
    (Nat.zero_le _) (fun j _ hlt => hfirst j hlt)
  obtain ⟨rs2, h2⟩ := FindTextureID_loop_first s.m_textureIDs s.m_loadedTextures tag hn i hi e
    he hmatch _ 0 (-1) [] rfl
    (Nat.zero_le _) (fun j _ hlt => hfirst j hlt)
  constructor
  · simp [FindTextureSlot, h1, Except.map]
  · simp [FindTextureID, h2, Except.map]

/-- The conversion to `int` keeps the 32-bit value. -/
theorem uintToInt_emod (u : Nat) : (uintToInt u) % 2 ^ 32 = (u : Int) % 2 ^ 32 := by
  unfold uintToInt
  split <;> omega

/-- The conversion to `int` is the identity below `2 ^ 31`. -/
theorem uintToInt_small (u : Nat) (h : u < 2 ^ 31) : uintToInt u = (u : Int) := by
  unfold uintToInt
  have : u % 2 ^ 32 = u := Nat.mod_eq_of_lt (by omega)
  rw [this, if_pos h]

/-- From `2 ^ 31` on, the conversion to `int` subtracts `2 ^ 32`. -/
theorem uintToInt_large (u : Nat) (h1 : 2 ^ 31 ≤ u) (h2 : u < 2 ^ 32) :
    uintToInt u = (u : Int) - 2 ^ 32 := by
  unfold uintToInt
  have : u % 2 ^ 32 = u := Nat.mod_eq_of_lt h2
  rw [this, if_neg (by omega)]

/-- A load of a 3- or 4-channel image into a registry with a free slot returns
`true`, stores the new entry at the index given by the counter, increments the
counter, and appends its calls to the trace. -/
theorem CreateGLTexture_success (s : SceneManager F) (filename tag : String) (img : Image)
    (newID : Nat) (hch : img.colorChannels = 3 ∨ img.colorChannels = 4)
    (hroom : s.m_loadedTextures < s.m_textureIDs.length) :
    CreateGLTexture s filename tag (some img) newID = Except.ok (true,
      { s with
        trace := s.trace ++
          [Event.stbiSetFlip true,
           Event.glGenTextures newID,
           Event.glBindTexture newID,
           Event.glTexParameteri "GL_TEXTURE_WRAP_S" "GL_REPEAT",
           Event.glTexParameteri "GL_TEXTURE_WRAP_T" "GL_REPEAT",
           Event.glTexParameteri "GL_TEXTURE_MIN_FILTER" "GL_LINEAR",
           Event.glTexParameteri "GL_TEXTURE_MAG_FILTER" "GL_LINEAR",
           Event.glTexImage2D (if img.colorChannels = 3 then PixelFormat.rgb else PixelFormat.rgba)
             img.width img.height,
           Event.glGenerateMipmap,
           Event.stbiImageFree,
           Event.glBindTexture 0]
        m_textureIDs := s.m_textureIDs.set s.m_loadedTextures { tag := tag, ID := newID }
        m_loadedTextures := s.m_loadedTextures + 1 }) := by
  rcases hch with h | h
  · simp [CreateGLTexture, h, hroom]
  · have h3 : ¬ img.colorChannels = 3 := by omega
    simp [CreateGLTexture, h3, h, hroom]

/-! ## Texture registry: claims -/

/-- C5. A failed load leaves the registry unchanged: when the decode fails, or
the decoded image has a channel count other than 3 and 4, `CreateGLTexture`
returns `false`, and the slot counter and the whole slot array are what they
were before the call. -/
theorem CreateGLTexture_failure_keeps_registry (s : SceneManager F) (filename tag : String)
    (image : Option Image) (newID : Nat)
    (hfail : image = none ∨
      ∃ img, image = some img ∧ img.colorChannels ≠ 3 ∧ img.colorChannels ≠ 4) :
    ∃ s1, CreateGLTexture s filename tag image newID = Except.ok (false, s1) ∧
      s1.m_loadedTextures = s.m_loadedTextures ∧ s1.m_textureIDs = s.m_textureIDs := by
  rcases hfail with h | ⟨img, h, h3, h4⟩
  · subst h
    exact ⟨_, rfl, rfl, rfl⟩
  · subst h
    simp only [CreateGLTexture, if_neg h3, if_neg h4]
    exact ⟨_, rfl, rfl, rfl⟩

/-- C5 (witness). Loading a one-channel image into the scene holding "wall"
fails and leaves the counter at 1 and the slots as they were. -/
theorem CreateGLTexture_failure_keeps_registry_witness :
    ∃ s1, CreateGLTexture sceneOneTexture "Textures/gray.png" "gray" (some imageGray) 9
        = Except.ok (false, s1) ∧
      s1.m_loadedTextures = sceneOneTexture.m_loadedTextures ∧
      s1.m_textureIDs = sceneOneTexture.m_textureIDs :=
  CreateGLTexture_failure_keeps_registry sceneOneTexture "Textures/gray.png" "gray"
    (some imageGray) 9 (Or.inr ⟨imageGray, rfl, by decide, by decide⟩)

/-- C6. On a registry of capacity 16 with count `n ≤ 16`: a tag equal to none
of the first `n` registered tags (also when `n = 0`) makes `FindTextureSlot` and
`FindTextureID` both return -1; and for every tag each lookup loop returns,
having read `m_textureIDs` only at indices below `n` and at most `n` times (one
tag comparison per read). -/
theorem FindTexture_absent_and_in_range (s : SceneManager F) (tag : String)
    (hcap : s.m_textureIDs.length = MAX_TEXTURES) (hn : s.m_loadedTextures ≤ MAX_TEXTURES) :
    ((∀ j, j < s.m_loadedTextures → ∀ e, s.m_textureIDs[j]? = some e → e.tag ≠ tag) →
      FindTextureSlot s tag = Except.ok (-1) ∧ FindTextureID s tag = Except.ok (-1)) ∧
    (∃ r reads,
      FindTextureSlot.loop s.m_textureIDs s.m_loadedTextures tag 0 false (-1) []
        = Except.ok (r, reads) ∧
      FindTextureSlot s tag = Except.ok r ∧
      (∀ i ∈ reads, i < s.m_loadedTextures) ∧ reads.length ≤ s.m_loadedTextures) ∧
    (∃ r reads,
      FindTextureID.loop s.m_textureIDs s.m_loadedTextures tag 0 false (-1) []
        = Except.ok (r, reads) ∧
      FindTextureID s tag = Except.ok r ∧
      (∀ i ∈ reads, i < s.m_loadedTextures) ∧ reads.length ≤ s.m_loadedTextures) := by
  have hle : s.m_loadedTextures ≤ s.m_textureIDs.length := by rw [hcap]; exact hn
  refine ⟨?_, ?_, ?_⟩
  · intro hall
    obtain ⟨rs, h1⟩ :=
      FindTextureSlot_loop_miss s.m_textureIDs s.m_loadedTextures tag hle hall _ 0 (-1) [] rfl
    obtain ⟨rs2, h2⟩ :=
      FindTextureID_loop_miss s.m_textureIDs s.m_loadedTextures tag hle hall _ 0 (-1) [] rfl
    simp [FindTextureSlot, FindTextureID, h1, h2, Except.map]
  · obtain ⟨r, rs, h1, h2, h3⟩ :=
      FindTextureSlot_loop_reads s.m_textureIDs s.m_loadedTextures tag hle _ 0 (-1) [] rfl
    refine ⟨r, rs, by simpa using h1, ?_, fun i hi => (h2 i hi).2, h3⟩
    simp [FindTextureSlot, h1, Except.map]
  · obtain ⟨r, rs, h1, h2, h3⟩ :=
      FindTextureID_loop_reads s.m_textureIDs s.m_loadedTextures tag hle _ 0 (-1) [] rfl
    refine ⟨r, rs, by simpa using h1, ?_, fun i hi => (h2 i hi).2, h3⟩
    simp [FindTextureID, h1, Except.map]

/-- C6 (witness). In the scene whose only texture is "wall", the tag "floor"
resolves to -1 in both lookups. -/
theorem FindTexture_absent_and_in_range_witness :
    sceneOneTexture.m_textureIDs.length = 16 ∧ sceneOneTexture.m_loadedTextures = 1 ∧
    FindTextureSlot sceneOneTexture "floor" = Except.ok (-1) ∧
    FindTextureID sceneOneTexture "floor" = Except.ok (-1) :=
  ⟨rfl, rfl,
    (FindTexture_absent_and_in_range sceneOneTexture "floor" rfl (by decide)).1 (by
      intro j hj e he
      have hj0 : j = 0 := by
        have : j < 1 := hj
        omega
      subst hj0
      have : e = { tag := "wall", ID := 7 } := by
        simpa [sceneOneTexture] using he.symm
      subst this
      decide)⟩

/-- C7 (counterexample). In the scene whose only texture, "wall", sits in slot 0
with the identifier 4294967295, `FindTextureSlot` returns 0 and `FindTextureID`
returns -1, the value its `int` return type makes of that identifier, and not
the identifier stored in the entry. -/
theorem FindTextureID_large_identifier_counterexample :
    sceneLargeID.m_loadedTextures = 1 ∧
    sceneLargeID.m_textureIDs[0]? = some { tag := "wall", ID := 4294967295 } ∧
    FindTextureSlot sceneLargeID "wall" = Except.ok 0 ∧
    FindTextureID sceneLargeID "wall" = Except.ok (-1) ∧
    FindTextureID sceneLargeID "wall" ≠ Except.ok 4294967295 := by
  obtain ⟨h1, h2⟩ := lookup_first sceneLargeID "wall" (by decide) 0 (by decide)
    { tag := "wall", ID := 4294967295 } rfl rfl (fun j hj => absurd hj (Nat.not_lt_zero j))
  have hconv : uintToInt 4294967295 = -1 := by
    rw [uintToInt_large 4294967295 (by norm_num) (by norm_num)]
    norm_num
  rw [hconv] at h2
  refine ⟨rfl, rfl, h1, h2, ?_⟩
  rw [h2]
  intro hc
  have h3 : (-1 : Int) = 4294967295 := Except.ok.inj hc
  omega

/-- C7 (amended). Texture lookup is first-match over registration order: when
some registered entry has the tag, there is a smallest index `i` whose entry
has the tag, `FindTextureSlot` returns `i`, and `FindTextureID` returns the
identifier stored in that same entry `i` as converted to `int`: the `int` with
the same 32-bit value, which is the identifier itself when it is below
`2 ^ 31` and the identifier minus `2 ^ 32` from `2 ^ 31` on. -/
theorem FindTexture_first_match (s : SceneManager F) (tag : String)
    (hn : s.m_loadedTextures ≤ s.m_textureIDs.length)
    (hex : ∃ i e, i < s.m_loadedTextures ∧ s.m_textureIDs[i]? = some e ∧ e.tag = tag) :
    ∃ i e, i < s.m_loadedTextures ∧ s.m_textureIDs[i]? = some e ∧ e.tag = tag ∧
      (∀ j, j < i → ∀ e1, s.m_textureIDs[j]? = some e1 → e1.tag ≠ tag) ∧
      FindTextureSlot s tag = Except.ok (i : Int) ∧
      FindTextureID s tag = Except.ok (uintToInt e.ID) ∧
      (uintToInt e.ID) % 2 ^ 32 = (e.ID : Int) % 2 ^ 32 ∧
      (e.ID < 2 ^ 31 → FindTextureID s tag = Except.ok (e.ID : Int)) ∧
      (2 ^ 31 ≤ e.ID → e.ID < 2 ^ 32 →
        FindTextureID s tag = Except.ok ((e.ID : Int) - 2 ^ 32)) := by
  obtain ⟨i, ⟨hi, e, he, hmatch⟩, hmin⟩ := exists_first_index
    (fun i => i < s.m_loadedTextures ∧ ∃ e, s.m_textureIDs[i]? = some e ∧ e.tag = tag)
    (by obtain ⟨i, e, h1, h2, h3⟩ := hex; exact ⟨i, h1, e, h2, h3⟩)
  have hfirst : ∀ j, j < i → ∀ e1, s.m_textureIDs[j]? = some e1 → e1.tag ≠ tag :=
    fun j hlt e1 he1 hc => hmin j hlt ⟨by omega, e1, he1, hc⟩
  obtain ⟨hslot, hid⟩ := lookup_first s tag hn i hi e he hmatch hfirst
  refine ⟨i, e, hi, he, hmatch, hfirst, hslot, hid, uintToInt_emod _, ?_, ?_⟩
  · intro hsmall
    rw [hid, uintToInt_small _ hsmall]
  · intro h1 h2
    rw [hid, uintToInt_large _ h1 h2]

/-- C7 (witness). With "wall" registered twice, identifiers 7 and 9, the
lookups return slot 0 and identifier 7. -/
theorem FindTexture_first_match_witness :
    FindTextureSlot sceneTwoWalls "wall" = Except.ok 0 ∧
    FindTextureID sceneTwoWalls "wall" = Except.ok 7 := by
  obtain ⟨i, e, _, he, _, hfirst, hslot, _, _, hid, _⟩ :=
    FindTexture_first_match sceneTwoWalls "wall" (by decide)
      ⟨0, { tag := "wall", ID := 7 }, by decide, rfl, rfl⟩
  have hi0 : i = 0 := by
    by_contra hne
    exact hfirst 0 (Nat.pos_of_ne_zero hne) { tag := "wall", ID := 7 } rfl rfl
  subst hi0
  have he0 : e = { tag := "wall", ID := 7 } := by
    have h0 : sceneTwoWalls.m_textureIDs[0]? = some { tag := "wall", ID := 7 } := rfl
    rw [h0] at he
    injection he with he
    exact he.symm
  subst he0
  exact ⟨hslot, hid (by decide)⟩

/-- C4 (counterexample). Two registry states at which a load of a valid
3-channel image is not followed by a lookup of the values it assigned. In the
scene where "wall" already sits in slot 0 with identifier 7, loading "wall"
again with identifier 9 returns `true` and takes slot 1, yet the lookups still
return slot 0 and identifier 7. In the scene whose sixteen slots are in use, the
load writes past the end of the array instead of returning `true`. -/
theorem CreateGLTexture_roundtrip_counterexample :
    (∃ s1, CreateGLTexture sceneOneTexture "Textures/wall2.jpg" "wall" (some imageRGB) 9
        = Except.ok (true, s1) ∧
      sceneOneTexture.m_loadedTextures = 1 ∧
      FindTextureSlot s1 "wall" = Except.ok 0 ∧
      FindTextureSlot s1 "wall" ≠ Except.ok 1 ∧
      FindTextureID s1 "wall" = Except.ok 7 ∧
      FindTextureID s1 "wall" ≠ Except.ok 9) ∧
    CreateGLTexture sceneFull "Textures/extra.jpg" "extra" (some imageRGB) 9
      = Except.error Fault.outOfBounds := by
  constructor
  · have h := CreateGLTexture_success sceneOneTexture "Textures/wall2.jpg" "wall"
      imageRGB 9 (Or.inl rfl) (by decide)
    refine ⟨_, h, rfl, ?_⟩
    obtain ⟨hslot, hid⟩ := lookup_first
      ({ sceneOneTexture with
          trace := sceneOneTexture.trace ++
            [Event.stbiSetFlip true,
             Event.glGenTextures 9,
             Event.glBindTexture 9,
             Event.glTexParameteri "GL_TEXTURE_WRAP_S" "GL_REPEAT",
             Event.glTexParameteri "GL_TEXTURE_WRAP_T" "GL_REPEAT",
             Event.glTexParameteri "GL_TEXTURE_MIN_FILTER" "GL_LINEAR",
             Event.glTexParameteri "GL_TEXTURE_MAG_FILTER" "GL_LINEAR",
             Event.glTexImage2D
               (if imageRGB.colorChannels = 3 then PixelFormat.rgb else PixelFormat.rgba)
               imageRGB.width imageRGB.height,
             Event.glGenerateMipmap,
             Event.stbiImageFree,
             Event.glBindTexture 0]
          m_textureIDs := sceneOneTexture.m_textureIDs.set sceneOneTexture.m_loadedTextures
            { tag := "wall", ID := 9 }
          m_loadedTextures := sceneOneTexture.m_loadedTextures + 1 } : SceneManager ℚ)
      "wall" (by decide) 0 (by decide) { tag := "wall", ID := 7 } rfl rfl
      (fun j hlt => absurd hlt (Nat.not_lt_zero j))
    have h7 : uintToInt 7 = 7 := by decide
    rw [h7] at hid
    refine ⟨hslot, ?_, hid, ?_⟩
    · rw [hslot]
      intro hc
      injection hc with hc
      omega
    · rw [hid]
      intro hc
      injection hc with hc
      omega
  · rfl

/-- C4 (amended). On a registry of capacity 16 with a free slot, for a tag
that no registered entry has yet and a decoded image with 3 or 4 colour
channels, `CreateGLTexture` returns `true` and increments the counter, and
right afterwards `FindTextureSlot(tag)` returns the count before the call and
`FindTextureID(tag)` returns the identifier generated by the load, as the `int`
that carries the same 32-bit value (the identifier itself when below `2 ^ 31`). -/
theorem CreateGLTexture_then_lookup (s : SceneManager F) (filename tag : String) (img : Image)
    (newID : Nat) (hch : img.colorChannels = 3 ∨ img.colorChannels = 4)
    (hcap : s.m_textureIDs.length = MAX_TEXTURES) (hroom : s.m_loadedTextures < MAX_TEXTURES)
    (hfresh : ∀ j, j < s.m_loadedTextures →
      ∀ e, s.m_textureIDs[j]? = some e → e.tag ≠ tag) :
    ∃ s1, CreateGLTexture s filename tag (some img) newID = Except.ok (true, s1) ∧
      s1.m_loadedTextures = s.m_loadedTextures + 1 ∧
      FindTextureSlot s1 tag = Except.ok (s.m_loadedTextures : Int) ∧
      FindTextureID s1 tag = Except.ok (uintToInt newID) ∧
      (uintToInt newID) % 2 ^ 32 = (newID : Int) % 2 ^ 32 ∧
      (newID < 2 ^ 31 → FindTextureID s1 tag = Except.ok (newID : Int)) := by
  have hlt : s.m_loadedTextures < s.m_textureIDs.length := by rw [hcap]; exact hroom
  have h := CreateGLTexture_success s filename tag img newID hch hlt
  refine ⟨_, h, rfl, ?_⟩
  generalize s.trace ++ _ = tr
  obtain ⟨hslot, hid⟩ := lookup_first
    ({ s with
        trace := tr
        m_textureIDs := s.m_textureIDs.set s.m_loadedTextures { tag := tag, ID := newID }
        m_loadedTextures := s.m_loadedTextures + 1 } : SceneManager F)
    tag (by simp; omega) s.m_loadedTextures (by simp) { tag := tag, ID := newID }
    (by simp [List.getElem?_set_self hlt]) rfl
    (by
      intro j hj e1 he1
      have hne : s.m_loadedTextures ≠ j := by omega
      simp only [List.getElem?_set_ne hne] at he1
      exact hfresh j hj e1 he1)
  refine ⟨hslot, hid, uintToInt_emod _, ?_⟩
  intro hsmall
  rw [hid, uintToInt_small _ hsmall]

/-- C4 (witness). Loading "floor" with identifier 9 into the scene holding only
"wall" puts it in slot 1, where both lookups find it. -/
theorem CreateGLTexture_then_lookup_witness :
    ∃ s1, CreateGLTexture sceneOneTexture "Textures/floor.jpg" "floor" (some imageRGB) 9
        = Except.ok (true, s1) ∧
      s1.m_loadedTextures = 2 ∧
      FindTextureSlot s1 "floor" = Except.ok 1 ∧
      FindTextureID s1 "floor" = Except.ok 9 := by
  obtain ⟨s1, h1, h2, h3, _, _, h6⟩ :=
    CreateGLTexture_then_lookup sceneOneTexture "Textures/floor.jpg" "floor" imageRGB 9
      (Or.inl rfl) rfl (by decide) (by
        intro j hj e he
        have hj0 : j = 0 := by
          have : j < 1 := hj
          omega
        subst hj0
        have : e = { tag := "wall", ID := 7 } := by
          simpa [sceneOneTexture] using he.symm
        subst this
        decide)
  exact ⟨s1, h1, h2, h3, h6 (by decide)⟩

/-! ## Shader parameter binder: claims -/

/-- C2 (evaluation at the failing input). On the table holding only "wood",
with the shader set, `SetShaderMaterial` called with the unresolved tag "glass"
returns after writing all five `material.*` uniforms, with whatever the
uninitialised local record `material` held. -/
theorem SetShaderMaterial_writes_on_unmatched_tag :
    sceneWood.m_pShaderManager = true ∧
    (∀ e ∈ sceneWood.m_objectMaterials, e.tag ≠ "glass") ∧
    ∀ uninit : OBJECT_MATERIAL ℚ,
      SetShaderMaterial sceneWood "glass" uninit = Except.ok
        { sceneWood with
          trace := sceneWood.trace ++
            [Event.uniform "material.ambientColor" (UniformValue.vec3 uninit.ambientColor),
             Event.uniform "material.ambientStrength" (UniformValue.float uninit.ambientStrength),
             Event.uniform "material.diffuseColor" (UniformValue.vec3 uninit.diffuseColor),
             Event.uniform "material.specularColor" (UniformValue.vec3 uninit.specularColor),
             Event.uniform "material.shininess" (UniformValue.float uninit.shininess)] } := by
  refine ⟨rfl, by decide, ?_⟩
  intro uninit
  have h := FindMaterial_unmatched sceneWood "glass" uninit (by decide) (by decide)
  unfold SetShaderMaterial
  rw [if_pos (by decide)]
  simp only [h]
  rfl

/-- C9. With the shader set, on a registry of capacity 16 with count at most
16: `SetShaderColor(r, g, b, a)` leaves `bUseTexture` at 0 (false) and
`objectColor` at `(r, g, b, a)`, also at a draw call issued right after it;
`SetShaderTexture(tag)` leaves `bUseTexture` at 1 (true) and `objectTexture` at
the value `FindTextureSlot(tag)` returns, which is -1 when no registered entry
has the tag; and `SetShaderTexture` called after `SetShaderColor` ends with
`bUseTexture` at 1 again. -/
theorem texture_mode_switching (s : SceneManager F) (r g b a : F) (tag : String)
    (kind : MeshKind) (hshader : s.m_pShaderManager = true)
    (hcap : s.m_textureIDs.length = MAX_TEXTURES) (hn : s.m_loadedTextures ≤ MAX_TEXTURES) :
    ∃ slot sColor sTexture sBoth,
      FindTextureSlot s tag = Except.ok slot ∧
      ((∀ j, j < s.m_loadedTextures → ∀ e, s.m_textureIDs[j]? = some e → e.tag ≠ tag) →
        slot = -1) ∧
      SetShaderColor s r g b a = Except.ok sColor ∧
      uniformValue sColor.trace "bUseTexture" = some (UniformValue.int 0) ∧
      uniformValue sColor.trace "objectColor"
        = some (UniformValue.vec4 { x := r, y := g, z := b, w := a }) ∧
      uniformValue (sColor.trace ++ [Event.drawMesh kind]) "bUseTexture"
        = some (UniformValue.int 0) ∧
      SetShaderTexture s tag = Except.ok sTexture ∧
      uniformValue sTexture.trace "bUseTexture" = some (UniformValue.int 1) ∧
      uniformValue sTexture.trace "objectTexture" = some (UniformValue.sampler2D slot) ∧
      SetShaderTexture sColor tag = Except.ok sBoth ∧
      uniformValue sBoth.trace "bUseTexture" = some (UniformValue.int 1) ∧
      uniformValue sBoth.trace "objectTexture" = some (UniformValue.sampler2D slot) := by
  have hle : s.m_loadedTextures ≤ s.m_textureIDs.length := by rw [hcap]; exact hn
  obtain ⟨slot, hslot⟩ := FindTextureSlot_ok s tag hle
  have hcolor := SetShaderColor_ok s r g b a hshader
  have htex := SetShaderTexture_ok s tag slot hshader hslot
  have hboth := SetShaderTexture_ok
    { s with
      trace := s.trace ++
        [Event.uniform "bUseTexture" (UniformValue.int 0),
         Event.uniform "objectColor" (UniformValue.vec4 { x := r, y := g, z := b, w := a })] }
    tag slot hshader hslot
  have hflag : ∀ (t : List (Event F)) (v w : UniformValue F) (other : String),
      other ≠ "bUseTexture" →
      uniformValue (t ++ [Event.uniform "bUseTexture" v, Event.uniform other w]) "bUseTexture"
        = some v := by
    intro t v w other hne
    have : t ++ [Event.uniform "bUseTexture" v, Event.uniform other w]
        = (t ++ [Event.uniform "bUseTexture" v]) ++ [Event.uniform other w] := by simp
    rw [this, uniformValue_write_other _ _ _ _ hne, uniformValue_write_same]
  have hlast : ∀ (t : List (Event F)) (v w : UniformValue F) (one two : String),
      uniformValue (t ++ [Event.uniform one v, Event.uniform two w]) two = some w := by
    intro t v w one two
    have : t ++ [Event.uniform one v, Event.uniform two w]
        = (t ++ [Event.uniform one v]) ++ [Event.uniform two w] := by simp
    rw [this, uniformValue_write_same]
  refine ⟨slot, _, _, _, hslot, ?_, hcolor, hflag _ _ _ _ (by decide), hlast _ _ _ _ _, ?_,
    htex, hflag _ _ _ _ (by decide), hlast _ _ _ _ _, hboth, hflag _ _ _ _ (by decide),
    hlast _ _ _ _ _⟩
  · intro hall
    obtain ⟨rs, h1⟩ :=
      FindTextureSlot_loop_miss s.m_textureIDs s.m_loadedTextures tag hle hall _ 0 (-1) [] rfl
    have h2 : FindTextureSlot s tag = Except.ok (-1) := by
      simp [FindTextureSlot, h1, Except.map]
    rw [hslot] at h2
    injection h2
  · rw [uniformValue_draw]
    exact hflag _ _ _ _ (by decide)

/-- C9 (witness). In the scene whose only texture is "wall", with the shader
set: a red flat colour switches texture mode off, and selecting "wall" switches
it on again with sampler slot 0. -/
theorem texture_mode_switching_witness :
    ∃ sColor sBoth,
      SetShaderColor (sceneShaderOnly ℚ) 1 0 0 1 = Except.ok sColor ∧
      uniformValue sColor.trace "bUseTexture" = some (UniformValue.int 0) ∧
      SetShaderTexture sColor "wall" = Except.ok sBoth ∧
      uniformValue sBoth.trace "bUseTexture" = some (UniformValue.int 1) ∧
      uniformValue sBoth.trace "objectTexture" = some (UniformValue.sampler2D 0) := by
  obtain ⟨slot, sColor, sTexture, sBoth, h1, _, h3, h4, _, _, _, _, _, h10, h11, h12⟩ :=
    texture_mode_switching (sceneShaderOnly ℚ) 1 0 0 1 "wall" MeshKind.box rfl rfl
      (by decide)
  have h0 := (lookup_first (sceneShaderOnly ℚ) "wall" (by decide) 0 (by decide)
    { tag := "wall", ID := 7 } rfl rfl (fun j hlt => absurd hlt (Nat.not_lt_zero j))).1
  rw [h1] at h0
  injection h0 with h0
  subst h0
  exact ⟨sColor, sBoth, h3, h4, h10, h11, h12⟩

/-- C10. With the shader handle unset, `SetShaderColor`, `SetShaderTexture`,
`SetTextureUVScale` and `SetTransformations` each return without a fault and
leave the whole state, trace of uniform writes included, as it was, for every
argument and every registry. -/
theorem binder_noop_without_shader [Field F] (ops : glm.FloatOps F) (s : SceneManager F)
    (hnull : s.m_pShaderManager = false) (r g b a u v ax ay az : F) (tag : String)
    (scaleXYZ positionXYZ : glm.vec3 F) :
    SetShaderColor s r g b a = Except.ok s ∧
    SetShaderTexture s tag = Except.ok s ∧
    SetTextureUVScale s u v = Except.ok s ∧
    SetTransformations ops s scaleXYZ ax ay az positionXYZ = Except.ok s := by
  simp [SetShaderColor, SetShaderTexture, SetTextureUVScale, SetTransformations, hnull]

/-- C10 (witness). The four operations on a scene without shader, over the
reals. -/
theorem binder_noop_without_shader_witness :
    SetShaderColor (sceneNoShader ℝ) 1 0 0 1 = Except.ok (sceneNoShader ℝ) ∧
    SetShaderTexture (sceneNoShader ℝ) "wall" = Except.ok (sceneNoShader ℝ) ∧
    SetTextureUVScale (sceneNoShader ℝ) 4 (-2) = Except.ok (sceneNoShader ℝ) ∧
    SetTransformations
      { cos := Real.cos, sin := Real.sin, sqrt := Real.sqrt, pi := Real.pi }
      (sceneNoShader ℝ) { x := 2, y := 1, z := 1 } 0 90 0 { x := 5, y := 0, z := 0 }
      = Except.ok (sceneNoShader ℝ) :=
  binder_noop_without_shader _ (sceneNoShader ℝ) rfl 1 0 0 1 4 (-2) 0 90 0 "wall"
    { x := 2, y := 1, z := 1 } { x := 5, y := 0, z := 0 }

/-! ## Transform composer: claims -/

/-- C8. Over the real numbers, with the shader set, `SetTransformations`
writes under the uniform "model" the matrix
`Translate(t) * RotateX(ax*pi/180) * RotateY(ay*pi/180) * RotateZ(az*pi/180) * Scale(s)`
and nothing else; applied to a point, that matrix scales first, then rotates
about Z, then Y, then X, then translates; and for `s = (2,1,1)`, `ay = 90`,
`ax = az = 0`, `t = (5,0,0)` it sends the point (1,0,0) to (5,0,-2). -/
theorem SetTransformations_composition (s : SceneManager ℝ)
    (scaleXYZ positionXYZ : glm.vec3 ℝ) (ax ay az : ℝ)
    (hshader : s.m_pShaderManager = true) :
    SetTransformations { cos := Real.cos, sin := Real.sin, sqrt := Real.sqrt, pi := Real.pi }
        s scaleXYZ ax ay az positionXYZ
      = Except.ok
        { s with
          trace := s.trace ++ [Event.uniform "model" (UniformValue.mat4
            (Spec.Translate positionXYZ
              * Spec.RotateX { cos := Real.cos, sin := Real.sin, sqrt := Real.sqrt, pi := Real.pi }
                  (ax * Real.pi / 180)
              * Spec.RotateY { cos := Real.cos, sin := Real.sin, sqrt := Real.sqrt, pi := Real.pi }
                  (ay * Real.pi / 180)
              * Spec.RotateZ { cos := Real.cos, sin := Real.sin, sqrt := Real.sqrt, pi := Real.pi }
                  (az * Real.pi / 180)
              * Spec.Scale scaleXYZ))] } ∧
    (∀ p : Fin 4 → ℝ,
      (Spec.Translate positionXYZ
        * Spec.RotateX { cos := Real.cos, sin := Real.sin, sqrt := Real.sqrt, pi := Real.pi }
            (ax * Real.pi / 180)
        * Spec.RotateY { cos := Real.cos, sin := Real.sin, sqrt := Real.sqrt, pi := Real.pi }
            (ay * Real.pi / 180)
        * Spec.RotateZ { cos := Real.cos, sin := Real.sin, sqrt := Real.sqrt, pi := Real.pi }
            (az * Real.pi / 180)
        * Spec.Scale scaleXYZ).mulVec p
      = (Spec.Translate positionXYZ).mulVec
          ((Spec.RotateX { cos := Real.cos, sin := Real.sin, sqrt := Real.sqrt, pi := Real.pi }
              (ax * Real.pi / 180)).mulVec
            ((Spec.RotateY { cos := Real.cos, sin := Real.sin, sqrt := Real.sqrt, pi := Real.pi }
                (ay * Real.pi / 180)).mulVec
              ((Spec.RotateZ { cos := Real.cos, sin := Real.sin, sqrt := Real.sqrt, pi := Real.pi }
                  (az * Real.pi / 180)).mulVec
                ((Spec.Scale scaleXYZ).mulVec p))))) ∧
    (Spec.Translate ({ x := 5, y := 0, z := 0 } : glm.vec3 ℝ)
      * Spec.RotateX { cos := Real.cos, sin := Real.sin, sqrt := Real.sqrt, pi := Real.pi }
          (0 * Real.pi / 180)
      * Spec.RotateY { cos := Real.cos, sin := Real.sin, sqrt := Real.sqrt, pi := Real.pi }
          (90 * Real.pi / 180)
      * Spec.RotateZ { cos := Real.cos, sin := Real.sin, sqrt := Real.sqrt, pi := Real.pi }
          (0 * Real.pi / 180)
      * Spec.Scale ({ x := 2, y := 1, z := 1 } : glm.vec3 ℝ)).mulVec ![1, 0, 0, 1]
      = ![5, 0, -2, 1] := by
  refine ⟨?_, ?_, probe_point⟩
  · have hsqrt : Real.sqrt 1 = 1 := Real.sqrt_one
    have hX := rotate_axisX
      ({ cos := Real.cos, sin := Real.sin, sqrt := Real.sqrt, pi := Real.pi } : glm.FloatOps ℝ)
      hsqrt
    have hY := rotate_axisY
      ({ cos := Real.cos, sin := Real.sin, sqrt := Real.sqrt, pi := Real.pi } : glm.FloatOps ℝ)
      hsqrt
    have hZ := rotate_axisZ
      ({ cos := Real.cos, sin := Real.sin, sqrt := Real.sqrt, pi := Real.pi } : glm.FloatOps ℝ)
      hsqrt
    simp only [SetTransformations, hshader, if_true, SceneManager.setMat4Value,
      SceneManager.writeUniform, glm.radians, g_ModelName, hX, hY, hZ, scale_eq, translate_eq,
      mul_div_assoc]
  · intro p
    simp only [Matrix.mulVec_mulVec, Matrix.mul_assoc]

/-- C8 (witness). On the scene with the shader set and an empty trace, scale
(2,1,1), 90 degrees about Y and translation (5,0,0) write one "model" matrix,
and that matrix sends the point (1,0,0) to (5,0,-2). -/
theorem SetTransformations_composition_witness :
    ∃ M : glm.mat4 ℝ,
      SetTransformations { cos := Real.cos, sin := Real.sin, sqrt := Real.sqrt, pi := Real.pi }
          (sceneShaderOnly ℝ) { x := 2, y := 1, z := 1 } 0 90 0 { x := 5, y := 0, z := 0 }
        = Except.ok
          { sceneShaderOnly ℝ with
            trace := [Event.uniform "model" (UniformValue.mat4 M)] } ∧
      M.mulVec ![1, 0, 0, 1] = ![5, 0, -2, 1] :=
  have h := SetTransformations_composition (sceneShaderOnly ℝ) { x := 2, y := 1, z := 1 }
    { x := 5, y := 0, z := 0 } 0 90 0 rfl
  ⟨_, h.1, h.2.2⟩

/-! ## Shader parameter binder: material and UV scale -/

/-- On a non-empty table `FindMaterial` returns `true`. -/
theorem FindMaterial_fst (s : SceneManager F) (tag : String) (material : OBJECT_MATERIAL F)
    (hne : s.m_objectMaterials.length ≠ 0) : (FindMaterial s tag material).1 = true := by
  unfold FindMaterial
  rw [if_neg hne]

/-- With the shader set and a non-empty table, `SetShaderMaterial` returns after
writing the five fields of the record `FindMaterial` filled. -/
theorem SetShaderMaterial_ok (s : SceneManager F) (tag : String) (uninit : OBJECT_MATERIAL F)
    (hshader : s.m_pShaderManager = true) (hne : s.m_objectMaterials.length ≠ 0) :
    SetShaderMaterial s tag uninit = Except.ok
      { s with
        trace := s.trace ++
          [Event.uniform "material.ambientColor"
             (UniformValue.vec3 (FindMaterial s tag uninit).2.ambientColor),
           Event.uniform "material.ambientStrength"
             (UniformValue.float (FindMaterial s tag uninit).2.ambientStrength),
           Event.uniform "material.diffuseColor"
             (UniformValue.vec3 (FindMaterial s tag uninit).2.diffuseColor),
           Event.uniform "material.specularColor"
             (UniformValue.vec3 (FindMaterial s tag uninit).2.specularColor),
           Event.uniform "material.shininess"
             (UniformValue.float (FindMaterial s tag uninit).2.shininess)] } := by
  have hpos : s.m_objectMaterials.length > 0 := Nat.pos_of_ne_zero hne
  unfold SetShaderMaterial
  rw [if_pos hpos]
  simp only [FindMaterial_fst s tag uninit hne, if_true]
  simp [SceneManager.setVec3Value, SceneManager.setFloatValue, SceneManager.writeUniform,
    hshader, bind, Except.bind]

/-- C11 (evaluation at the failing input). With the shader handle unset and
"wood" in the material table, `SetShaderMaterial("wood")` calls through the
null handle: the run ends in a null dereference instead of returning. -/
theorem SetShaderMaterial_null_shader_faults :
    sceneWoodNoShader.m_pShaderManager = false ∧
    ∀ uninit : OBJECT_MATERIAL ℚ,
      SetShaderMaterial sceneWoodNoShader "wood" uninit = Except.error Fault.nullDeref := by
  refine ⟨rfl, ?_⟩
  intro uninit
  have hne : sceneWoodNoShader.m_objectMaterials.length ≠ 0 := by decide
  unfold SetShaderMaterial
  rw [if_pos (by decide)]
  simp only [FindMaterial_fst sceneWoodNoShader "wood" uninit hne, if_true]
  rfl

/-- C12. With the shader set and some entry of the material table carrying the
tag, there is a first such entry `i`, and `SetShaderMaterial` returns after
writing exactly the five uniforms material.ambientColor,
material.ambientStrength, material.diffuseColor, material.specularColor and
material.shininess, in this order, each with the corresponding field of entry
`i`, and nothing else. -/
theorem SetShaderMaterial_writes_first_match (s : SceneManager F) (tag : String)
    (uninit : OBJECT_MATERIAL F) (hshader : s.m_pShaderManager = true)
    (hex : ∃ e ∈ s.m_objectMaterials, e.tag = tag) :
    ∃ (i : Nat) (hi : i < s.m_objectMaterials.length),
      (s.m_objectMaterials.get ⟨i, hi⟩).tag = tag ∧
      (∀ j (hj : j < s.m_objectMaterials.length), j < i →
        (s.m_objectMaterials.get ⟨j, hj⟩).tag ≠ tag) ∧
      SetShaderMaterial s tag uninit = Except.ok
        { s with
          trace := s.trace ++
            [Event.uniform "material.ambientColor"
               (UniformValue.vec3 (s.m_objectMaterials.get ⟨i, hi⟩).ambientColor),
             Event.uniform "material.ambientStrength"
               (UniformValue.float (s.m_objectMaterials.get ⟨i, hi⟩).ambientStrength),
             Event.uniform "material.diffuseColor"
               (UniformValue.vec3 (s.m_objectMaterials.get ⟨i, hi⟩).diffuseColor),
             Event.uniform "material.specularColor"
               (UniformValue.vec3 (s.m_objectMaterials.get ⟨i, hi⟩).specularColor),
             Event.uniform "material.shininess"
               (UniformValue.float (s.m_objectMaterials.get ⟨i, hi⟩).shininess)] } := by
  obtain ⟨e, hmem, htag⟩ := hex
  obtain ⟨⟨k, hk⟩, hget⟩ := List.get_of_mem hmem
  obtain ⟨i, ⟨hi, hmatch⟩, hmin⟩ := exists_first_index
    (fun i => ∃ hi : i < s.m_objectMaterials.length,
      (s.m_objectMaterials.get ⟨i, hi⟩).tag = tag)
    ⟨k, hk, by rw [hget]; exact htag⟩
  have hfirst : ∀ j (hj : j < s.m_objectMaterials.length), j < i →
      (s.m_objectMaterials.get ⟨j, hj⟩).tag ≠ tag :=
    fun j hj hlt hc => hmin j hlt ⟨hj, hc⟩
  obtain ⟨_, h1, h2, h3, h4, h5, _⟩ :=
    FindMaterial_at_first_index s tag uninit i hi hmatch hfirst
  refine ⟨i, hi, hmatch, hfirst, ?_⟩
  rw [SetShaderMaterial_ok s tag uninit hshader (by omega), h1, h2, h3, h4, h5]

/-- C12 (witness). With "wood" defined twice, `SetShaderMaterial("wood")` writes
the five fields of the first definition. -/
theorem SetShaderMaterial_writes_first_match_witness :
    SetShaderMaterial sceneTwoWoods "wood" blankMaterial = Except.ok
      { sceneTwoWoods with
        trace :=
          [Event.uniform "material.ambientColor" (UniformValue.vec3 woodMaterial.ambientColor),
           Event.uniform "material.ambientStrength"
             (UniformValue.float woodMaterial.ambientStrength),
           Event.uniform "material.diffuseColor" (UniformValue.vec3 woodMaterial.diffuseColor),
           Event.uniform "material.specularColor"
             (UniformValue.vec3 woodMaterial.specularColor),
           Event.uniform "material.shininess" (UniformValue.float woodMaterial.shininess)] } := by
  obtain ⟨i, hi, _, hfirst, h⟩ := SetShaderMaterial_writes_first_match sceneTwoWoods "wood"
    blankMaterial rfl ⟨woodMaterial, List.mem_cons_self _ _, rfl⟩
  have hi0 : i = 0 := by
    by_contra hne
    exact hfirst 0 (by decide) (Nat.pos_of_ne_zero hne) rfl
  subst hi0
  exact h

/-- C19. With the shader set, `SetTextureUVScale(u, v)` returns after writing
the one uniform "UVscale" with the value `(u, v)`, the components as passed,
and nothing else; the uniform then holds `(u, v)`. -/
theorem SetTextureUVScale_forwards (s : SceneManager F) (u v : F)
    (hshader : s.m_pShaderManager = true) :
    SetTextureUVScale s u v = Except.ok
      { s with
        trace := s.trace ++ [Event.uniform "UVscale" (UniformValue.vec2 { x := u, y := v })] } ∧
    uniformValue (s.trace ++ [Event.uniform "UVscale" (UniformValue.vec2 { x := u, y := v })])
      "UVscale" = some (UniformValue.vec2 { x := u, y := v }) := by
  refine ⟨?_, uniformValue_write_same _ _ _⟩
  simp [SetTextureUVScale, hshader, SceneManager.setVec2Value, SceneManager.writeUniform]

/-- C19 (witness). The mirrored scale `(-1, 1)` that `RenderScene` passes for the
left side of the books reaches the uniform with its sign. -/
theorem SetTextureUVScale_forwards_witness :
    SetTextureUVScale (sceneShaderOnly ℚ) (-1) 1 = Except.ok
      { sceneShaderOnly ℚ with
        trace := [Event.uniform "UVscale" (UniformValue.vec2 { x := -1, y := 1 })] } :=
  (SetTextureUVScale_forwards (sceneShaderOnly ℚ) (-1) 1 rfl).1

/-! ## Texture registry: sequences of loads -/

/-- A load whose decode fails or whose image has another channel count returns
`false` and leaves the counter and the slot array as they were. -/
theorem CreateGLTexture_failure (s : SceneManager F) (filename tag : String)
    (image : Option Image) (newID : Nat)
    (hfail : image = none ∨
      ∃ img, image = some img ∧ img.colorChannels ≠ 3 ∧ img.colorChannels ≠ 4) :
    ∃ s1, CreateGLTexture s filename tag image newID = Except.ok (false, s1) ∧
      s1.m_loadedTextures = s.m_loadedTextures ∧ s1.m_textureIDs = s.m_textureIDs ∧
      s1.m_pShaderManager = s.m_pShaderManager ∧
      s1.m_objectMaterials = s.m_objectMaterials := by
  rcases hfail with h | ⟨img, h, h3, h4⟩
  · subst h
    exact ⟨_, rfl, rfl, rfl, rfl, rfl⟩
  · subst h
    simp only [CreateGLTexture, if_neg h3, if_neg h4]
    exact ⟨_, rfl, rfl, rfl, rfl, rfl⟩

/-- A request that is not valid meets the failure condition of
`CreateGLTexture`. -/
theorem LoadRequest.not_valid (r : LoadRequest) (h : r.valid = false) :
    r.image = none ∨
      ∃ img, r.image = some img ∧ img.colorChannels ≠ 3 ∧ img.colorChannels ≠ 4 := by
  unfold LoadRequest.valid at h
  cases himg : r.image with
  | none => exact Or.inl rfl
  | some img =>
    right
    rw [himg] at h
    have h2 : ¬ (img.colorChannels = 3 ∨ img.colorChannels = 4) := by simpa using h
    exact ⟨img, rfl, fun h3 => h2 (Or.inl h3), fun h4 => h2 (Or.inr h4)⟩

/-- A valid request meets the success condition of `CreateGLTexture`. -/
theorem LoadRequest.of_valid (r : LoadRequest) (h : r.valid = true) :
    ∃ img, r.image = some img ∧ (img.colorChannels = 3 ∨ img.colorChannels = 4) := by
  unfold LoadRequest.valid at h
  cases himg : r.image with
  | none => rw [himg] at h; exact absurd h (by simp)
  | some img =>
    rw [himg] at h
    exact ⟨img, rfl, by simpa using h⟩

/-- A sequence of loads whose valid requests fit into the free slots runs to
the end: the counter advances by the number of valid requests, the `k`-th valid
request is stored `k` slots after the old counter, and no other slot changes. -/
theorem loadAll_within_capacity (reqs : List LoadRequest) :
    ∀ s : SceneManager F,
      s.m_loadedTextures + (reqs.filter LoadRequest.valid).length ≤ s.m_textureIDs.length →
      ∃ s1, loadAll s reqs = Except.ok s1 ∧
        s1.m_loadedTextures = s.m_loadedTextures + (reqs.filter LoadRequest.valid).length ∧
        s1.m_textureIDs.length = s.m_textureIDs.length ∧
        (∀ j, j < s.m_loadedTextures → s1.m_textureIDs[j]? = s.m_textureIDs[j]?) ∧
        (∀ k e, (reqs.filter LoadRequest.valid)[k]? = some e →
          s1.m_textureIDs[s.m_loadedTextures + k]? = some e.entry) ∧
        (∀ j, s.m_loadedTextures + (reqs.filter LoadRequest.valid).length ≤ j →
          s1.m_textureIDs[j]? = s.m_textureIDs[j]?) := by
  induction reqs with
  | nil =>
    intro s _
    exact ⟨s, rfl, by simp, rfl, fun _ _ => rfl, by simp, fun _ _ => rfl⟩
  | cons r rest ih =>
    intro s hroom
    cases hv : r.valid with
    | false =>
      obtain ⟨s1, h1, hn1, hids1, _, _⟩ :=
        CreateGLTexture_failure s r.filename r.tag r.image r.newID (r.not_valid hv)
      have hfilter : (r :: rest).filter LoadRequest.valid = rest.filter LoadRequest.valid := by
        simp [List.filter, hv]
      rw [hfilter] at hroom ⊢
      obtain ⟨s2, h2, hn2, hlen2, hlow, hmid, hhigh⟩ := ih s1 (by rw [hn1, hids1]; exact hroom)
      refine ⟨s2, ?_, by rw [hn2, hn1], by rw [hlen2, hids1], ?_, ?_, ?_⟩
      · simp only [loadAll, h1, bind, Except.bind]
        exact h2
      · intro j hj
        rw [hlow j (by rw [hn1]; exact hj), hids1]
      · intro k e hk
        have := hmid k e hk
        rw [hn1] at this
        exact this
      · intro j hj
        rw [hhigh j (by rw [hn1]; exact hj), hids1]
    | true =>
      obtain ⟨img, himg, hch⟩ := r.of_valid hv
      have hfilter : (r :: rest).filter LoadRequest.valid
          = r :: rest.filter LoadRequest.valid := by
        simp [List.filter, hv]
      rw [hfilter] at hroom ⊢
      simp only [List.length_cons] at hroom ⊢
      have hlt : s.m_loadedTextures < s.m_textureIDs.length := by omega
      have h0 := CreateGLTexture_success s r.filename r.tag img r.newID hch hlt
      rw [← himg] at h0
      obtain ⟨s1, h1, hn1, hids1⟩ : ∃ s1 : SceneManager F,
          CreateGLTexture s r.filename r.tag r.image r.newID = Except.ok (true, s1) ∧
          s1.m_loadedTextures = s.m_loadedTextures + 1 ∧
          s1.m_textureIDs = s.m_textureIDs.set s.m_loadedTextures r.entry :=
        ⟨_, h0, rfl, rfl⟩
      obtain ⟨s2, h2, hn2, hlen2, hlow, hmid, hhigh⟩ := ih s1
        (by rw [hn1, hids1, List.length_set]; omega)
      rw [hn1] at hn2 hlow hmid hhigh
      rw [hids1] at hlow hhigh
      rw [hids1, List.length_set] at hlen2
      refine ⟨s2, ?_, by rw [hn2]; omega, hlen2, ?_, ?_, ?_⟩
      · simp only [loadAll, h1, bind, Except.bind]
        exact h2
      · intro j hj
        rw [hlow j (by omega)]
        exact List.getElem?_set_ne (by omega)
      · intro k e hk
        cases k with
        | zero =>
          simp only [List.getElem?_cons_zero, Option.some.injEq] at hk
          subst hk
          rw [Nat.add_zero, hlow s.m_loadedTextures (by omega)]
          exact List.getElem?_set_self hlt
        | succ k =>
          simp only [List.getElem?_cons_succ] at hk
          have := hmid k e hk
          rw [show s.m_loadedTextures + (k + 1) = s.m_loadedTextures + 1 + k by omega]
          exact this
      · intro j hj
        rw [hhigh j (by omega)]
        exact List.getElem?_set_ne (by omega)

/-- C13 (counterexample). From the empty registry, sixteen loads of a valid
image bring the counter to 16; a seventeenth load then writes the slot with
index 16, past the end of the sixteen-slot array, instead of being refused. -/
theorem loadAll_seventeen_overflows :
    requestWall.valid = true ∧
    (∃ s16, loadAll (sceneEmpty ℚ) (List.replicate 16 requestWall) = Except.ok s16 ∧
      s16.m_loadedTextures = 16 ∧ s16.m_textureIDs.length = 16) ∧
    loadAll (sceneEmpty ℚ) (List.replicate 17 requestWall)
      = Except.error Fault.outOfBounds :=
  ⟨rfl, ⟨_, rfl, rfl, rfl⟩, rfl⟩

/-- C13 (amended). Starting from an empty registry of capacity 16, a sequence
of `CreateGLTexture` calls of which at most 16 are loads of a valid image runs
to the end; the number of registered textures is then the number of valid
loads, at most 16; the `k`-th valid load is stored in slot `k`, which lies in
0..15; and every slot from that number on is as it was. -/
theorem loadAll_capped (s : SceneManager F) (reqs : List LoadRequest)
    (hempty : s.m_loadedTextures = 0) (hcap : s.m_textureIDs.length = MAX_TEXTURES)
    (hfit : (reqs.filter LoadRequest.valid).length ≤ MAX_TEXTURES) :
    ∃ s1, loadAll s reqs = Except.ok s1 ∧
      s1.m_loadedTextures = (reqs.filter LoadRequest.valid).length ∧
      s1.m_loadedTextures ≤ 16 ∧
      s1.m_textureIDs.length = 16 ∧
      (∀ k e, (reqs.filter LoadRequest.valid)[k]? = some e →
        k < 16 ∧ s1.m_textureIDs[k]? = some e.entry) ∧
      (∀ j, (reqs.filter LoadRequest.valid).length ≤ j →
        s1.m_textureIDs[j]? = s.m_textureIDs[j]?) := by
  obtain ⟨s1, h1, hn1, hlen1, _, hmid, hhigh⟩ := loadAll_within_capacity reqs s
    (by rw [hempty, hcap, Nat.zero_add]; exact hfit)
  rw [hempty, Nat.zero_add] at hn1 hhigh
  refine ⟨s1, h1, hn1, by rw [hn1]; exact hfit, by rw [hlen1, hcap]; rfl, ?_, hhigh⟩
  intro k e hk
  have hlt : k < (reqs.filter LoadRequest.valid).length := by
    obtain ⟨h, _⟩ := List.getElem?_eq_some.mp hk
    exact h
  have h2 := hmid k e hk
  rw [hempty, Nat.zero_add] at h2
  exact ⟨Nat.lt_of_lt_of_le hlt hfit, h2⟩

/-- C13 (witness). From the empty registry, a valid load of "wall", a failed
load of a one-channel image and a valid load of "floor" leave two registered
textures, in slots 0 and 1. -/
theorem loadAll_capped_witness :
    ∃ s1, loadAll (sceneEmpty ℚ) [requestWall, requestGray, requestFloor] = Except.ok s1 ∧
      s1.m_loadedTextures = 2 ∧
      s1.m_textureIDs[0]? = some { tag := "wall", ID := 7 } ∧
      s1.m_textureIDs[1]? = some { tag := "floor", ID := 9 } := by
  obtain ⟨s1, h1, h2, _, _, h5, _⟩ :=
    loadAll_capped (sceneEmpty ℚ) [requestWall, requestGray, requestFloor] rfl rfl
      (by decide)
  exact ⟨s1, h1, h2, (h5 0 requestWall rfl).2, (h5 1 requestFloor rfl).2⟩

/-- C14. On a registry of capacity 16 with count `n < 16`, `CreateGLTexture`
always returns; a load of an image with 3 or 4 colour channels returns `true`,
stores the new (tag, id) at index `n`, makes the count `n + 1` and leaves the
entries at the indices below `n` as they were; and whatever the call returns,
the count is `n + 1` when it returns `true` and `n`, with the slot array
untouched, when it returns `false`. -/
theorem CreateGLTexture_appends (s : SceneManager F) (filename tag : String)
    (image : Option Image) (newID : Nat)
    (hcap : s.m_textureIDs.length = MAX_TEXTURES) (hn : s.m_loadedTextures < MAX_TEXTURES) :
    (∃ b s1, CreateGLTexture s filename tag image newID = Except.ok (b, s1)) ∧
    ((∃ img, image = some img ∧ (img.colorChannels = 3 ∨ img.colorChannels = 4)) →
      ∃ s1, CreateGLTexture s filename tag image newID = Except.ok (true, s1) ∧
        s1.m_textureIDs[s.m_loadedTextures]? = some { tag := tag, ID := newID } ∧
        s1.m_loadedTextures = s.m_loadedTextures + 1 ∧
        (∀ j, j < s.m_loadedTextures → s1.m_textureIDs[j]? = s.m_textureIDs[j]?) ∧
        s1.m_textureIDs.length = s.m_textureIDs.length) ∧
    (∀ b s1, CreateGLTexture s filename tag image newID = Except.ok (b, s1) →
      (b = true → s1.m_loadedTextures = s.m_loadedTextures + 1) ∧
      (b = false → s1.m_loadedTextures = s.m_loadedTextures ∧
        s1.m_textureIDs = s.m_textureIDs)) := by
  have hlt : s.m_loadedTextures < s.m_textureIDs.length := by rw [hcap]; exact hn
  have hcases : (∃ img, image = some img ∧ (img.colorChannels = 3 ∨ img.colorChannels = 4)) ∨
      (image = none ∨
        ∃ img, image = some img ∧ img.colorChannels ≠ 3 ∧ img.colorChannels ≠ 4) := by
    cases image with
    | none => exact Or.inr (Or.inl rfl)
    | some img =>
      by_cases h3 : img.colorChannels = 3
      · exact Or.inl ⟨img, rfl, Or.inl h3⟩
      · by_cases h4 : img.colorChannels = 4
        · exact Or.inl ⟨img, rfl, Or.inr h4⟩
        · exact Or.inr (Or.inr ⟨img, rfl, h3, h4⟩)
  have hgood : (∃ img, image = some img ∧ (img.colorChannels = 3 ∨ img.colorChannels = 4)) →
      ∃ s1, CreateGLTexture s filename tag image newID = Except.ok (true, s1) ∧
        s1.m_textureIDs[s.m_loadedTextures]? = some { tag := tag, ID := newID } ∧
        s1.m_loadedTextures = s.m_loadedTextures + 1 ∧
        (∀ j, j < s.m_loadedTextures → s1.m_textureIDs[j]? = s.m_textureIDs[j]?) ∧
        s1.m_textureIDs.length = s.m_textureIDs.length := by
    rintro ⟨img, rfl, hch⟩
    refine ⟨_, CreateGLTexture_success s filename tag img newID hch hlt, ?_, rfl, ?_, ?_⟩
    · exact List.getElem?_set_self hlt
    · intro j hj
      exact List.getElem?_set_ne (by omega)
    · exact List.length_set _ _ _
  refine ⟨?_, hgood, ?_⟩
  · rcases hcases with h | h
    · obtain ⟨s1, h1, _⟩ := hgood h
      exact ⟨true, s1, h1⟩
    · obtain ⟨s1, h1, _⟩ := CreateGLTexture_failure s filename tag image newID h
      exact ⟨false, s1, h1⟩
  · intro b s1 hres
    rcases hcases with h | h
    · obtain ⟨s2, h2, _, hn2, _, _⟩ := hgood h
      rw [h2] at hres
      injection hres with hres
      injection hres with hb hs
      subst hb hs
      exact ⟨fun _ => hn2, fun hc => absurd hc (by simp)⟩
    · obtain ⟨s2, h2, hn2, hids2, _, _⟩ := CreateGLTexture_failure s filename tag image newID h
      rw [h2] at hres
      injection hres with hres
      injection hres with hb hs
      subst hb hs
      exact ⟨fun hc => absurd hc (by simp), fun _ => ⟨hn2, hids2⟩⟩

/-- C14 (witness). Loading "floor" into the scene that holds "wall" in slot 0
puts it in slot 1, makes the count 2 and keeps slot 0. -/
theorem CreateGLTexture_appends_witness :
    ∃ s1, CreateGLTexture sceneOneTexture "Textures/floor.jpg" "floor" (some imageRGB) 9
        = Except.ok (true, s1) ∧
      s1.m_textureIDs[1]? = some { tag := "floor", ID := 9 } ∧
      s1.m_loadedTextures = 2 ∧
      s1.m_textureIDs[0]? = some { tag := "wall", ID := 7 } := by
  obtain ⟨s1, h1, h2, h3, h4, _⟩ :=
    (CreateGLTexture_appends sceneOneTexture "Textures/floor.jpg" "floor" (some imageRGB) 9
      rfl (by decide)).2.1 ⟨imageRGB, rfl, Or.inl rfl⟩
  exact ⟨s1, h1, h2, h3, by rw [h4 0 (by decide)]; rfl⟩

/-! ## The render pass: the code runs its list of calls -/

theorem RenderScene_wallAndGround_eq [Field F] (ops : glm.FloatOps F) (s : SceneManager F)
    (uninit : Nat → OBJECT_MATERIAL F) :
    RenderScene.wallAndGround ops s uninit
      = runCalls ops uninit s RenderScene.wallAndGroundCalls := by
  unfold RenderScene.wallAndGround RenderScene.wallAndGroundCalls
  simp only [runCalls, Call.run]

theorem RenderScene_shelf_eq [Field F] (ops : glm.FloatOps F) (s : SceneManager F)
    (uninit : Nat → OBJECT_MATERIAL F) :
    RenderScene.shelf ops s uninit
      = runCalls ops uninit s RenderScene.shelfCalls := by
  unfold RenderScene.shelf RenderScene.shelfCalls
  simp only [runCalls, Call.run]

theorem RenderScene_snowGlobe_eq [Field F] (ops : glm.FloatOps F) (s : SceneManager F)
    (uninit : Nat → OBJECT_MATERIAL F) :
    RenderScene.snowGlobe ops s uninit
      = runCalls ops uninit s RenderScene.snowGlobeCalls := by
  unfold RenderScene.snowGlobe RenderScene.snowGlobeCalls
  simp only [runCalls, Call.run]

theorem RenderScene_rubiksCube_eq [Field F] (ops : glm.FloatOps F) (s : SceneManager F)
    (uninit : Nat → OBJECT_MATERIAL F) :
    RenderScene.rubiksCube ops s uninit
      = runCalls ops uninit s RenderScene.rubiksCubeCalls := by
  unfold RenderScene.rubiksCube RenderScene.rubiksCubeCalls
  simp only [runCalls, Call.run]

theorem RenderScene_levitatingGlobe_eq [Field F] (ops : glm.FloatOps F) (s : SceneManager F)
    (uninit : Nat → OBJECT_MATERIAL F) :
    RenderScene.levitatingGlobe ops s uninit
      = runCalls ops uninit s RenderScene.levitatingGlobeCalls := by
  unfold RenderScene.levitatingGlobe RenderScene.levitatingGlobeCalls
  simp only [runCalls, Call.run]

theorem RenderScene_books_eq [Field F] (ops : glm.FloatOps F) (s : SceneManager F)
    (uninit : Nat → OBJECT_MATERIAL F) :
    RenderScene.books ops s uninit
      = runCalls ops uninit s RenderScene.booksCalls := by
  unfold RenderScene.books RenderScene.booksCalls
  simp only [runCalls, Call.run]

/-- Running a concatenation of call lists is running them one after the other. -/
theorem runCalls_append [Field F] (ops : glm.FloatOps F) (uninit : Nat → OBJECT_MATERIAL F)
    (cs1 cs2 : List (Call F)) :
    ∀ s : SceneManager F,
      runCalls ops uninit s (cs1 ++ cs2)
        = (runCalls ops uninit s cs1 >>= fun s1 => runCalls ops uninit s1 cs2) := by
  induction cs1 with
  | nil =>
    intro s
    rfl
  | cons c cs ih =>
    intro s
    simp only [List.cons_append, runCalls, bind_assoc]
    congr 1
    funext s1
    exact ih s1

/-- The code of `RenderScene` runs the calls of `RenderScene.calls`, in order. -/
theorem RenderScene_eq_runCalls [Field F] (ops : glm.FloatOps F) (s : SceneManager F)
    (uninit : Nat → OBJECT_MATERIAL F) :
    RenderScene ops s uninit = runCalls ops uninit s RenderScene.calls := by
  unfold RenderScene RenderScene.calls
  simp only [runCalls_append, bind_assoc, RenderScene_wallAndGround_eq, RenderScene_shelf_eq,
    RenderScene_snowGlobe_eq, RenderScene_rubiksCube_eq, RenderScene_levitatingGlobe_eq,
    RenderScene_books_eq]

/-! ## The render pass: the trace it adds -/

/-- With the shader set, `SetTransformations` returns after writing "model". -/
theorem SetTransformations_ok [Field F] (ops : glm.FloatOps F) (s : SceneManager F)
    (scaleXYZ positionXYZ : glm.vec3 F) (ax ay az : F) (hshader : s.m_pShaderManager = true) :
    SetTransformations ops s scaleXYZ ax ay az positionXYZ = Except.ok
      { s with
        trace := s.trace ++ [Event.uniform "model" (UniformValue.mat4
          (glm.translate positionXYZ
            * glm.rotate ops (glm.radians ops ax) { x := 1, y := 0, z := 0 }
            * glm.rotate ops (glm.radians ops ay) { x := 0, y := 1, z := 0 }
            * glm.rotate ops (glm.radians ops az) { x := 0, y := 0, z := 1 }
            * glm.scale scaleXYZ))] } := by
  simp only [SetTransformations, hshader, if_true, SceneManager.setMat4Value,
    SceneManager.writeUniform, g_ModelName]

/-- With the shader set, `SetTextureUVScale` returns after writing "UVscale". -/
theorem SetTextureUVScale_ok (s : SceneManager F) (u v : F)
    (hshader : s.m_pShaderManager = true) :
    SetTextureUVScale s u v = Except.ok
      { s with
        trace := s.trace ++ [Event.uniform "UVscale" (UniformValue.vec2 { x := u, y := v })] } := by
  simp [SetTextureUVScale, hshader, SceneManager.setVec2Value, SceneManager.writeUniform]

/-- On a registry whose count lies within the array, `slotValue` is what
`FindTextureSlot` returns. -/
theorem FindTextureSlot_eq_slotValue (s : SceneManager F) (tag : String)
    (hn : s.m_loadedTextures ≤ s.m_textureIDs.length) :
    FindTextureSlot s tag = Except.ok (slotValue s tag) := by
  obtain ⟨slot, h⟩ := FindTextureSlot_ok s tag hn
  simp [slotValue, h]

/-- With the shader set and the registry count within the array, a call returns
after appending its events to the trace. -/
theorem Call.run_ok [Field F] (ops : glm.FloatOps F) (uninit : Nat → OBJECT_MATERIAL F)
    (s : SceneManager F) (hshader : s.m_pShaderManager = true)
    (hn : s.m_loadedTextures ≤ s.m_textureIDs.length) (c : Call F) :
    c.run ops uninit s = Except.ok { s with trace := s.trace ++ c.events ops uninit s } := by
  cases c with
  | SetTransformations scaleXYZ ax ay az positionXYZ =>
    exact SetTransformations_ok ops s scaleXYZ positionXYZ ax ay az hshader
  | SetTextureUVScale u v => exact SetTextureUVScale_ok s u v hshader
  | SetShaderTexture textureTag =>
    exact SetShaderTexture_ok s textureTag _ hshader (FindTextureSlot_eq_slotValue s _ hn)
  | SetShaderColor r g b a => exact SetShaderColor_ok s r g b a hshader
  | SetShaderMaterial materialTag k =>
    by_cases hne : s.m_objectMaterials.length = 0
    · have hnot : ¬ s.m_objectMaterials.length > 0 := by omega
      simp only [Call.run, Call.events, CS330.SetShaderMaterial, hne, if_true, if_neg hnot,
        List.append_nil]
      rfl
    · simp only [Call.run, Call.events, if_neg hne]
      exact SetShaderMaterial_ok s materialTag (uninit k) hshader hne
  | DrawMesh kind => rfl

/-- The events of a call do not depend on the trace. -/
theorem Call.events_trace [Field F] (ops : glm.FloatOps F) (uninit : Nat → OBJECT_MATERIAL F)
    (s : SceneManager F) (t : List (Event F)) (c : Call F) :
    c.events ops uninit { s with trace := t } = c.events ops uninit s := by
  cases c <;> rfl

/-- The events of a list of calls do not depend on the trace. -/
theorem callsEvents_trace [Field F] (ops : glm.FloatOps F) (uninit : Nat → OBJECT_MATERIAL F)
    (s : SceneManager F) (t : List (Event F)) (cs : List (Call F)) :
    callsEvents ops uninit { s with trace := t } cs = callsEvents ops uninit s cs := by
  induction cs with
  | nil => rfl
  | cons c cs ih => simp only [callsEvents, ih, Call.events_trace]

/-- With the shader set and the registry count within the array, a list of
calls runs to the end and appends the events of its calls to the trace. -/
theorem runCalls_ok [Field F] (ops : glm.FloatOps F) (uninit : Nat → OBJECT_MATERIAL F)
    (cs : List (Call F)) :
    ∀ s : SceneManager F, s.m_pShaderManager = true →
      s.m_loadedTextures ≤ s.m_textureIDs.length →
      runCalls ops uninit s cs
        = Except.ok { s with trace := s.trace ++ callsEvents ops uninit s cs } := by
  induction cs with
  | nil =>
    intro s _ _
    simp [runCalls, callsEvents, pure, Except.pure]
  | cons c cs ih =>
    intro s hshader hn
    simp only [runCalls, Call.run_ok ops uninit s hshader hn c, bind, Except.bind]
    have h := ih { s with trace := s.trace ++ c.events ops uninit s } hshader hn
    rw [callsEvents_trace] at h
    rw [h]
    simp [callsEvents, List.append_assoc]

/-- With the shader set and the registry count within the array, `RenderScene`
returns after appending the events of its calls to the trace, and changes
nothing else. -/
theorem RenderScene_ok [Field F] (ops : glm.FloatOps F) (uninit : Nat → OBJECT_MATERIAL F)
    (s : SceneManager F) (hshader : s.m_pShaderManager = true)
    (hn : s.m_loadedTextures ≤ s.m_textureIDs.length) :
    RenderScene ops s uninit
      = Except.ok { s with trace := s.trace ++ callsEvents ops uninit s RenderScene.calls } := by
  rw [RenderScene_eq_runCalls]
  exact runCalls_ok ops uninit RenderScene.calls s hshader hn

/-! ## The render pass: observations -/

/-- Over every scalar type the calls of `RenderScene` have the kinds listed in
`RenderScene.kinds`. -/
theorem RenderScene_calls_kinds [Field F] :
    (RenderScene.calls : List (Call F)).map Call.kind = RenderScene.kinds := rfl

/-- The draw calls of a concatenated trace. -/
theorem drawCalls_append (t1 t2 : List (Event F)) :
    drawCalls (t1 ++ t2) = drawCalls t1 ++ drawCalls t2 := by
  induction t1 with
  | nil => rfl
  | cons e t ih => cases e <;> simp [drawCalls, ih]

/-- The draw calls in the events of a list of calls are the draw calls of the
list. -/
theorem drawCalls_callsEvents [Field F] (ops : glm.FloatOps F)
    (uninit : Nat → OBJECT_MATERIAL F) (s : SceneManager F) (cs : List (Call F)) :
    drawCalls (callsEvents ops uninit s cs) = kindsDraws (cs.map Call.kind) := by
  induction cs with
  | nil => rfl
  | cons c cs ih =>
    rw [callsEvents, drawCalls_append, ih]
    cases c with
    | SetShaderMaterial materialTag k =>
      by_cases hne : s.m_objectMaterials.length = 0 <;>
        simp [Call.events, Call.kind, kindsDraws, drawCalls, hne]
    | _ => simp [Call.events, Call.kind, kindsDraws, drawCalls]

/-- The objects in the events of a list of calls, when the material table is not
empty, are the objects of the list. -/
theorem objectWrites_callsEvents [Field F] (ops : glm.FloatOps F)
    (uninit : Nat → OBJECT_MATERIAL F) (s : SceneManager F)
    (hne : s.m_objectMaterials.length ≠ 0) (cs : List (Call F)) :
    ∀ acc, objectWrites.go (callsEvents ops uninit s cs) acc
      = kindsObjectWrites.go (cs.map Call.kind) acc := by
  induction cs with
  | nil =>
    intro acc
    rfl
  | cons c cs ih =>
    intro acc
    cases c <;>
      simp [callsEvents, Call.events, Call.kind, objectWrites.go, kindsObjectWrites.go,
        CallKind.writes, hne, ih]

/-! ## The render pass: draw calls -/

/-- With the shader set and the registry count within the array, a part of
`RenderScene` that runs a list of calls returns after appending a trace whose
draw calls are those of the list. -/
theorem runCalls_draws [Field F] (ops : glm.FloatOps F) (uninit : Nat → OBJECT_MATERIAL F)
    (s : SceneManager F) (hshader : s.m_pShaderManager = true)
    (hn : s.m_loadedTextures ≤ s.m_textureIDs.length) (cs : List (Call F)) :
    ∃ added, runCalls ops uninit s cs = Except.ok { s with trace := s.trace ++ added } ∧
      drawCalls added = kindsDraws (cs.map Call.kind) :=
  ⟨_, runCalls_ok ops uninit cs s hshader hn, drawCalls_callsEvents ops uninit s cs⟩

/-- C15 (counterexample). On the prepared scene, over the reals, one pass of
`RenderScene` issues three cylinder draws, not four. -/
theorem RenderScene_cylinder_draws_counterexample :
    ∃ s1,
      RenderScene { cos := Real.cos, sin := Real.sin, sqrt := Real.sqrt, pi := Real.pi }
        (scenePrepared ℝ) (fun _ => zeroMaterial ℝ) = Except.ok s1 ∧
      (drawCalls s1.trace).count MeshKind.cylinder = 3 ∧
      (drawCalls s1.trace).count MeshKind.cylinder ≠ 4 := by
  obtain ⟨added, h1, h2⟩ := runCalls_draws
    { cos := Real.cos, sin := Real.sin, sqrt := Real.sqrt, pi := Real.pi }
    (fun _ => zeroMaterial ℝ) (scenePrepared ℝ) rfl (by decide) RenderScene.calls
  rw [← RenderScene_eq_runCalls] at h1
  refine ⟨_, h1, ?_⟩
  have h3 : drawCalls ((scenePrepared ℝ).trace ++ added) = kindsDraws RenderScene.kinds := by
    rw [drawCalls_append, h2, RenderScene_calls_kinds]
    rfl
  show (drawCalls ((scenePrepared ℝ).trace ++ added)).count MeshKind.cylinder = 3 ∧
    (drawCalls ((scenePrepared ℝ).trace ++ added)).count MeshKind.cylinder ≠ 4
  rw [h3]
  decide

/-- C15 (amended). With the shader set and the registry count within the slot
array, one pass of `RenderScene` returns and issues exactly two sphere draws
and exactly three cylinder draws; the snow-globe part issues the draws sphere,
cylinder, torus, torus (one sphere draw for the snow globe, one cylinder draw
for its base), and the levitating-globe part issues cylinder, cylinder, box,
box, box, sphere (the two base pieces are the other two cylinder draws). -/
theorem RenderScene_sphere_and_cylinder_draws [Field F] (ops : glm.FloatOps F)
    (uninit : Nat → OBJECT_MATERIAL F) (s : SceneManager F)
    (hshader : s.m_pShaderManager = true)
    (hn : s.m_loadedTextures ≤ s.m_textureIDs.length) :
    (∃ added, RenderScene ops s uninit = Except.ok { s with trace := s.trace ++ added } ∧
      (drawCalls added).count MeshKind.sphere = 2 ∧
      (drawCalls added).count MeshKind.cylinder = 3) ∧
    (∃ added, RenderScene.snowGlobe ops s uninit
        = Except.ok { s with trace := s.trace ++ added } ∧
      drawCalls added
        = [MeshKind.sphere, MeshKind.cylinder, MeshKind.torus, MeshKind.torus]) ∧
    (∃ added, RenderScene.levitatingGlobe ops s uninit
        = Except.ok { s with trace := s.trace ++ added } ∧
      drawCalls added
        = [MeshKind.cylinder, MeshKind.cylinder, MeshKind.box, MeshKind.box, MeshKind.box,
           MeshKind.sphere]) := by
  refine ⟨?_, ?_, ?_⟩
  · obtain ⟨added, h1, h2⟩ := runCalls_draws ops uninit s hshader hn RenderScene.calls
    rw [← RenderScene_eq_runCalls] at h1
    rw [RenderScene_calls_kinds] at h2
    refine ⟨added, h1, ?_⟩
    rw [h2]
    decide
  · obtain ⟨added, h1, h2⟩ := runCalls_draws ops uninit s hshader hn RenderScene.snowGlobeCalls
    rw [← RenderScene_snowGlobe_eq] at h1
    exact ⟨added, h1, h2⟩
  · obtain ⟨added, h1, h2⟩ :=
      runCalls_draws ops uninit s hshader hn RenderScene.levitatingGlobeCalls
    rw [← RenderScene_levitatingGlobe_eq] at h1
    exact ⟨added, h1, h2⟩

/-- C15 (witness). The draw counts on the prepared scene, over the reals. -/
theorem RenderScene_sphere_and_cylinder_draws_witness :
    ∃ added,
      RenderScene { cos := Real.cos, sin := Real.sin, sqrt := Real.sqrt, pi := Real.pi }
        (scenePrepared ℝ) (fun _ => zeroMaterial ℝ)
        = Except.ok { scenePrepared ℝ with trace := (scenePrepared ℝ).trace ++ added } ∧
      (drawCalls added).count MeshKind.sphere = 2 ∧
      (drawCalls added).count MeshKind.cylinder = 3 :=
  (RenderScene_sphere_and_cylinder_draws
    { cos := Real.cos, sin := Real.sin, sqrt := Real.sqrt, pi := Real.pi }
    (fun _ => zeroMaterial ℝ) (scenePrepared ℝ) rfl (by decide)).1

/-! ## The render pass: call order -/

/-- The events of a concatenation of call lists. -/
theorem callsEvents_append [Field F] (ops : glm.FloatOps F) (uninit : Nat → OBJECT_MATERIAL F)
    (s : SceneManager F) (cs1 cs2 : List (Call F)) :
    callsEvents ops uninit s (cs1 ++ cs2)
      = callsEvents ops uninit s cs1 ++ callsEvents ops uninit s cs2 := by
  induction cs1 with
  | nil => rfl
  | cons c cs ih => simp [callsEvents, ih, List.append_assoc]

/-- With the shader set, the registry count within the array and a material
table that is not empty, `RenderScene` returns after appending a trace whose
objects are those of its list of calls. -/
theorem RenderScene_objectWrites [Field F] (ops : glm.FloatOps F)
    (uninit : Nat → OBJECT_MATERIAL F) (s : SceneManager F)
    (hshader : s.m_pShaderManager = true)
    (hn : s.m_loadedTextures ≤ s.m_textureIDs.length)
    (hne : s.m_objectMaterials.length ≠ 0) :
    ∃ added, RenderScene ops s uninit = Except.ok { s with trace := s.trace ++ added } ∧
      added = callsEvents ops uninit s RenderScene.calls ∧
      objectWrites added = kindsObjectWrites.go RenderScene.kinds [] := by
  refine ⟨_, RenderScene_ok ops uninit s hshader hn, rfl, ?_⟩
  unfold objectWrites
  rw [objectWrites_callsEvents ops uninit s hne, RenderScene_calls_kinds]

/-- C17 (counterexample). The first object of `RenderScene`, the wall, calls
`SetTextureUVScale` right after `SetTransformations`, before `SetShaderTexture`
and `SetShaderMaterial`: on the prepared scene, over the reals, the uniform
"UVscale" is written before "bUseTexture" and the material uniforms. -/
theorem RenderScene_call_order_counterexample :
    (kindsObjects ((RenderScene.calls : List (Call ℝ)).map Call.kind)).head?
      = some ([CallKind.SetTransformations, CallKind.SetTextureUVScale,
          CallKind.SetShaderTexture "wall", CallKind.SetShaderMaterial "wall"],
        MeshKind.box) ∧
    inClaimedOrder [CallKind.SetTransformations, CallKind.SetTextureUVScale,
      CallKind.SetShaderTexture "wall", CallKind.SetShaderMaterial "wall"] = false ∧
    ∃ s1,
      RenderScene { cos := Real.cos, sin := Real.sin, sqrt := Real.sqrt, pi := Real.pi }
        (scenePrepared ℝ) (fun _ => zeroMaterial ℝ) = Except.ok s1 ∧
      (objectWrites s1.trace).head?
        = some (["model", "UVscale", "bUseTexture", "objectTexture",
            "material.ambientColor", "material.ambientStrength", "material.diffuseColor",
            "material.specularColor", "material.shininess"], MeshKind.box) := by
  refine ⟨?_, rfl, ?_⟩
  · rw [RenderScene_calls_kinds]
    decide
  · obtain ⟨added, h1, _, h3⟩ := RenderScene_objectWrites
      { cos := Real.cos, sin := Real.sin, sqrt := Real.sqrt, pi := Real.pi }
      (fun _ => zeroMaterial ℝ) (scenePrepared ℝ) rfl (by decide) (by decide)
    refine ⟨_, h1, ?_⟩
    show (objectWrites ([] ++ added)).head? = _
    rw [List.nil_append, h3]
    decide

/-- C17 (amended). `RenderScene` runs the calls of `RenderScene.calls` in order;
they form 28 objects, each ended by its draw call. In every object the first
call is `SetTransformations`, there is at most one `SetTextureUVScale` call, and
the other calls are, in this order, `SetTransformations`, one of
`SetShaderTexture` and `SetShaderColor`, and `SetShaderMaterial`. The
`SetTextureUVScale` call, where present, comes last only in the objects 2, 3, 4
and 26; in the objects 0, 1, 12, 13, 16, 17 and 18 it comes before
`SetShaderMaterial`. Exactly: the calls of the objects 0 and 1 are
`SetTransformations`, `SetTextureUVScale`, `SetShaderTexture`,
`SetShaderMaterial`; those of the objects 12, 13, 16, 17 and 18 are
`SetTransformations`, `SetShaderTexture`, `SetTextureUVScale`,
`SetShaderMaterial`; those of the objects 2, 3, 4 and 26 are
`SetTransformations`, `SetShaderTexture`, `SetShaderMaterial`,
`SetTextureUVScale`; and the other seventeen objects have the three calls
`SetTransformations`, `SetShaderTexture` or `SetShaderColor`,
`SetShaderMaterial` and no `SetTextureUVScale`. -/
theorem RenderScene_call_order [Field F] (ops : glm.FloatOps F)
    (uninit : Nat → OBJECT_MATERIAL F) (s : SceneManager F) :
    RenderScene ops s uninit = runCalls ops uninit s RenderScene.calls ∧
    (kindsObjects ((RenderScene.calls : List (Call F)).map Call.kind)).length = 28 ∧
    (∀ obj ∈ kindsObjects ((RenderScene.calls : List (Call F)).map Call.kind),
      obj.1.head? = some CallKind.SetTransformations ∧
      obj.1.count CallKind.SetTextureUVScale ≤ 1 ∧
      inClaimedOrder (withoutUVScale obj.1) = true) ∧
    positionsWhere (fun obj => !inClaimedOrder obj.1)
        (kindsObjects ((RenderScene.calls : List (Call F)).map Call.kind))
      = [0, 1, 12, 13, 16, 17, 18] ∧
    positionsWhere (fun obj => decide (obj.1.getLast? = some CallKind.SetTextureUVScale))
        (kindsObjects ((RenderScene.calls : List (Call F)).map Call.kind))
      = [2, 3, 4, 26] ∧
    positionsWhere (fun obj => uvAfterTransform obj.1)
        (kindsObjects ((RenderScene.calls : List (Call F)).map Call.kind))
      = [0, 1] ∧
    positionsWhere (fun obj => uvBeforeMaterial obj.1)
        (kindsObjects ((RenderScene.calls : List (Call F)).map Call.kind))
      = [12, 13, 16, 17, 18] ∧
    positionsWhere (fun obj => uvAfterMaterial obj.1)
        (kindsObjects ((RenderScene.calls : List (Call F)).map Call.kind))
      = [2, 3, 4, 26] ∧
    positionsWhere (fun obj => withoutUVCall obj.1)
        (kindsObjects ((RenderScene.calls : List (Call F)).map Call.kind))
      = [5, 6, 7, 8, 9, 10, 11, 14, 15, 19, 20, 21, 22, 23, 24, 25, 27] := by
  rw [RenderScene_calls_kinds]
  refine ⟨RenderScene_eq_runCalls ops s uninit, ?_, ?_, ?_, ?_, ?_, ?_, ?_, ?_⟩
  · decide
  · decide
  · decide
  · decide
  · decide
  · decide
  · decide
  · decide

/-! ## The render pass: what each object writes -/

/-- The names written in the events of a list of calls, when the material table
is not empty, are those of the kinds of the calls. -/
theorem uniformNames_callsEvents [Field F] (ops : glm.FloatOps F)
    (uninit : Nat → OBJECT_MATERIAL F) (s : SceneManager F)
    (hne : s.m_objectMaterials.length ≠ 0) (cs : List (Call F)) :
    uniformNames (callsEvents ops uninit s cs) = kindsWrites (cs.map Call.kind) := by
  induction cs with
  | nil => rfl
  | cons c cs ih =>
    unfold uniformNames at ih ⊢
    rw [callsEvents, uniformWrites_append, List.map_append, ih]
    cases c <;>
      simp [Call.events, Call.kind, kindsWrites, CallKind.writes, uniformWrites, hne]

/-- Events that do not write a uniform leave its value as it was. -/
theorem uniformValue_append_not_written (t1 t2 : List (Event F)) (name : String)
    (h : name ∉ uniformNames t2) : uniformValue (t1 ++ t2) name = uniformValue t1 name := by
  unfold uniformValue
  rw [uniformWrites_append, List.reverse_append, List.find?_append]
  have hnone : (uniformWrites t2).reverse.find? (fun w => w.1 == name) = none := by
    rw [List.find?_eq_none]
    intro w hw hc
    apply h
    unfold uniformNames
    rw [List.mem_map]
    exact ⟨w, List.mem_reverse.mp hw, by simpa using hc⟩
  rw [hnone]
  rfl

/-- After a list of calls that contains a `SetTextureUVScale(u, v)` call followed
only by calls that do not write "UVscale", that uniform holds `(u, v)`. -/
theorem uniformValue_UVscale_after [Field F] (ops : glm.FloatOps F)
    (uninit : Nat → OBJECT_MATERIAL F) (s : SceneManager F)
    (hne : s.m_objectMaterials.length ≠ 0) (t : List (Event F)) (pre post : List (Call F))
    (u v : F) (hpost : "UVscale" ∉ kindsWrites (post.map Call.kind)) :
    uniformValue (t ++ callsEvents ops uninit s (pre ++ Call.SetTextureUVScale u v :: post))
      "UVscale" = some (UniformValue.vec2 { x := u, y := v }) := by
  have hsplit : t ++ callsEvents ops uninit s (pre ++ Call.SetTextureUVScale u v :: post)
      = ((t ++ callsEvents ops uninit s pre)
          ++ [Event.uniform "UVscale" (UniformValue.vec2 { x := u, y := v })])
        ++ callsEvents ops uninit s post := by
    rw [callsEvents_append]
    simp [callsEvents, Call.events, List.append_assoc]
  rw [hsplit, uniformValue_append_not_written _ _ _
    (by rw [uniformNames_callsEvents ops uninit s hne]; exact hpost),
    uniformValue_write_same]

/-- C16 (counterexample). On the prepared scene, over the reals, the last object
of `RenderScene`, the back of the books, is textured and writes, after the
preceding draw, only the model matrix, the texture flag and slot and the five
material uniforms; it is drawn with the "UVscale" value `(-1, 1)` that the
preceding object, the left side of the books, wrote for itself. -/
theorem RenderScene_stale_UVscale_counterexample :
    ∃ s1,
      RenderScene { cos := Real.cos, sin := Real.sin, sqrt := Real.sqrt, pi := Real.pi }
        (scenePrepared ℝ) (fun _ => zeroMaterial ℝ) = Except.ok s1 ∧
      (objectWrites s1.trace).length = 28 ∧
      (objectWrites s1.trace)[27]?
        = some (["model", "bUseTexture", "objectTexture",
            "material.ambientColor", "material.ambientStrength", "material.diffuseColor",
            "material.specularColor", "material.shininess"], MeshKind.box) ∧
      (objectWrites s1.trace)[26]?
        = some (["model", "bUseTexture", "objectTexture",
            "material.ambientColor", "material.ambientStrength", "material.diffuseColor",
            "material.specularColor", "material.shininess", "UVscale"], MeshKind.box) ∧
      uniformValue s1.trace "UVscale"
        = some (UniformValue.vec2 ({ x := -1.0, y := 1.0 } : glm.vec2 ℝ)) := by
  have hne : (scenePrepared ℝ).m_objectMaterials.length ≠ 0 := by decide
  obtain ⟨added, h1, h2, h3⟩ := RenderScene_objectWrites
    { cos := Real.cos, sin := Real.sin, sqrt := Real.sqrt, pi := Real.pi }
    (fun _ => zeroMaterial ℝ) (scenePrepared ℝ) rfl (by decide) hne
  refine ⟨_, h1, ?_, ?_, ?_, ?_⟩
  · show (objectWrites ([] ++ added)).length = 28
    rw [List.nil_append, h3]
    decide
  · show (objectWrites ([] ++ added))[27]? = _
    rw [List.nil_append, h3]
    decide
  · show (objectWrites ([] ++ added))[26]? = _
    rw [List.nil_append, h3]
    decide
  · have hcalls : (RenderScene.calls : List (Call ℝ))
        = (RenderScene.calls : List (Call ℝ)).take 117
          ++ Call.SetTextureUVScale (-1.0) 1.0 :: (RenderScene.calls : List (Call ℝ)).drop 118 :=
      rfl
    have hpost : "UVscale" ∉
        kindsWrites (((RenderScene.calls : List (Call ℝ)).drop 118).map Call.kind) := by
      rw [List.map_drop, RenderScene_calls_kinds]
      decide
    have h4 := uniformValue_UVscale_after
      { cos := Real.cos, sin := Real.sin, sqrt := Real.sqrt, pi := Real.pi }
      (fun _ => zeroMaterial ℝ) (scenePrepared ℝ) hne []
      ((RenderScene.calls : List (Call ℝ)).take 117)
      ((RenderScene.calls : List (Call ℝ)).drop 118) (-1.0) 1.0 hpost
    rw [← hcalls, ← h2] at h4
    exact h4

/-- C16 (amended). With the shader set, the registry count within the slot array
and a material table that is not empty, `RenderScene` returns after 28 draw
calls, and before each draw call, after the preceding one, it has written the
model matrix, the texture flag with either the texture slot or the flat colour,
and the five material uniforms. The objects 0 to 4, 12, 13 and 16 to 27 are
textured; of these only the objects 0 to 4, 12, 13, 16, 17, 18 and 26 write
"UVscale" between the preceding draw and their own. -/
theorem RenderScene_objects_write_own_state [Field F] (ops : glm.FloatOps F)
    (uninit : Nat → OBJECT_MATERIAL F) (s : SceneManager F)
    (hshader : s.m_pShaderManager = true)
    (hn : s.m_loadedTextures ≤ s.m_textureIDs.length)
    (hne : s.m_objectMaterials.length ≠ 0) :
    ∃ added, RenderScene ops s uninit = Except.ok { s with trace := s.trace ++ added } ∧
      (objectWrites added).length = 28 ∧
      (∀ obj ∈ objectWrites added,
        "model" ∈ obj.1 ∧ "bUseTexture" ∈ obj.1 ∧
        ("objectTexture" ∈ obj.1 ∨ "objectColor" ∈ obj.1) ∧
        "material.ambientColor" ∈ obj.1 ∧ "material.ambientStrength" ∈ obj.1 ∧
        "material.diffuseColor" ∈ obj.1 ∧ "material.specularColor" ∈ obj.1 ∧
        "material.shininess" ∈ obj.1) ∧
      positionsWhere (fun obj => decide ("objectTexture" ∈ obj.1)) (objectWrites added)
        = [0, 1, 2, 3, 4, 12, 13, 16, 17, 18, 19, 20, 21, 22, 23, 24, 25, 26, 27] ∧
      positionsWhere (fun obj => decide ("UVscale" ∈ obj.1)) (objectWrites added)
        = [0, 1, 2, 3, 4, 12, 13, 16, 17, 18, 26] := by
  obtain ⟨added, h1, _, h3⟩ := RenderScene_objectWrites ops uninit s hshader hn hne
  refine ⟨added, h1, ?_⟩
  rw [h3]
  refine ⟨?_, ?_, ?_, ?_⟩
  · decide
  · decide
  · decide
  · decide

/-- C16 (witness). On the prepared scene, over the reals, the pass has 28
objects and eleven of them write "UVscale". -/
theorem RenderScene_objects_write_own_state_witness :
    ∃ added,
      RenderScene { cos := Real.cos, sin := Real.sin, sqrt := Real.sqrt, pi := Real.pi }
        (scenePrepared ℝ) (fun _ => zeroMaterial ℝ)
        = Except.ok { scenePrepared ℝ with trace := (scenePrepared ℝ).trace ++ added } ∧
      (objectWrites added).length = 28 ∧
      positionsWhere (fun obj => decide ("UVscale" ∈ obj.1)) (objectWrites added)
        = [0, 1, 2, 3, 4, 12, 13, 16, 17, 18, 26] := by
  obtain ⟨added, h1, h2, _, _, h5⟩ := RenderScene_objects_write_own_state
    { cos := Real.cos, sin := Real.sin, sqrt := Real.sqrt, pi := Real.pi }
    (fun _ => zeroMaterial ℝ) (scenePrepared ℝ) rfl (by decide) (by decide)
  exact ⟨added, h1, h2, h5⟩

/-! ## The render pass: independence from the earlier state -/

/-- When some entry has the tag, the five fields `FindMaterial` delivers do not
depend on the record it is given. -/
theorem FindMaterial_resolved (s : SceneManager F) (tag : String)
    (hex : ∃ e ∈ s.m_objectMaterials, e.tag = tag) (m1 m2 : OBJECT_MATERIAL F) :
    (FindMaterial s tag m1).2.ambientColor = (FindMaterial s tag m2).2.ambientColor ∧
    (FindMaterial s tag m1).2.ambientStrength = (FindMaterial s tag m2).2.ambientStrength ∧
    (FindMaterial s tag m1).2.diffuseColor = (FindMaterial s tag m2).2.diffuseColor ∧
    (FindMaterial s tag m1).2.specularColor = (FindMaterial s tag m2).2.specularColor ∧
    (FindMaterial s tag m1).2.shininess = (FindMaterial s tag m2).2.shininess := by
  obtain ⟨e, hmem, htag⟩ := hex
  obtain ⟨⟨k, hk⟩, hget⟩ := List.get_of_mem hmem
  obtain ⟨i, ⟨hi, hmatch⟩, hmin⟩ := exists_first_index
    (fun i => ∃ hi : i < s.m_objectMaterials.length,
      (s.m_objectMaterials.get ⟨i, hi⟩).tag = tag)
    ⟨k, hk, by rw [hget]; exact htag⟩
  have hfirst : ∀ j (hj : j < s.m_objectMaterials.length), j < i →
      (s.m_objectMaterials.get ⟨j, hj⟩).tag ≠ tag :=
    fun j hj hlt hc => hmin j hlt ⟨hj, hc⟩
  obtain ⟨_, a1, a2, a3, a4, a5, _⟩ := FindMaterial_at_first_index s tag m1 i hi hmatch hfirst
  obtain ⟨_, b1, b2, b3, b4, b5, _⟩ := FindMaterial_at_first_index s tag m2 i hi hmatch hfirst
  exact ⟨by rw [a1, b1], by rw [a2, b2], by rw [a3, b3], by rw [a4, b4], by rw [a5, b5]⟩

/-- When the material tags of a list of calls all have an entry in the table,
the events of the list do not depend on the uninitialised locals. -/
theorem callsEvents_uninit [Field F] (ops : glm.FloatOps F) (s : SceneManager F)
    (hmat : ∀ tag ∈ RenderScene.materialTags, ∃ e ∈ s.m_objectMaterials, e.tag = tag)
    (u1 u2 : Nat → OBJECT_MATERIAL F) (cs : List (Call F))
    (hknown : ∀ k ∈ cs.map Call.kind, k.knownMaterial = true) :
    callsEvents ops u1 s cs = callsEvents ops u2 s cs := by
  induction cs with
  | nil => rfl
  | cons c cs ih =>
    have hc : c.kind.knownMaterial = true := hknown _ (List.mem_cons_self _ _)
    have hrest := ih (fun k hk => hknown k (List.mem_cons_of_mem _ hk))
    rw [callsEvents, callsEvents, hrest]
    congr 1
    cases c with
    | SetShaderMaterial materialTag k =>
      have htag : materialTag ∈ RenderScene.materialTags := by
        simpa [Call.kind, CallKind.knownMaterial] using hc
      obtain ⟨h1, h2, h3, h4, h5⟩ :=
        FindMaterial_resolved s materialTag (hmat _ htag) (u1 k) (u2 k)
      simp only [Call.events, h1, h2, h3, h4, h5]
    | _ => rfl

/-- A uniform written in the later part of a trace holds a value that the later
part alone determines. -/
theorem uniformValue_append_written (t1 t2 : List (Event F)) (name : String)
    (h : name ∈ uniformNames t2) :
    uniformValue (t1 ++ t2) name = uniformValue t2 name ∧
    (uniformValue t2 name).isSome = true := by
  unfold uniformNames at h
  obtain ⟨w, hw, hname⟩ := List.mem_map.mp h
  have hsome : ((uniformWrites t2).reverse.find? (fun w => w.1 == name)).isSome = true := by
    rw [List.find?_isSome]
    exact ⟨w, List.mem_reverse.mpr hw, by simpa using hname⟩
  obtain ⟨x, hx⟩ := Option.isSome_iff_exists.mp hsome
  unfold uniformValue
  rw [uniformWrites_append, List.reverse_append, List.find?_append, hx]
  exact ⟨rfl, rfl⟩

/-- The names written in a concatenated trace. -/
theorem uniformNames_append (t1 t2 : List (Event F)) :
    uniformNames (t1 ++ t2) = uniformNames t1 ++ uniformNames t2 := by
  unfold uniformNames
  rw [uniformWrites_append, List.map_append]

/-- When a trace starts with events that contain no draw call, followed by a
draw call, every way of cutting the trace at a draw call keeps those events
in the first part. -/
theorem prefix_before_first_draw (first rest0 pre rest : List (Event F)) (k0 k : MeshKind)
    (hnodraw : drawCalls first = [])
    (h : first ++ Event.drawMesh k0 :: rest0 = pre ++ Event.drawMesh k :: rest) :
    ∃ more, pre = first ++ more := by
  rcases List.append_eq_append_iff.mp h with ⟨a, ha, _⟩ | ⟨c, hc, hd⟩
  · exact ⟨a, ha⟩
  · cases c with
    | nil => exact ⟨[], by simpa using hc.symm⟩
    | cons x c2 =>
      exfalso
      simp only [List.cons_append, List.cons.injEq] at hd
      obtain ⟨hx, _⟩ := hd
      subst hc
      rw [← hx, drawCalls_append] at hnodraw
      simp [drawCalls] at hnodraw

/-- Every `SetShaderMaterial` call of `RenderScene` passes one of the seven tags
of `RenderScene.materialTags`. -/
theorem RenderScene_kinds_known : ∀ k ∈ RenderScene.kinds, k.knownMaterial = true := by
  have h : RenderScene.kinds.all CallKind.knownMaterial = true := by decide
  exact fun k hk => List.all_eq_true.mp h k hk

/-- A run that starts with a returned value continues with it. -/
theorem Except_ok_bind {ε α β : Type} (a : α) (f : α → Except ε β) :
    (Except.ok a >>= f) = f a := rfl

/-- C20. With the shader set, the registry count within the slot array and a
material table that has an entry for each of the seven material tags of the
scene, there is one list of events that `RenderScene` appends to the trace
whatever the trace was before and whatever its uninitialised locals hold. It
has 28 draw calls; at each of them the uniforms model, bUseTexture,
objectTexture, UVscale and material.* hold values written earlier in the same
pass, the same for any two earlier traces; every uniform the pass writes ends
with the same value for any two earlier traces; and two passes in a row append
that list twice. -/
theorem RenderScene_static [Field F] (ops : glm.FloatOps F) (s : SceneManager F)
    (hshader : s.m_pShaderManager = true)
    (hn : s.m_loadedTextures ≤ s.m_textureIDs.length)
    (hmat : ∀ tag ∈ RenderScene.materialTags, ∃ e ∈ s.m_objectMaterials, e.tag = tag) :
    ∃ added : List (Event F),
      (∀ (t : List (Event F)) (uninit : Nat → OBJECT_MATERIAL F),
        RenderScene ops { s with trace := t } uninit
          = Except.ok { s with trace := t ++ added }) ∧
      (drawCalls added).length = 28 ∧
      (∀ (t1 t2 pre rest : List (Event F)) (kind : MeshKind),
        added = pre ++ Event.drawMesh kind :: rest →
        ∀ name ∈ staticNames,
          (uniformValue (t1 ++ pre) name).isSome = true ∧
          uniformValue (t1 ++ pre) name = uniformValue (t2 ++ pre) name) ∧
      (∀ (t1 t2 : List (Event F)) (name : String), name ∈ uniformNames added →
        uniformValue (t1 ++ added) name = uniformValue (t2 ++ added) name) ∧
      (∀ (t : List (Event F)) (u1 u2 : Nat → OBJECT_MATERIAL F),
        (RenderScene ops { s with trace := t } u1 >>= fun s1 => RenderScene ops s1 u2)
          = Except.ok { s with trace := t ++ added ++ added }) := by
  have hne : s.m_objectMaterials.length ≠ 0 := by
    obtain ⟨e, he, _⟩ := hmat "wall" (by decide)
    intro h0
    rw [List.length_eq_zero.mp h0] at he
    exact absurd he (List.not_mem_nil e)
  have hknown : ∀ k ∈ (RenderScene.calls : List (Call F)).map Call.kind,
      k.knownMaterial = true := by
    rw [RenderScene_calls_kinds]
    exact RenderScene_kinds_known
  have hrun : ∀ (t : List (Event F)) (uninit : Nat → OBJECT_MATERIAL F),
      RenderScene ops { s with trace := t } uninit = Except.ok
        { s with
          trace := t ++ callsEvents ops (fun _ => zeroMaterial F) s RenderScene.calls } := by
    intro t uninit
    rw [RenderScene_ok ops uninit { s with trace := t } hshader hn, callsEvents_trace,
      callsEvents_uninit ops s hmat uninit (fun _ => zeroMaterial F) _ hknown]
  have hcalls : (RenderScene.calls : List (Call F))
      = (RenderScene.calls : List (Call F)).take 4
        ++ Call.DrawMesh MeshKind.box :: (RenderScene.calls : List (Call F)).drop 5 := rfl
  have hadded : callsEvents ops (fun _ => zeroMaterial F) s RenderScene.calls
      = callsEvents ops (fun _ => zeroMaterial F) s ((RenderScene.calls : List (Call F)).take 4)
        ++ Event.drawMesh MeshKind.box
          :: callsEvents ops (fun _ => zeroMaterial F) s
              ((RenderScene.calls : List (Call F)).drop 5) := by
    conv => lhs; rw [hcalls]
    rw [callsEvents_append]
    rfl
  have hnodraw : drawCalls (callsEvents ops (fun _ => zeroMaterial F) s
      ((RenderScene.calls : List (Call F)).take 4)) = [] := by
    rw [drawCalls_callsEvents, List.map_take, RenderScene_calls_kinds]
    decide
  have hnames : ∀ name ∈ staticNames,
      name ∈ uniformNames (callsEvents ops (fun _ => zeroMaterial F) s
        ((RenderScene.calls : List (Call F)).take 4)) := by
    rw [uniformNames_callsEvents ops _ s hne, List.map_take, RenderScene_calls_kinds]
    decide
  refine ⟨callsEvents ops (fun _ => zeroMaterial F) s RenderScene.calls, hrun, ?_, ?_, ?_, ?_⟩
  · rw [drawCalls_callsEvents, RenderScene_calls_kinds]
    decide
  · intro t1 t2 pre rest kind hcut name hname
    rw [hadded] at hcut
    obtain ⟨more, hmore⟩ := prefix_before_first_draw _ _ pre rest MeshKind.box kind hnodraw hcut
    have hin : name ∈ uniformNames pre := by
      rw [hmore, uniformNames_append]
      exact List.mem_append_left _ (hnames name hname)
    obtain ⟨h1, h1some⟩ := uniformValue_append_written t1 pre name hin
    obtain ⟨h2, _⟩ := uniformValue_append_written t2 pre name hin
    rw [h1, h2]
    exact ⟨h1some, rfl⟩
  · intro t1 t2 name hname
    rw [(uniformValue_append_written t1 _ name hname).1,
      (uniformValue_append_written t2 _ name hname).1]
  · intro t u1 u2
    rw [hrun t u1, Except_ok_bind]
    exact hrun (t ++ callsEvents ops (fun _ => zeroMaterial F) s RenderScene.calls) u2

/-- C20 (witness). On the prepared scene, over the reals, a pass from the empty
trace appends a list of events with 28 draw calls, and a pass from any other
trace appends the same list. -/
theorem RenderScene_static_witness :
    ∃ added : List (Event ℝ),
      RenderScene { cos := Real.cos, sin := Real.sin, sqrt := Real.sqrt, pi := Real.pi }
        (scenePrepared ℝ) (fun _ => zeroMaterial ℝ)
        = Except.ok { scenePrepared ℝ with trace := [] ++ added } ∧
      RenderScene { cos := Real.cos, sin := Real.sin, sqrt := Real.sqrt, pi := Real.pi }
        { scenePrepared ℝ with trace := [Event.drawMesh MeshKind.box] }
        (fun _ => zeroMaterial ℝ)
        = Except.ok { scenePrepared ℝ with trace := [Event.drawMesh MeshKind.box] ++ added } ∧
      (drawCalls added).length = 28 := by
  obtain ⟨added, h1, h2, _⟩ := RenderScene_static
    { cos := Real.cos, sin := Real.sin, sqrt := Real.sqrt, pi := Real.pi }
    (scenePrepared ℝ) rfl (by decide) (by decide)
  exact ⟨added, h1 [] _, h1 [Event.drawMesh MeshKind.box] _, h2⟩

/-! ## Scene setup: lemmas -/

/-- `LoadSceneTextures` is its twelve loads in sequence, followed by
`BindGLTextures` on the state the last load left. -/
theorem LoadSceneTextures_eq_loadAll (s : SceneManager F) (images : Nat → Option Image)
    (newIDs : Nat → Nat) :
    LoadSceneTextures s images newIDs
      = loadAll s (LoadSceneTextures.requests images newIDs) >>= BindGLTextures := by
  unfold LoadSceneTextures LoadSceneTextures.requests
  simp only [loadAll, bind_assoc, Except_ok_bind]

/-- From the loop variable `i` on, the `BindGLTextures` loop adds the bind calls
of the registered entries from index `i` on. -/
theorem BindGLTextures_loop_ok (ids : List TEXTURE_INFO) (n : Nat) (hn : n ≤ ids.length) :
    ∀ (k i : Nat) (trace : List (Event F)), n - i = k → i ≤ n →
      BindGLTextures.loop ids n i trace
        = Except.ok (trace ++ bindEvents ((ids.take n).drop i) i) := by
  intro k
  induction k with
  | zero =>
    intro i trace hk hi
    have hin : i = n := by omega
    subst hin
    unfold BindGLTextures.loop
    rw [if_neg (Nat.lt_irrefl _)]
    have hdrop : (ids.take i).drop i = [] := by
      apply List.drop_eq_nil_of_le
      simp
    rw [hdrop]
    simp [bindEvents]
  | succ k ih =>
    intro i trace hk hi
    have hlt : i < n := by omega
    have hlen : i < ids.length := by omega
    unfold BindGLTextures.loop
    rw [if_pos hlt, List.getElem?_eq_getElem hlen]
    simp only
    rw [ih (i + 1) _ (by omega) (by omega)]
    have hlt2 : i < (ids.take n).length := by
      rw [List.length_take]
      omega
    have hdrop : (ids.take n).drop i = ids[i] :: (ids.take n).drop (i + 1) := by
      rw [List.drop_eq_getElem_cons hlt2, List.getElem_take]
    rw [hdrop]
    simp [bindEvents]

/-- On a registry whose count does not exceed the array, `BindGLTextures`
returns after the bind calls of the registered entries, from unit 0 on. -/
theorem BindGLTextures_ok (s : SceneManager F) (hn : s.m_loadedTextures ≤ s.m_textureIDs.length) :
    BindGLTextures s = Except.ok
      { s with
        trace := s.trace ++ bindEvents (s.m_textureIDs.take s.m_loadedTextures) 0 } := by
  unfold BindGLTextures
  rw [BindGLTextures_loop_ok s.m_textureIDs s.m_loadedTextures hn _ 0 s.trace rfl
    (Nat.zero_le _)]
  rfl

/-- The bind calls of a list of entries: two per entry, the `i`-th pair
selecting unit `unit + i` and binding the identifier of the `i`-th entry. -/
theorem bindEvents_getElem (l : List TEXTURE_INFO) :
    ∀ unit : Nat,
      (bindEvents l unit : List (Event F)).length = 2 * l.length ∧
      ∀ i entry, l[i]? = some entry →
        (bindEvents l unit : List (Event F))[2 * i]? = some (Event.glActiveTexture (unit + i)) ∧
        (bindEvents l unit : List (Event F))[2 * i + 1]? = some (Event.glBindTexture entry.ID) := by
  induction l with
  | nil =>
    intro unit
    exact ⟨rfl, fun i entry h => by simp at h⟩
  | cons e rest ih =>
    intro unit
    obtain ⟨hlen, hget⟩ := ih (unit + 1)
    refine ⟨by simp only [bindEvents, List.length_cons, hlen]; omega, ?_⟩
    intro i entry h
    cases i with
    | zero =>
      simp only [List.getElem?_cons_zero, Option.some.injEq] at h
      subst h
      exact ⟨by simp [bindEvents], by simp [bindEvents]⟩
    | succ i =>
      simp only [List.getElem?_cons_succ] at h
      obtain ⟨h1, h2⟩ := hget i entry h
      have e1 : 2 * (i + 1) = (2 * i + 1) + 1 := by omega
      have e2 : 2 * (i + 1) + 1 = ((2 * i + 1) + 1) + 1 := by omega
      have e3 : unit + (i + 1) = unit + 1 + i := by omega
      refine ⟨?_, ?_⟩
      · rw [e1, e3]
        simp only [bindEvents, List.getElem?_cons_succ]
        exact h1
      · rw [e2]
        simp only [bindEvents, List.getElem?_cons_succ]
        exact h2

/-- Whatever it returns, `CreateGLTexture` adds only calls of a texture load to
the trace, and leaves the shader handle and the material table as they were. -/
theorem CreateGLTexture_trace (s : SceneManager F) (filename tag : String)
    (image : Option Image) (newID : Nat) (b : Bool) (s1 : SceneManager F)
    (h : CreateGLTexture s filename tag image newID = Except.ok (b, s1)) :
    (∃ added, s1.trace = s.trace ++ added ∧ ∀ e ∈ added, e.ofTextureLoad = true) ∧
    s1.m_pShaderManager = s.m_pShaderManager ∧
    s1.m_objectMaterials = s.m_objectMaterials := by
  unfold CreateGLTexture at h
  cases image with
  | none =>
    simp only [Except.ok.injEq, Prod.mk.injEq] at h
    obtain ⟨_, rfl⟩ := h
    exact ⟨⟨_, rfl, by simp [Event.ofTextureLoad]⟩, rfl, rfl⟩
  | some img =>
    simp only at h
    by_cases h3 : img.colorChannels = 3
    · simp only [if_pos h3] at h
      split at h
      · simp only [Except.ok.injEq, Prod.mk.injEq] at h
        obtain ⟨_, rfl⟩ := h
        exact ⟨⟨_, by simp only [List.append_assoc]; rfl, by simp [Event.ofTextureLoad]⟩,
          rfl, rfl⟩
      · exact absurd h (by simp)
    · by_cases h4 : img.colorChannels = 4
      · simp only [if_neg h3, if_pos h4] at h
        split at h
        · simp only [Except.ok.injEq, Prod.mk.injEq] at h
          obtain ⟨_, rfl⟩ := h
          exact ⟨⟨_, by simp only [List.append_assoc]; rfl, by simp [Event.ofTextureLoad]⟩,
            rfl, rfl⟩
        · exact absurd h (by simp)
      · simp only [if_neg h3, if_neg h4, Except.ok.injEq, Prod.mk.injEq] at h
        obtain ⟨_, rfl⟩ := h
        exact ⟨⟨_, by simp only [List.append_assoc]; rfl, by simp [Event.ofTextureLoad]⟩,
          rfl, rfl⟩

/-- A sequence of loads that runs to the end adds only calls of a texture load
to the trace, and leaves the shader handle and the material table as they
were. -/
theorem loadAll_trace (reqs : List LoadRequest) :
    ∀ s s1 : SceneManager F, loadAll s reqs = Except.ok s1 →
      (∃ added, s1.trace = s.trace ++ added ∧ ∀ e ∈ added, e.ofTextureLoad = true) ∧
      s1.m_pShaderManager = s.m_pShaderManager ∧
      s1.m_objectMaterials = s.m_objectMaterials := by
  induction reqs with
  | nil =>
    intro s s1 h
    simp only [loadAll, Except.ok.injEq] at h
    subst h
    exact ⟨⟨[], by simp, by simp⟩, rfl, rfl⟩
  | cons r rest ih =>
    intro s s1 h
    simp only [loadAll] at h
    cases hc : CreateGLTexture s r.filename r.tag r.image r.newID with
    | error f =>
      rw [hc] at h
      exact absurd h (by simp [bind, Except.bind])
    | ok out =>
      rw [hc, Except_ok_bind] at h
      obtain ⟨⟨a1, ht1, ha1⟩, hs1, hm1⟩ :=
        CreateGLTexture_trace s r.filename r.tag r.image r.newID out.1 out.2 hc
      obtain ⟨⟨a2, ht2, ha2⟩, hs2, hm2⟩ := ih out.2 s1 h
      refine ⟨⟨a1 ++ a2, by rw [ht2, ht1, List.append_assoc], ?_⟩, by rw [hs2, hs1],
        by rw [hm2, hm1]⟩
      intro e he
      rcases List.mem_append.mp he with h1 | h2
      · exact ha1 e h1
      · exact ha2 e h2

/-- Adding the events of a list one at a time adds the list. -/
theorem foldl_append_singleton {α : Type} (l : List α) :
    ∀ t : List α, l.foldl (fun t e => t ++ [e]) t = t ++ l := by
  induction l with
  | nil => intro t; simp
  | cons e rest ih =>
    intro t
    rw [List.foldl_cons, ih, List.append_assoc]
    rfl

/-- With the shader set, `SetupSceneLights` returns after its twenty uniform
writes. -/
theorem SetupSceneLights_ok [Field F] (s : SceneManager F)
    (hshader : s.m_pShaderManager = true) :
    SetupSceneLights s = Except.ok
      { s with trace := s.trace ++ SetupSceneLights.events } := by
  obtain ⟨sh, ids, n, mats, t⟩ := s
  simp only at hshader
  subst hshader
  rw [← foldl_append_singleton]
  rfl

/-! ## Scene setup: claims -/

/-- C18. With the shader set and room in the slot array for the valid ones of
its twelve texture loads, `PrepareScene` returns, and what it did is, in this
order: the five mesh loads plane, sphere, cylinder, torus, box; the twelve
`CreateGLTexture` calls of `LoadSceneTextures`, which add only calls of a
texture load to the trace; one run of `BindGLTextures` on the registry the last
load left; the seven materials appended to the material table; and the light
uniforms, the last of which sets `bUseLighting` to true. And on every registry
whose count lies within the array, `BindGLTextures` returns after two calls per
registered entry: for each `i` below the count, it selects texture unit `i` and
then binds the identifier of entry `i`. -/
theorem PrepareScene_order [Field F] (s : SceneManager F) (images : Nat → Option Image)
    (newIDs : Nat → Nat) (hshader : s.m_pShaderManager = true)
    (hroom : s.m_loadedTextures
      + ((LoadSceneTextures.requests images newIDs).filter LoadRequest.valid).length
      ≤ s.m_textureIDs.length) :
    (∃ (s2 s3 s4 : SceneManager F) (loads : List (Event F)),
      loadAll { s with trace := s.trace ++ PrepareScene.meshLoads }
        (LoadSceneTextures.requests images newIDs) = Except.ok s2 ∧
      s2.trace = s.trace ++ PrepareScene.meshLoads ++ loads ∧
      (∀ e ∈ loads, e.ofTextureLoad = true) ∧
      BindGLTextures s2 = Except.ok s3 ∧
      s3.trace = s2.trace ++ bindEvents (s2.m_textureIDs.take s2.m_loadedTextures) 0 ∧
      SetupSceneLights (DefineObjectMaterials s3) = Except.ok s4 ∧
      PrepareScene s images newIDs = Except.ok s4 ∧
      s4.m_textureIDs = s2.m_textureIDs ∧
      s4.m_loadedTextures = s2.m_loadedTextures ∧
      s4.m_objectMaterials = s.m_objectMaterials ++ DefineObjectMaterials.materials ∧
      s4.trace = s.trace ++ PrepareScene.meshLoads ++ loads
        ++ bindEvents (s2.m_textureIDs.take s2.m_loadedTextures) 0
        ++ SetupSceneLights.events ∧
      (SetupSceneLights.events : List (Event F)).getLast?
        = some (Event.uniform "bUseLighting" (UniformValue.bool true))) ∧
    (LoadSceneTextures.requests images newIDs).map LoadRequest.tag
      = ["globe_base", "blackwood", "globe", "rubiks", "floor", "wall", "silver", "earth",
         "booksides", "bookspines", "bookstop", "booksback"] ∧
    (∀ r : SceneManager F, r.m_loadedTextures ≤ r.m_textureIDs.length →
      ∃ binds : List (Event F),
        BindGLTextures r = Except.ok { r with trace := r.trace ++ binds } ∧
        binds.length = 2 * r.m_loadedTextures ∧
        ∀ i, i < r.m_loadedTextures →
          ∃ entry, r.m_textureIDs[i]? = some entry ∧
            binds[2 * i]? = some (Event.glActiveTexture i) ∧
            binds[2 * i + 1]? = some (Event.glBindTexture entry.ID)) := by
  refine ⟨?_, rfl, ?_⟩
  · have hprep : PrepareScene s images newIDs
        = (LoadSceneTextures { s with trace := s.trace ++ PrepareScene.meshLoads } images newIDs
            >>= fun s3 => SetupSceneLights (DefineObjectMaterials s3)) := by
      unfold PrepareScene
      simp only [SceneManager.LoadMesh]
      simp only [bind, Except.bind]
      simp only [PrepareScene.meshLoads, List.append_assoc, List.singleton_append,
        List.cons_append, List.nil_append]
    obtain ⟨s2, h2, hn2, hlen2, _, _, _⟩ :=
      loadAll_within_capacity (LoadSceneTextures.requests images newIDs)
        { s with trace := s.trace ++ PrepareScene.meshLoads } hroom
    obtain ⟨⟨loads, ht2, hloads⟩, hsh2, hm2⟩ := loadAll_trace _ _ s2 h2
    have hfit : s2.m_loadedTextures ≤ s2.m_textureIDs.length := by
      rw [hn2, hlen2]
      exact hroom
    have h3 := BindGLTextures_ok s2 hfit
    have h4 := SetupSceneLights_ok
      (DefineObjectMaterials
        { s2 with
          trace := s2.trace ++ bindEvents (s2.m_textureIDs.take s2.m_loadedTextures) 0 })
      (by rw [← hshader, ← hsh2]; rfl)
    refine ⟨s2, _, _, loads, h2, ht2, hloads, h3, rfl, h4, ?_, rfl, rfl, ?_, ?_, rfl⟩
    · rw [hprep, LoadSceneTextures_eq_loadAll, h2]
      simp only [bind, Except.bind, h3]
      exact h4
    · show s2.m_objectMaterials ++ DefineObjectMaterials.materials = _
      rw [hm2]
    · show s2.trace ++ _ ++ _ = _
      rw [ht2]
  · intro r hr
    obtain ⟨hlen, hget⟩ :=
      @bindEvents_getElem F (r.m_textureIDs.take r.m_loadedTextures) 0
    refine ⟨_, BindGLTextures_ok r hr, ?_, ?_⟩
    · rw [hlen, List.length_take, Nat.min_eq_left hr]
    · intro i hi
      have hlt : i < r.m_textureIDs.length := Nat.lt_of_lt_of_le hi hr
      have htake : (r.m_textureIDs.take r.m_loadedTextures)[i]? = some r.m_textureIDs[i] := by
        rw [List.getElem?_take, if_pos hi, List.getElem?_eq_getElem hlt]
      obtain ⟨g1, g2⟩ := hget i _ htake
      rw [Nat.zero_add] at g1
      exact ⟨_, List.getElem?_eq_getElem hlt, g1, g2⟩

/-- C18 (witness). From the empty registry, with every texture file decoding to
a 3-channel image and the identifiers 1 to 12, `PrepareScene` returns with
twelve registered textures and the seven materials; its trace starts with the
five mesh loads and ends, after the loads and the binds of units 0 to 11, with
the light uniforms. -/
theorem PrepareScene_order_witness :
    ∃ (s2 s4 : SceneManager ℚ) (loads : List (Event ℚ)),
      PrepareScene (sceneEmpty ℚ) imagesAllRGB idsFromOne = Except.ok s4 ∧
      s4.m_textureIDs = s2.m_textureIDs ∧
      s4.m_loadedTextures = s2.m_loadedTextures ∧
      s4.m_objectMaterials = DefineObjectMaterials.materials ∧
      s4.trace = PrepareScene.meshLoads ++ loads
        ++ bindEvents (s2.m_textureIDs.take s2.m_loadedTextures) 0
        ++ SetupSceneLights.events := by
  obtain ⟨⟨s2, _, s4, loads, _, _, _, _, _, _, h7, h8, h9, h10, h11, _⟩, _, _⟩ :=
    PrepareScene_order (sceneEmpty ℚ) imagesAllRGB idsFromOne rfl (by decide)
  exact ⟨s2, s4, loads, h7, h8, h9, h10, h11⟩

/-! ## Texture registry: the destruction routine -/

/-- Two slot arrays that hold the same tags give the slot loop the same
result. -/
theorem FindTextureSlot_loop_tags (ids1 ids2 : List TEXTURE_INFO) (n : Nat) (tag : String)
    (htags : ∀ j : Nat, (ids1[j]?).map TEXTURE_INFO.tag = (ids2[j]?).map TEXTURE_INFO.tag)
    (k : Nat) :
    ∀ (index : Nat) (textureSlot : Int) (reads : List Nat),
      n - index = k →
      FindTextureSlot.loop ids1 n tag index false textureSlot reads
        = FindTextureSlot.loop ids2 n tag index false textureSlot reads := by
  induction k with
  | zero =>
    intro index textureSlot reads hk
    have hnot : ¬ index < n := by omega
    conv_lhs => rw [FindTextureSlot.loop]
    conv_rhs => rw [FindTextureSlot.loop]
    simp [hnot]
  | succ k ih =>
    intro index textureSlot reads hk
    have hlt : index < n := by omega
    have ht := htags index
    conv_lhs => rw [FindTextureSlot.loop]
    conv_rhs => rw [FindTextureSlot.loop]
    simp only [hlt, and_self, dite_true]
    cases h1 : ids1[index]? with
    | none =>
      cases h2 : ids2[index]? with
      | none => rfl
      | some e2 =>
        rw [h1, h2] at ht
        exact absurd ht (by simp)
    | some e1 =>
      cases h2 : ids2[index]? with
      | none =>
        rw [h1, h2] at ht
        exact absurd ht (by simp)
      | some e2 =>
        rw [h1, h2] at ht
        have htag : e1.tag = e2.tag := by simpa using ht
        simp only [htag]
        by_cases hm : e2.tag = tag
        · rw [if_pos hm, if_pos hm, FindTextureSlot_loop_found, FindTextureSlot_loop_found]
        · rw [if_neg hm, if_neg hm]
          exact ih (index + 1) textureSlot (reads ++ [index]) (by omega)

/-- From the loop variable `i` on, on a registry whose count does not exceed the
array, the `DestroyGLTextures` loop returns after one `glGenTextures` call per
remaining registered entry; each of these entries keeps its tag and gets the
identifier of its call, and the other slots are as they were. -/
theorem DestroyGLTextures_loop_ok (n : Nat) (newIDs : Nat → Nat) (k : Nat) :
    ∀ (i : Nat) (ids : List TEXTURE_INFO) (trace : List (Event F)),
      n - i = k → i ≤ n → n ≤ ids.length →
      ∃ ids1,
        DestroyGLTextures.loop n newIDs i ids trace
          = Except.ok (ids1,
              trace ++ (List.range' i k).map (fun j => Event.glGenTextures (newIDs j))) ∧
        ids1.length = ids.length ∧
        (∀ j, i ≤ j → j < n →
          ∃ e, ids[j]? = some e ∧ ids1[j]? = some { tag := e.tag, ID := newIDs j }) ∧
        (∀ j, j < i ∨ n ≤ j → ids1[j]? = ids[j]?) := by
  induction k with
  | zero =>
    intro i ids trace hk hi hn
    refine ⟨ids, ?_, rfl, ?_, fun _ _ => rfl⟩
    · rw [DestroyGLTextures.loop, if_neg (by omega)]
      simp
    · intro j h1 h2
      omega
  | succ k ih =>
    intro i ids trace hk hi hn
    have hlt : i < n := by omega
    have hlen : i < ids.length := by omega
    obtain ⟨ids1, h1, hlen1, hmid, hout⟩ :=
      ih (i + 1) (ids.set i { ids[i] with ID := newIDs i })
        (trace ++ [Event.glGenTextures (newIDs i)]) (by omega) (by omega)
        (by rw [List.length_set]; exact hn)
    refine ⟨ids1, ?_, by rw [hlen1, List.length_set], ?_, ?_⟩
    · rw [DestroyGLTextures.loop, if_pos hlt, List.getElem?_eq_getElem hlen]
      simp only
      rw [h1, List.range'_succ, List.map_cons, List.append_assoc]
      rfl
    · intro j hj1 hj2
      by_cases hji : j = i
      · subst hji
        refine ⟨ids[j], List.getElem?_eq_getElem hlen, ?_⟩
        rw [hout j (Or.inl (Nat.lt_succ_self j)), List.getElem?_set_self hlen]
      · obtain ⟨e, he, he1⟩ := hmid j (by omega) hj2
        rw [List.getElem?_set_ne (by omega)] at he
        exact ⟨e, he, he1⟩
    · intro j hj
      rw [hout j (by omega)]
      exact List.getElem?_set_ne (by omega)

/-- C21. On a registry whose count `n` does not exceed the slot array,
`DestroyGLTextures` returns after exactly `n` calls, all of them `glGenTextures`
calls, one per registered entry in slot order; entry `i` keeps its tag and gets
the identifier the call of pass `i` produced; the count, the array length and
the slots from `n` on are unchanged; and `FindTextureSlot` returns for every
tag what it returned before. -/
theorem DestroyGLTextures_regenerates (s : SceneManager F) (newIDs : Nat → Nat)
    (hn : s.m_loadedTextures ≤ s.m_textureIDs.length) :
    ∃ s1, DestroyGLTextures s newIDs = Except.ok s1 ∧
      s1.trace = s.trace
        ++ (List.range s.m_loadedTextures).map (fun i => Event.glGenTextures (newIDs i)) ∧
      s1.m_loadedTextures = s.m_loadedTextures ∧
      s1.m_textureIDs.length = s.m_textureIDs.length ∧
      (∀ i, i < s.m_loadedTextures →
        ∃ e, s.m_textureIDs[i]? = some e ∧
          s1.m_textureIDs[i]? = some { tag := e.tag, ID := newIDs i }) ∧
      (∀ i, s.m_loadedTextures ≤ i → s1.m_textureIDs[i]? = s.m_textureIDs[i]?) ∧
      (∀ i : Nat, (s1.m_textureIDs[i]?).map TEXTURE_INFO.tag
        = (s.m_textureIDs[i]?).map TEXTURE_INFO.tag) ∧
      s1.m_pShaderManager = s.m_pShaderManager ∧
      s1.m_objectMaterials = s.m_objectMaterials ∧
      ∀ tag, FindTextureSlot s1 tag = FindTextureSlot s tag := by
  obtain ⟨ids1, h1, hlen1, hmid, hout⟩ :=
    DestroyGLTextures_loop_ok s.m_loadedTextures newIDs _ 0 s.m_textureIDs s.trace rfl
      (Nat.zero_le _) hn
  have htags : ∀ i : Nat, (ids1[i]?).map TEXTURE_INFO.tag
      = (s.m_textureIDs[i]?).map TEXTURE_INFO.tag := by
    intro i
    by_cases hi : i < s.m_loadedTextures
    · obtain ⟨e, he, he1⟩ := hmid i (Nat.zero_le _) hi
      rw [he, he1]
      rfl
    · rw [hout i (Or.inr (by omega))]
  refine ⟨{ s with
      m_textureIDs := ids1
      trace := s.trace
        ++ (List.range s.m_loadedTextures).map (fun i => Event.glGenTextures (newIDs i)) },
    ?_, rfl, rfl, hlen1, fun i hi => hmid i (Nat.zero_le _) hi,
    fun i hi => hout i (Or.inr hi), htags, rfl, rfl, ?_⟩
  · unfold DestroyGLTextures
    rw [h1, List.range_eq_range', Nat.sub_zero]
    rfl
  · intro tag
    unfold FindTextureSlot
    rw [FindTextureSlot_loop_tags ids1 s.m_textureIDs s.m_loadedTextures tag htags _ 0 (-1) []
      rfl]

/-- C21 (witness). On the prepared scene, with twelve registered textures, the
routine issues twelve `glGenTextures` calls; "wall", registered in slot 5 with
identifier 6, is then registered in slot 5 with identifier 105, and its slot
lookup still returns 5. -/
theorem DestroyGLTextures_regenerates_witness :
    ∃ s1, DestroyGLTextures (scenePrepared ℚ) idsFromHundred = Except.ok s1 ∧
      s1.trace = (List.range 12).map (fun i => Event.glGenTextures (idsFromHundred i)) ∧
      s1.m_loadedTextures = 12 ∧
      s1.m_textureIDs[5]? = some { tag := "wall", ID := 105 } ∧
      FindTextureSlot s1 "wall" = FindTextureSlot (scenePrepared ℚ) "wall" := by
  obtain ⟨s1, h1, h2, h3, _, h5, _, _, _, _, h10⟩ :=
    DestroyGLTextures_regenerates (scenePrepared ℚ) idsFromHundred (by decide)
  obtain ⟨e, he, he1⟩ := h5 5 (by decide)
  have hwall : e = { tag := "wall", ID := 6 } := by
    have h : (scenePrepared ℚ).m_textureIDs[5]? = some { tag := "wall", ID := 6 } := rfl
    rw [h] at he
    exact (Option.some.inj he).symm
  subst hwall
  exact ⟨s1, h1, h2, h3, he1, h10 "wall"⟩

/-! ## Texture registry: the unsupported channel count -/

/-- C22 (the code at the failing inputs). For a decoded image whose channel
count is neither 3 nor 4, `CreateGLTexture` returns `false` after it has called
`glGenTextures`, bound the new texture and set its four parameters: a texture
object has been created, and the path ends without `stbi_image_free` and
without unbinding the texture. -/
theorem CreateGLTexture_unsupported_generates (s : SceneManager F) (filename tag : String)
    (img : Image) (newID : Nat)
    (h3 : img.colorChannels ≠ 3) (h4 : img.colorChannels ≠ 4) :
    CreateGLTexture s filename tag (some img) newID = Except.ok
      (false,
        { s with
          trace := s.trace ++
            [Event.stbiSetFlip true,
             Event.glGenTextures newID,
             Event.glBindTexture newID,
             Event.glTexParameteri "GL_TEXTURE_WRAP_S" "GL_REPEAT",
             Event.glTexParameteri "GL_TEXTURE_WRAP_T" "GL_REPEAT",
             Event.glTexParameteri "GL_TEXTURE_MIN_FILTER" "GL_LINEAR",
             Event.glTexParameteri "GL_TEXTURE_MAG_FILTER" "GL_LINEAR"] }) := by
  simp only [CreateGLTexture, if_neg h3, if_neg h4, List.append_assoc, List.singleton_append]

/-- C22 (witness). Loading a one-channel image into the empty registry returns
`false` with a trace that holds the call `glGenTextures` for the identifier
8. -/
theorem CreateGLTexture_unsupported_generates_witness :
    ∃ s1, CreateGLTexture (sceneEmpty ℚ) "Textures/gray.png" "gray" (some imageGray) 8
        = Except.ok (false, s1) ∧
      Event.glGenTextures 8 ∈ s1.trace ∧
      s1.m_loadedTextures = 0 :=
  ⟨_, CreateGLTexture_unsupported_generates (sceneEmpty ℚ) "Textures/gray.png" "gray"
      imageGray 8 (by decide) (by decide),
    by simp [sceneEmpty], rfl⟩

/-! ## Scene setup: the light uniforms -/

/-- The names written in the events of a list of calls are among those of the
kinds of the calls, whatever the material table holds. -/
theorem uniformNames_callsEvents_sub [Field F] (ops : glm.FloatOps F)
    (uninit : Nat → OBJECT_MATERIAL F) (s : SceneManager F) (cs : List (Call F)) :
    ∀ name ∈ uniformNames (callsEvents ops uninit s cs), name ∈ kindsWrites (cs.map Call.kind) := by
  by_cases hne : s.m_objectMaterials.length = 0
  · induction cs with
    | nil =>
      intro name h
      exact h
    | cons c cs ih =>
      intro name h
      rw [callsEvents, uniformNames_append] at h
      rw [List.map_cons, kindsWrites]
      rcases List.mem_append.mp h with h1 | h2
      · apply List.mem_append_left
        cases c <;>
          simp [Call.events, uniformNames, uniformWrites, hne] at h1 <;>
          simp [Call.kind, CallKind.writes, h1]
      · exact List.mem_append_right _ (ih name h2)
  · intro name h
    rw [uniformNames_callsEvents ops uninit s hne cs] at h
    exact h

/-- Every uniform a call of `RenderScene` writes is one of the ten names of
`RenderScene.uniforms`. -/
theorem RenderScene_kinds_uniforms :
    ∀ name ∈ kindsWrites RenderScene.kinds, name ∈ RenderScene.uniforms := by
  have h : (kindsWrites RenderScene.kinds).all (fun name => decide (name ∈ RenderScene.uniforms))
      = true := by decide
  intro name hname
  have := List.all_eq_true.mp h name hname
  simpa using this

/-- None of the ten names of `RenderScene.uniforms` is a light uniform. -/
theorem RenderScene_uniforms_not_light :
    ∀ name ∈ RenderScene.uniforms, isLightSourceName name = false ∧ name ≠ "bUseLighting" := by
  decide

/-- C23 (counterexample). With the shader set, `SetupSceneLights` also writes
the uniform "lightSources[2].direction", which is a `lightSources` uniform and
is none of the six uniforms per light that the specification lists. -/
theorem SetupSceneLights_direction_counterexample :
    ∃ s1, SetupSceneLights (sceneShaderOnly ℚ) = Except.ok s1 ∧
      "lightSources[2].direction" ∈ uniformNames s1.trace ∧
      isLightSourceName "lightSources[2].direction" = true ∧
      "lightSources[2].direction" ∉ Spec.lightSourceUniforms := by
  refine ⟨_, SetupSceneLights_ok (sceneShaderOnly ℚ) rfl, ?_, by decide, by decide⟩
  show "lightSources[2].direction"
    ∈ uniformNames ([] ++ (SetupSceneLights.events : List (Event ℚ)))
  rw [List.nil_append]
  have h : uniformNames (SetupSceneLights.events : List (Event ℚ))
      = Spec.lightSourceUniforms.take 16 ++ ["lightSources[2].direction"]
        ++ Spec.lightSourceUniforms.drop 16 ++ ["bUseLighting"] := rfl
  rw [h]
  decide

/-- C23 (amended). With the shader set, `SetupSceneLights` returns after twenty
uniform writes with pairwise different names: the six uniforms position,
ambientColor, diffuseColor, specularColor, focalStrength and specularIntensity
of each of the three lights, with "lightSources[2].direction" between the
specularColor and the focalStrength of the third light, and last "bUseLighting",
set to true. With the registry count within the slot array, `RenderScene`
returns and every uniform it writes is one of the ten names of
`RenderScene.uniforms`: it writes no `lightSources` uniform and not
"bUseLighting". -/
theorem SetupSceneLights_writes [Field F] (ops : glm.FloatOps F) (s : SceneManager F)
    (hshader : s.m_pShaderManager = true)
    (hn : s.m_loadedTextures ≤ s.m_textureIDs.length) :
    SetupSceneLights s
      = Except.ok { s with trace := s.trace ++ SetupSceneLights.events } ∧
    (SetupSceneLights.events : List (Event F)).length = 20 ∧
    uniformNames (SetupSceneLights.events : List (Event F))
      = Spec.lightSourceUniforms.take 16 ++ ["lightSources[2].direction"]
        ++ Spec.lightSourceUniforms.drop 16 ++ ["bUseLighting"] ∧
    (uniformNames (SetupSceneLights.events : List (Event F))).Nodup ∧
    (SetupSceneLights.events : List (Event F)).getLast?
      = some (Event.uniform "bUseLighting" (UniformValue.bool true)) ∧
    ∀ uninit : Nat → OBJECT_MATERIAL F,
      ∃ added, RenderScene ops s uninit = Except.ok { s with trace := s.trace ++ added } ∧
        ∀ name ∈ uniformNames added,
          name ∈ RenderScene.uniforms ∧ isLightSourceName name = false ∧
          name ≠ "bUseLighting" := by
  have hnames : uniformNames (SetupSceneLights.events : List (Event F))
      = Spec.lightSourceUniforms.take 16 ++ ["lightSources[2].direction"]
        ++ Spec.lightSourceUniforms.drop 16 ++ ["bUseLighting"] := rfl
  refine ⟨SetupSceneLights_ok s hshader, rfl, hnames, ?_, rfl, ?_⟩
  · rw [hnames]
    decide
  · intro uninit
    refine ⟨_, RenderScene_ok ops uninit s hshader hn, ?_⟩
    intro name hname
    have h1 := uniformNames_callsEvents_sub ops uninit s RenderScene.calls name hname
    rw [RenderScene_calls_kinds] at h1
    have h2 := RenderScene_kinds_uniforms name h1
    exact ⟨h2, RenderScene_uniforms_not_light name h2⟩

/-- C23 (witness). On the prepared scene, over the reals, the light setup
appends its twenty writes and a render pass writes no light uniform. -/
theorem SetupSceneLights_writes_witness :
    SetupSceneLights (scenePrepared ℝ)
      = Except.ok { scenePrepared ℝ with trace := [] ++ SetupSceneLights.events } ∧
    ∃ added,
      RenderScene { cos := Real.cos, sin := Real.sin, sqrt := Real.sqrt, pi := Real.pi }
        (scenePrepared ℝ) (fun _ => zeroMaterial ℝ)
        = Except.ok { scenePrepared ℝ with trace := [] ++ added } ∧
      ∀ name ∈ uniformNames added, isLightSourceName name = false ∧ name ≠ "bUseLighting" := by
  obtain ⟨h1, _, _, _, _, h6⟩ := SetupSceneLights_writes
    { cos := Real.cos, sin := Real.sin, sqrt := Real.sqrt, pi := Real.pi }
    (scenePrepared ℝ) rfl (by decide)
  obtain ⟨added, h7, h8⟩ := h6 (fun _ => zeroMaterial ℝ)
  exact ⟨h1, added, h7, fun name hname => (h8 name hname).2⟩

/-! ## Scene setup: the textures of the scene -/

/-- On a registry whose first slots hold the tags of a list, in order, the slot
lookup of a tag of the list returns a position at which the list has the
tag. -/
theorem FindTextureSlot_of_tags (s : SceneManager F) (tags : List String)
    (hn : s.m_loadedTextures ≤ s.m_textureIDs.length)
    (hlen : tags.length ≤ s.m_loadedTextures)
    (htags : ∀ (k : Nat) (t : String), tags[k]? = some t →
      ∃ e, s.m_textureIDs[k]? = some e ∧ e.tag = t)
    (tag : String) (hmem : tag ∈ tags) :
    ∃ k : Nat, k < tags.length ∧ tags[k]? = some tag ∧
      FindTextureSlot s tag = Except.ok (k : Int) := by
  obtain ⟨k0, hk0⟩ := List.getElem?_of_mem hmem
  obtain ⟨i, hi, hmin⟩ := exists_first_index (fun i => tags[i]? = some tag) ⟨k0, hk0⟩
  have hlt : i < tags.length := (List.getElem?_eq_some.mp hi).1
  obtain ⟨e, he, hetag⟩ := htags i tag hi
  refine ⟨i, hlt, hi, (lookup_first s tag hn i (by omega) e he hetag ?_).1⟩
  intro j hj e1 he1 hc
  have hjlt : j < tags.length := by omega
  obtain ⟨e2, he2, he2tag⟩ := htags j tags[j] (List.getElem?_eq_getElem hjlt)
  rw [he1] at he2
  have he12 : e1 = e2 := Option.some.inj he2
  apply hmin j hj
  show tags[j]? = some tag
  rw [List.getElem?_eq_getElem hjlt, ← he2tag, ← he12, hc]

/-- Every tag that `RenderScene` passes to `SetShaderTexture` is the tag of one
of the twelve loads of `LoadSceneTextures`. -/
theorem RenderScene_texture_tags_loaded :
    ∀ tag ∈ kindsTextureTags RenderScene.kinds,
      tag ∈ ["globe_base", "blackwood", "globe", "rubiks", "floor", "wall", "silver", "earth",
        "booksides", "bookspines", "bookstop", "booksback"] := by
  have h : (kindsTextureTags RenderScene.kinds).all
      (fun tag => decide (tag ∈ ["globe_base", "blackwood", "globe", "rubiks", "floor", "wall",
        "silver", "earth", "booksides", "bookspines", "bookstop", "booksback"])) = true := by
    decide
  intro tag htag
  have := List.all_eq_true.mp h tag htag
  simpa using this

/-- C24. `LoadSceneTextures` makes twelve `CreateGLTexture` calls, with pairwise
different tags. From an empty registry of capacity 16 it returns, whatever the
image loader and `glGenTextures` deliver, with as many registered textures as
loads were valid, at most 12. When all twelve loads are valid the count is 12
and, for every tag that `RenderScene` passes to `SetShaderTexture`,
`FindTextureSlot` returns the position in 0..11 of the load with that tag, not
-1. -/
theorem LoadSceneTextures_fits_and_resolves (s : SceneManager F)
    (images : Nat → Option Image) (newIDs : Nat → Nat)
    (hempty : s.m_loadedTextures = 0) (hcap : s.m_textureIDs.length = MAX_TEXTURES) :
    (LoadSceneTextures.requests images newIDs).length = 12 ∧
    ((LoadSceneTextures.requests images newIDs).map LoadRequest.tag).Nodup ∧
    ∃ s1, LoadSceneTextures s images newIDs = Except.ok s1 ∧
      s1.m_loadedTextures
        = ((LoadSceneTextures.requests images newIDs).filter LoadRequest.valid).length ∧
      s1.m_loadedTextures ≤ 12 ∧
      s1.m_textureIDs.length = 16 ∧
      ((∀ r ∈ LoadSceneTextures.requests images newIDs, r.valid = true) →
        s1.m_loadedTextures = 12 ∧
        ∀ tag ∈ kindsTextureTags RenderScene.kinds,
          ∃ k : Nat, k < 12 ∧
            ((LoadSceneTextures.requests images newIDs).map LoadRequest.tag)[k]? = some tag ∧
            FindTextureSlot s1 tag = Except.ok (k : Int) ∧
            FindTextureSlot s1 tag ≠ Except.ok (-1)) := by
  have htagsEq : (LoadSceneTextures.requests images newIDs).map LoadRequest.tag
      = ["globe_base", "blackwood", "globe", "rubiks", "floor", "wall", "silver", "earth",
         "booksides", "bookspines", "bookstop", "booksback"] := rfl
  have hlen12 : (LoadSceneTextures.requests images newIDs).length = 12 := rfl
  have hle : ((LoadSceneTextures.requests images newIDs).filter LoadRequest.valid).length
      ≤ 12 := by
    rw [← hlen12]
    exact List.length_filter_le _ _
  have hcap16 : s.m_textureIDs.length = 16 := hcap
  obtain ⟨s2, h2, hn2, hlen2, _, hmid, _⟩ :=
    loadAll_within_capacity (LoadSceneTextures.requests images newIDs) s
      (by rw [hempty, hcap16]; omega)
  rw [hempty, Nat.zero_add] at hn2
  have hfit : s2.m_loadedTextures ≤ s2.m_textureIDs.length := by
    rw [hn2, hlen2, hcap16]
    omega
  have h3 := BindGLTextures_ok s2 hfit
  refine ⟨hlen12, ?_,
    { s2 with trace := s2.trace ++ bindEvents (s2.m_textureIDs.take s2.m_loadedTextures) 0 },
    ?_, hn2, ?_, ?_, ?_⟩
  · rw [htagsEq]
    decide
  · rw [LoadSceneTextures_eq_loadAll, h2, Except_ok_bind]
    exact h3
  · show s2.m_loadedTextures ≤ 12
    rw [hn2]
    exact hle
  · show s2.m_textureIDs.length = 16
    rw [hlen2, hcap16]
  · intro hall
    have hfilter : (LoadSceneTextures.requests images newIDs).filter LoadRequest.valid
        = LoadSceneTextures.requests images newIDs :=
      List.filter_eq_self.mpr hall
    rw [hfilter] at hmid hn2
    have hcount : s2.m_loadedTextures = 12 := by rw [hn2, hlen12]
    refine ⟨hcount, ?_⟩
    intro tag htag
    have hmem : tag ∈ (LoadSceneTextures.requests images newIDs).map LoadRequest.tag := by
      rw [htagsEq]
      exact RenderScene_texture_tags_loaded tag htag
    have hslots : ∀ (j : Nat) (t : String),
        ((LoadSceneTextures.requests images newIDs).map LoadRequest.tag)[j]? = some t →
        ∃ e, s2.m_textureIDs[j]? = some e ∧ e.tag = t := by
      intro j t hj
      rw [List.getElem?_map] at hj
      obtain ⟨r, hr, hrt⟩ := Option.map_eq_some'.mp hj
      have hslot := hmid j r hr
      rw [hempty, Nat.zero_add] at hslot
      exact ⟨r.entry, hslot, hrt⟩
    obtain ⟨k, hk, hkt, hfind⟩ := FindTextureSlot_of_tags s2
      ((LoadSceneTextures.requests images newIDs).map LoadRequest.tag) hfit
      (by rw [List.length_map, hlen12, hcount]) hslots tag hmem
    rw [List.length_map, hlen12] at hk
    have hfind2 : FindTextureSlot
        { s2 with
          trace := s2.trace ++ bindEvents (s2.m_textureIDs.take s2.m_loadedTextures) 0 } tag
        = Except.ok (k : Int) := hfind
    refine ⟨k, hk, hkt, hfind2, ?_⟩
    rw [hfind2]
    intro hc
    have hk1 : (k : Int) = -1 := Except.ok.inj hc
    omega

/-- C24 (witness). From the empty registry, when every file decodes to a
3-channel image the twelve loads register twelve textures and "booksback", the
last load, resolves to slot 11; when the second and the fourth load fail, ten
textures are registered. -/
theorem LoadSceneTextures_fits_and_resolves_witness :
    (∃ s1, LoadSceneTextures (sceneEmpty ℚ) imagesAllRGB idsFromOne = Except.ok s1 ∧
      s1.m_loadedTextures = 12 ∧
      FindTextureSlot s1 "booksback" = Except.ok 11) ∧
    (∃ s1, LoadSceneTextures (sceneEmpty ℚ) imagesTwoBad idsFromOne = Except.ok s1 ∧
      s1.m_loadedTextures = 10) := by
  constructor
  · obtain ⟨_, _, s1, h1, _, _, _, h5⟩ :=
      LoadSceneTextures_fits_and_resolves (sceneEmpty ℚ) imagesAllRGB idsFromOne rfl rfl
    obtain ⟨h6, h7⟩ := h5 (by decide)
    obtain ⟨k, hk, hkt, hfind, _⟩ := h7 "booksback" (by decide)
    have hk11 : k = 11 := by
      interval_cases k <;> first | rfl | exact absurd hkt (by decide)
    subst hk11
    exact ⟨s1, h1, h6, hfind⟩
  · obtain ⟨_, _, s1, h1, h2, _⟩ :=
      LoadSceneTextures_fits_and_resolves (sceneEmpty ℚ) imagesTwoBad idsFromOne rfl rfl
    exact ⟨s1, h1, by rw [h2]; decide⟩

/-! ## Scene setup: the materials of the scene -/

/-- With the shader set and some entry of the material table carrying the tag,
`SetShaderMaterial` returns after writing the five fields of an entry that
carries the tag. -/
theorem SetShaderMaterial_resolved (s : SceneManager F) (tag : String)
    (uninit : OBJECT_MATERIAL F) (hshader : s.m_pShaderManager = true)
    (hex : ∃ e ∈ s.m_objectMaterials, e.tag = tag) :
    ∃ m ∈ s.m_objectMaterials, m.tag = tag ∧
      SetShaderMaterial s tag uninit = Except.ok
        { s with
          trace := s.trace ++
            [Event.uniform "material.ambientColor" (UniformValue.vec3 m.ambientColor),
             Event.uniform "material.ambientStrength" (UniformValue.float m.ambientStrength),
             Event.uniform "material.diffuseColor" (UniformValue.vec3 m.diffuseColor),
             Event.uniform "material.specularColor" (UniformValue.vec3 m.specularColor),
             Event.uniform "material.shininess" (UniformValue.float m.shininess)] } := by
  obtain ⟨e, hmem, htag⟩ := hex
  obtain ⟨⟨k, hk⟩, hget⟩ := List.get_of_mem hmem
  obtain ⟨i, ⟨hi, hmatch⟩, hmin⟩ := exists_first_index
    (fun i => ∃ hi : i < s.m_objectMaterials.length,
      (s.m_objectMaterials.get ⟨i, hi⟩).tag = tag)
    ⟨k, hk, by rw [hget]; exact htag⟩
  have hfirst : ∀ j (hj : j < s.m_objectMaterials.length), j < i →
      (s.m_objectMaterials.get ⟨j, hj⟩).tag ≠ tag :=
    fun j hj hlt hc => hmin j hlt ⟨hj, hc⟩
  obtain ⟨_, h1, h2, h3, h4, h5, _⟩ :=
    FindMaterial_at_first_index s tag uninit i hi hmatch hfirst
  refine ⟨s.m_objectMaterials.get ⟨i, hi⟩, List.get_mem _ _ _, hmatch, ?_⟩
  rw [SetShaderMaterial_ok s tag uninit hshader (by omega), h1, h2, h3, h4, h5]

/-- Every tag that `RenderScene` passes to `SetShaderMaterial` is the tag of one
of the seven materials of `DefineObjectMaterials`. -/
theorem RenderScene_material_tags_defined :
    ∀ tag ∈ kindsMaterialTags RenderScene.kinds,
      tag ∈ ["wood", "blackwood", "glass", "plastic", "shinyplastic", "wall", "metal"] := by
  have h : (kindsMaterialTags RenderScene.kinds).all
      (fun tag => decide (tag ∈ ["wood", "blackwood", "glass", "plastic", "shinyplastic",
        "wall", "metal"])) = true := by
    decide
  intro tag htag
  have := List.all_eq_true.mp h tag htag
  simpa using this

/-- `PrepareScene` is the five mesh loads, then `LoadSceneTextures`, then
`DefineObjectMaterials` and `SetupSceneLights`. -/
theorem PrepareScene_eq_stages [Field F] (s : SceneManager F) (images : Nat → Option Image)
    (newIDs : Nat → Nat) :
    PrepareScene s images newIDs
      = (LoadSceneTextures { s with trace := s.trace ++ PrepareScene.meshLoads } images newIDs
          >>= fun s3 => SetupSceneLights (DefineObjectMaterials s3)) := by
  unfold PrepareScene
  simp only [SceneManager.LoadMesh]
  simp only [bind, Except.bind]
  simp only [PrepareScene.meshLoads, List.append_assoc, List.singleton_append,
    List.cons_append, List.nil_append]

/-- With the shader handle unset, `SetupSceneLights` calls through the null
handle. -/
theorem SetupSceneLights_null [Field F] (s : SceneManager F)
    (hshader : s.m_pShaderManager = false) :
    SetupSceneLights s = Except.error Fault.nullDeref := by
  obtain ⟨sh, ids, n, mats, t⟩ := s
  simp only at hshader
  subst hshader
  rfl

/-- When `BindGLTextures` returns, only the trace has changed. -/
theorem BindGLTextures_fields (s s1 : SceneManager F) (h : BindGLTextures s = Except.ok s1) :
    s1.m_pShaderManager = s.m_pShaderManager ∧ s1.m_objectMaterials = s.m_objectMaterials ∧
    s1.m_textureIDs = s.m_textureIDs ∧ s1.m_loadedTextures = s.m_loadedTextures := by
  unfold BindGLTextures at h
  cases hl : BindGLTextures.loop s.m_textureIDs s.m_loadedTextures 0 s.trace with
  | error f =>
    rw [hl] at h
    exact absurd h (by simp [Except.map])
  | ok t =>
    rw [hl] at h
    simp only [Except.map, Except.ok.injEq] at h
    subst h
    exact ⟨rfl, rfl, rfl, rfl⟩

/-- When `PrepareScene` returns, the shader handle is set and the material
table is the earlier table followed by the seven materials of
`DefineObjectMaterials`. -/
theorem PrepareScene_state [Field F] (s s1 : SceneManager F) (images : Nat → Option Image)
    (newIDs : Nat → Nat) (h : PrepareScene s images newIDs = Except.ok s1) :
    s1.m_pShaderManager = true ∧
    s1.m_objectMaterials = s.m_objectMaterials ++ DefineObjectMaterials.materials := by
  rw [PrepareScene_eq_stages, LoadSceneTextures_eq_loadAll] at h
  cases hl : loadAll { s with trace := s.trace ++ PrepareScene.meshLoads }
      (LoadSceneTextures.requests images newIDs) with
  | error f =>
    rw [hl] at h
    exact absurd h (by simp [bind, Except.bind])
  | ok s2 =>
    rw [hl, Except_ok_bind] at h
    obtain ⟨_, hsh2, hm2⟩ := loadAll_trace _ _ s2 hl
    cases hb : BindGLTextures s2 with
    | error f =>
      rw [hb] at h
      exact absurd h (by simp [bind, Except.bind])
    | ok s3 =>
      rw [hb, Except_ok_bind] at h
      obtain ⟨hsh3, hm3, _, _⟩ := BindGLTextures_fields s2 s3 hb
      cases hshader : s3.m_pShaderManager with
      | false =>
        rw [SetupSceneLights_null (DefineObjectMaterials s3) hshader] at h
        exact absurd h (by simp)
      | true =>
        rw [SetupSceneLights_ok (DefineObjectMaterials s3) hshader] at h
        have hs1 := Except.ok.inj h
        subst hs1
        refine ⟨hshader, ?_⟩
        show s3.m_objectMaterials ++ DefineObjectMaterials.materials = _
        rw [hm3, hm2]

/-- C25. `DefineObjectMaterials` appends seven materials, with the pairwise
different tags wood, blackwood, glass, plastic, shinyplastic, wall and metal,
and every tag that `RenderScene` passes to `SetShaderMaterial` is one of them.
When `PrepareScene` returns from a state with an empty material table, the
shader is set and the table holds these seven materials; and on such a state
every `SetShaderMaterial` call of `RenderScene` returns after writing the five
fields of the one material of the seven that has its tag, whatever its
uninitialised local record held. -/
theorem RenderScene_materials_resolve [Field F] (s : SceneManager F)
    (hshader : s.m_pShaderManager = true)
    (htable : s.m_objectMaterials = DefineObjectMaterials.materials) :
    (∀ s0 : SceneManager F,
      (DefineObjectMaterials s0).m_objectMaterials
        = s0.m_objectMaterials ++ DefineObjectMaterials.materials) ∧
    (DefineObjectMaterials.materials : List (OBJECT_MATERIAL F)).map OBJECT_MATERIAL.tag
      = ["wood", "blackwood", "glass", "plastic", "shinyplastic", "wall", "metal"] ∧
    ((DefineObjectMaterials.materials : List (OBJECT_MATERIAL F)).map
      OBJECT_MATERIAL.tag).Nodup ∧
    (∀ tag ∈ kindsMaterialTags RenderScene.kinds,
      tag ∈ (DefineObjectMaterials.materials : List (OBJECT_MATERIAL F)).map
        OBJECT_MATERIAL.tag) ∧
    (∀ (s0 s1 : SceneManager F) (images : Nat → Option Image) (newIDs : Nat → Nat),
      s0.m_objectMaterials = [] → PrepareScene s0 images newIDs = Except.ok s1 →
      s1.m_pShaderManager = true ∧
      s1.m_objectMaterials = DefineObjectMaterials.materials) ∧
    ∀ tag ∈ kindsMaterialTags RenderScene.kinds, ∀ uninit : OBJECT_MATERIAL F,
      ∃ m ∈ (DefineObjectMaterials.materials : List (OBJECT_MATERIAL F)), m.tag = tag ∧
        SetShaderMaterial s tag uninit = Except.ok
          { s with
            trace := s.trace ++
              [Event.uniform "material.ambientColor" (UniformValue.vec3 m.ambientColor),
               Event.uniform "material.ambientStrength" (UniformValue.float m.ambientStrength),
               Event.uniform "material.diffuseColor" (UniformValue.vec3 m.diffuseColor),
               Event.uniform "material.specularColor" (UniformValue.vec3 m.specularColor),
               Event.uniform "material.shininess" (UniformValue.float m.shininess)] } := by
  have htags : (DefineObjectMaterials.materials : List (OBJECT_MATERIAL F)).map
      OBJECT_MATERIAL.tag
      = ["wood", "blackwood", "glass", "plastic", "shinyplastic", "wall", "metal"] := rfl
  have hdefined : ∀ tag ∈ kindsMaterialTags RenderScene.kinds,
      tag ∈ (DefineObjectMaterials.materials : List (OBJECT_MATERIAL F)).map
        OBJECT_MATERIAL.tag := by
    intro tag htag
    rw [htags]
    exact RenderScene_material_tags_defined tag htag
  refine ⟨fun _ => rfl, htags, ?_, hdefined, ?_, ?_⟩
  · rw [htags]
    decide
  · intro s0 s1 images newIDs h0 hprep
    obtain ⟨h1, h2⟩ := PrepareScene_state s0 s1 images newIDs hprep
    rw [h0, List.nil_append] at h2
    exact ⟨h1, h2⟩
  · intro tag htag uninit
    obtain ⟨e, he, hetag⟩ := List.mem_map.mp (hdefined tag htag)
    obtain ⟨m, hm, hmtag, hrun⟩ := SetShaderMaterial_resolved s tag uninit hshader
      ⟨e, by rw [htable]; exact he, hetag⟩
    rw [htable] at hm
    exact ⟨m, hm, hmtag, hrun⟩

/-- C25 (witness). On the prepared scene, `SetShaderMaterial("glass")` writes
the five fields of a material of `DefineObjectMaterials` tagged "glass". -/
theorem RenderScene_materials_resolve_witness :
    ∃ m ∈ (DefineObjectMaterials.materials : List (OBJECT_MATERIAL ℚ)), m.tag = "glass" ∧
      SetShaderMaterial (scenePrepared ℚ) "glass" (zeroMaterial ℚ) = Except.ok
        { scenePrepared ℚ with
          trace := (scenePrepared ℚ).trace ++
            [Event.uniform "material.ambientColor" (UniformValue.vec3 m.ambientColor),
             Event.uniform "material.ambientStrength" (UniformValue.float m.ambientStrength),
             Event.uniform "material.diffuseColor" (UniformValue.vec3 m.diffuseColor),
             Event.uniform "material.specularColor" (UniformValue.vec3 m.specularColor),
             Event.uniform "material.shininess" (UniformValue.float m.shininess)] } :=
  (RenderScene_materials_resolve (scenePrepared ℚ) rfl rfl).2.2.2.2.2 "glass" (by decide)
    (zeroMaterial ℚ)

/-! ## The render pass: the draw sequence -/

/-- With the shader handle unset and an empty material table, a call changes
the state only if it is a draw call, which it records. -/
theorem Call.run_no_shader [Field F] (ops : glm.FloatOps F) (uninit : Nat → OBJECT_MATERIAL F)
    (s : SceneManager F) (hshader : s.m_pShaderManager = false)
    (hempty : s.m_objectMaterials = []) (c : Call F) :
    c.run ops uninit s = Except.ok
      { s with trace := s.trace ++ (kindsDraws [c.kind]).map Event.drawMesh } := by
  obtain ⟨sh, ids, n, mats, t⟩ := s
  simp only at hshader hempty
  subst hshader hempty
  cases c with
  | SetTransformations scaleXYZ ax ay az positionXYZ =>
    simp [Call.run, CS330.SetTransformations, Call.kind, kindsDraws]
  | SetTextureUVScale u v =>
    simp [Call.run, CS330.SetTextureUVScale, Call.kind, kindsDraws]
  | SetShaderTexture textureTag =>
    simp [Call.run, CS330.SetShaderTexture, Call.kind, kindsDraws]
  | SetShaderColor r g b a =>
    simp [Call.run, CS330.SetShaderColor, Call.kind, kindsDraws]
  | SetShaderMaterial materialTag k =>
    simp [Call.run, CS330.SetShaderMaterial, Call.kind, kindsDraws]
  | DrawMesh kind => rfl

/-- The draw calls among a list of call kinds that starts with one kind. -/
theorem kindsDraws_cons (k : CallKind) (ks : List CallKind) :
    kindsDraws (k :: ks) = kindsDraws [k] ++ kindsDraws ks := by
  cases k <;> simp [kindsDraws]

/-- With the shader handle unset and an empty material table, a list of calls
runs to the end and records its draw calls only. -/
theorem runCalls_no_shader [Field F] (ops : glm.FloatOps F) (uninit : Nat → OBJECT_MATERIAL F)
    (cs : List (Call F)) :
    ∀ s : SceneManager F, s.m_pShaderManager = false → s.m_objectMaterials = [] →
      runCalls ops uninit s cs = Except.ok
        { s with trace := s.trace ++ (kindsDraws (cs.map Call.kind)).map Event.drawMesh } := by
  induction cs with
  | nil =>
    intro s _ _
    simp [runCalls, kindsDraws, pure, Except.pure]
  | cons c cs ih =>
    intro s hshader hempty
    simp only [runCalls, Call.run_no_shader ops uninit s hshader hempty c, bind, Except.bind]
    have h := ih { s with trace := s.trace ++ (kindsDraws [c.kind]).map Event.drawMesh }
      hshader hempty
    have hk : kindsDraws ((c :: cs).map Call.kind)
        = kindsDraws [c.kind] ++ kindsDraws (cs.map Call.kind) := kindsDraws_cons _ _
    rw [h, hk, List.map_append, ← List.append_assoc]

/-- C26. With the shader set and the registry count within the slot array, for
every material table, every earlier trace and every content of the
uninitialised locals, one pass of `RenderScene` returns after the draw calls
box, plane, ten boxes, sphere, cylinder, torus, torus, box, cylinder, cylinder,
box, box, box, sphere and five boxes: 28 draws, of which 20 box, 1 plane, 2
sphere, 3 cylinder and 2 torus. With the shader handle unset and an empty
material table the pass returns after the same draw calls and nothing else. -/
theorem RenderScene_draw_sequence [Field F] (ops : glm.FloatOps F) (s : SceneManager F)
    (hshader : s.m_pShaderManager = true)
    (hn : s.m_loadedTextures ≤ s.m_textureIDs.length) :
    (∀ uninit : Nat → OBJECT_MATERIAL F,
      ∃ added, RenderScene ops s uninit = Except.ok { s with trace := s.trace ++ added } ∧
        drawCalls added = kindsDraws RenderScene.kinds) ∧
    kindsDraws RenderScene.kinds
      = [MeshKind.box, MeshKind.plane] ++ List.replicate 10 MeshKind.box
        ++ [MeshKind.sphere, MeshKind.cylinder, MeshKind.torus, MeshKind.torus, MeshKind.box,
            MeshKind.cylinder, MeshKind.cylinder, MeshKind.box, MeshKind.box, MeshKind.box,
            MeshKind.sphere]
        ++ List.replicate 5 MeshKind.box ∧
    (kindsDraws RenderScene.kinds).length = 28 ∧
    (kindsDraws RenderScene.kinds).count MeshKind.box = 20 ∧
    (kindsDraws RenderScene.kinds).count MeshKind.plane = 1 ∧
    (kindsDraws RenderScene.kinds).count MeshKind.sphere = 2 ∧
    (kindsDraws RenderScene.kinds).count MeshKind.cylinder = 3 ∧
    (kindsDraws RenderScene.kinds).count MeshKind.torus = 2 ∧
    (∀ (s0 : SceneManager F) (uninit : Nat → OBJECT_MATERIAL F),
      s0.m_pShaderManager = false → s0.m_objectMaterials = [] →
      RenderScene ops s0 uninit = Except.ok
        { s0 with
          trace := s0.trace ++ (kindsDraws RenderScene.kinds).map Event.drawMesh }) := by
  refine ⟨?_, by decide, by decide, by decide, by decide, by decide, by decide, by decide, ?_⟩
  · intro uninit
    obtain ⟨added, h1, h2⟩ := runCalls_draws ops uninit s hshader hn RenderScene.calls
    rw [← RenderScene_eq_runCalls] at h1
    rw [RenderScene_calls_kinds] at h2
    exact ⟨added, h1, h2⟩
  · intro s0 uninit h0 hempty
    rw [RenderScene_eq_runCalls, runCalls_no_shader ops uninit RenderScene.calls s0 h0 hempty,
      RenderScene_calls_kinds]

/-- C26 (witness). On the prepared scene, over the reals, one pass issues the
28 draw calls of the sequence. -/
theorem RenderScene_draw_sequence_witness :
    ∃ added,
      RenderScene { cos := Real.cos, sin := Real.sin, sqrt := Real.sqrt, pi := Real.pi }
        (scenePrepared ℝ) (fun _ => zeroMaterial ℝ)
        = Except.ok { scenePrepared ℝ with trace := (scenePrepared ℝ).trace ++ added } ∧
      drawCalls added
        = [MeshKind.box, MeshKind.plane] ++ List.replicate 10 MeshKind.box
          ++ [MeshKind.sphere, MeshKind.cylinder, MeshKind.torus, MeshKind.torus, MeshKind.box,
              MeshKind.cylinder, MeshKind.cylinder, MeshKind.box, MeshKind.box, MeshKind.box,
              MeshKind.sphere]
          ++ List.replicate 5 MeshKind.box := by
  obtain ⟨h1, h2, _⟩ := RenderScene_draw_sequence
    { cos := Real.cos, sin := Real.sin, sqrt := Real.sqrt, pi := Real.pi }
    (scenePrepared ℝ) rfl (by decide)
  obtain ⟨added, h3, h4⟩ := h1 (fun _ => zeroMaterial ℝ)
  exact ⟨added, h3, by rw [h4, h2]⟩

/-! ## The render pass: the calls of each object -/

/-- With an empty material table, the names written in the events of a list of
calls are those of its calls other than `SetShaderMaterial`. -/
theorem uniformNames_callsEvents_empty [Field F] (ops : glm.FloatOps F)
    (uninit : Nat → OBJECT_MATERIAL F) (s : SceneManager F)
    (hempty : s.m_objectMaterials.length = 0) (cs : List (Call F)) :
    uniformNames (callsEvents ops uninit s cs)
      = kindsWrites ((cs.map Call.kind).filter (fun k => !k.isMaterial)) := by
  induction cs with
  | nil => rfl
  | cons c cs ih =>
    unfold uniformNames at ih ⊢
    rw [callsEvents, uniformWrites_append, List.map_append, ih]
    cases c <;>
      simp [Call.events, Call.kind, kindsWrites, CallKind.writes, CallKind.isMaterial,
        uniformWrites, hempty]

/-- None of the calls of `RenderScene` other than `SetShaderMaterial` writes a
material uniform. -/
theorem RenderScene_kinds_no_material :
    ∀ name ∈ materialUniforms,
      name ∉ kindsWrites (RenderScene.kinds.filter (fun k => !k.isMaterial)) := by
  decide

/-- C27 (counterexample). Two states on which `RenderScene` makes all its calls
and issues its 28 draws without the state the claim concludes from them. With
the shader handle unset (and no material) the pass writes no uniform at all, so
no model matrix, texture flag or material was set at any draw. With the shader
set and an empty material table the model matrix is written, yet none of the
five material uniforms is written at any time. -/
theorem RenderScene_nothing_set_counterexample :
    (RenderScene { cos := Real.cos, sin := Real.sin, sqrt := Real.sqrt, pi := Real.pi }
        (sceneNoShader ℝ) (fun _ => zeroMaterial ℝ)
      = Except.ok
          { sceneNoShader ℝ with
            trace := (sceneNoShader ℝ).trace
              ++ (kindsDraws RenderScene.kinds).map Event.drawMesh } ∧
      (kindsDraws RenderScene.kinds).length = 28 ∧
      uniformNames ((sceneNoShader ℝ).trace
        ++ ((kindsDraws RenderScene.kinds).map Event.drawMesh : List (Event ℝ))) = []) ∧
    (∃ s1,
      RenderScene { cos := Real.cos, sin := Real.sin, sqrt := Real.sqrt, pi := Real.pi }
        (sceneShaderOnly ℝ) (fun _ => zeroMaterial ℝ) = Except.ok s1 ∧
      (drawCalls s1.trace).length = 28 ∧
      "model" ∈ uniformNames s1.trace ∧
      ∀ name ∈ materialUniforms, name ∉ uniformNames s1.trace) := by
  refine ⟨⟨?_, by decide, ?_⟩, ?_⟩
  · rw [RenderScene_eq_runCalls,
      runCalls_no_shader { cos := Real.cos, sin := Real.sin, sqrt := Real.sqrt, pi := Real.pi }
        (fun _ => zeroMaterial ℝ) RenderScene.calls (sceneNoShader ℝ) rfl rfl,
      RenderScene_calls_kinds]
  · show uniformNames ([] ++ ((kindsDraws RenderScene.kinds).map Event.drawMesh
      : List (Event ℝ))) = []
    rw [List.nil_append]
    decide
  · have hrun := RenderScene_ok
      { cos := Real.cos, sin := Real.sin, sqrt := Real.sqrt, pi := Real.pi }
      (fun _ => zeroMaterial ℝ) (sceneShaderOnly ℝ) rfl (by decide)
    have hnames := uniformNames_callsEvents_empty
      { cos := Real.cos, sin := Real.sin, sqrt := Real.sqrt, pi := Real.pi }
      (fun _ => zeroMaterial ℝ) (sceneShaderOnly ℝ) rfl RenderScene.calls
    rw [RenderScene_calls_kinds] at hnames
    have hdraws := drawCalls_callsEvents
      { cos := Real.cos, sin := Real.sin, sqrt := Real.sqrt, pi := Real.pi }
      (fun _ => zeroMaterial ℝ) (sceneShaderOnly ℝ) RenderScene.calls
    rw [RenderScene_calls_kinds] at hdraws
    refine ⟨_, hrun, ?_, ?_, ?_⟩
    · show (drawCalls ([] ++ callsEvents _ _ (sceneShaderOnly ℝ) RenderScene.calls)).length = 28
      rw [List.nil_append, hdraws]
      decide
    · show "model" ∈ uniformNames ([] ++ callsEvents _ _ (sceneShaderOnly ℝ) RenderScene.calls)
      rw [List.nil_append, hnames]
      decide
    · intro name hname
      show name ∉ uniformNames ([] ++ callsEvents _ _ (sceneShaderOnly ℝ) RenderScene.calls)
      rw [List.nil_append, hnames]
      exact RenderScene_kinds_no_material name hname

/-- C27 (amended). `RenderScene` runs the calls of `RenderScene.calls` in order;
they form 28 objects, each ended by its draw call. Between each draw call and
the draw before it (or the start, for the first) there is exactly one
`SetTransformations` call, exactly one call that is `SetShaderTexture` or
`SetShaderColor`, and exactly one `SetShaderMaterial` call; and the pass makes
28 calls of each of the three sorts and 28 draw calls in all, so none of them
comes after the last draw. When the shader is set, the registry count lies
within the slot array and the material table is not empty, the pass returns
and, between each draw and the draw before it, it writes exactly once the
model matrix, exactly once the texture flag "bUseTexture", exactly once one of
"objectTexture" and "objectColor", and exactly once each of the five material
uniforms. -/
theorem RenderScene_object_calls [Field F] (ops : glm.FloatOps F)
    (uninit : Nat → OBJECT_MATERIAL F) (s : SceneManager F) :
    RenderScene ops s uninit = runCalls ops uninit s RenderScene.calls ∧
    (kindsObjects ((RenderScene.calls : List (Call F)).map Call.kind)).length = 28 ∧
    (∀ obj ∈ kindsObjects ((RenderScene.calls : List (Call F)).map Call.kind),
      obj.1.count CallKind.SetTransformations = 1 ∧
      (obj.1.filter CallKind.isSurface).length = 1 ∧
      (obj.1.filter CallKind.isMaterial).length = 1) ∧
    ((RenderScene.calls : List (Call F)).map Call.kind).count CallKind.SetTransformations = 28 ∧
    (((RenderScene.calls : List (Call F)).map Call.kind).filter CallKind.isSurface).length = 28 ∧
    (((RenderScene.calls : List (Call F)).map Call.kind).filter CallKind.isMaterial).length
      = 28 ∧
    (kindsDraws ((RenderScene.calls : List (Call F)).map Call.kind)).length = 28 ∧
    (s.m_pShaderManager = true → s.m_loadedTextures ≤ s.m_textureIDs.length →
      s.m_objectMaterials.length ≠ 0 →
      ∃ added, RenderScene ops s uninit = Except.ok { s with trace := s.trace ++ added } ∧
        (drawCalls added).length = 28 ∧
        (objectWrites added).length = 28 ∧
        ∀ obj ∈ objectWrites added,
          obj.1.count "model" = 1 ∧
          obj.1.count "bUseTexture" = 1 ∧
          obj.1.count "objectTexture" + obj.1.count "objectColor" = 1 ∧
          ∀ name ∈ materialUniforms, obj.1.count name = 1) := by
  rw [RenderScene_calls_kinds]
  refine ⟨RenderScene_eq_runCalls ops s uninit, ?_, ?_, ?_, ?_, ?_, ?_, ?_⟩
  · decide
  · decide
  · decide
  · decide
  · decide
  · decide
  · intro hshader hn hne
    obtain ⟨added, h1, h2, h3⟩ := RenderScene_objectWrites ops uninit s hshader hn hne
    have hdraws : drawCalls added = kindsDraws RenderScene.kinds := by
      rw [h2, drawCalls_callsEvents, RenderScene_calls_kinds]
    refine ⟨added, h1, ?_, ?_, ?_⟩
    · rw [hdraws]
      decide
    · rw [h3]
      decide
    · rw [h3]
      decide

/-- C27 (witness). On the prepared scene, over the reals, the pass returns and
each of its 28 objects writes the model matrix and the shininess of its
material exactly once before its draw. -/
theorem RenderScene_object_calls_witness :
    ∃ added,
      RenderScene { cos := Real.cos, sin := Real.sin, sqrt := Real.sqrt, pi := Real.pi }
        (scenePrepared ℝ) (fun _ => zeroMaterial ℝ)
        = Except.ok { scenePrepared ℝ with trace := (scenePrepared ℝ).trace ++ added } ∧
      (objectWrites added).length = 28 ∧
      ∀ obj ∈ objectWrites added,
        obj.1.count "model" = 1 ∧ obj.1.count "material.shininess" = 1 := by
  obtain ⟨added, h1, _, h3, h4⟩ :=
    (RenderScene_object_calls
      { cos := Real.cos, sin := Real.sin, sqrt := Real.sqrt, pi := Real.pi }
      (fun _ => zeroMaterial ℝ) (scenePrepared ℝ)).2.2.2.2.2.2.2 rfl (by decide) (by decide)
  exact ⟨added, h1, h3, fun obj hobj =>
    ⟨(h4 obj hobj).1, (h4 obj hobj).2.2.2 "material.shininess" (by decide)⟩⟩

end CS330
